import Mathlib

/-!
# SurfaceFlinger RenderEngine: program cache and shader synthesis

A shallow embedding of `ProgramCache.cpp` and of the drawing entry points of
`GLES20RenderEngine.cpp`, followed by theorems about them.

Conventions of the embedding:

* `uint32_t` values are `Nat`; the one complement that occurs (`~mask` in
  `Key::set`) is taken on 32 bits.
* `GLfloat` values (plane alpha, colours, matrices) are rationals, compared
  exactly.
* The two builds selected by `#ifdef ENABLE_VR` are one definition with a
  Boolean argument `enableVR`.
* `Program*` values are records carrying the identity of the heap object.
* Calls into the GL driver and into `Program` are recorded, in program
  order, in a log.
-/

namespace android

/-! ## Vectors, matrices, textures, descriptions -/

/-- Four floats (`vec4`, also used for `GLfloat mColor[4]`). -/
structure vec4 where
  x : ℚ
  y : ℚ
  z : ℚ
  w : ℚ
deriving DecidableEq

/-- Column-major 4x4 matrix (`mat4`). -/
structure mat4 where
  c0 : vec4
  c1 : vec4
  c2 : vec4
  c3 : vec4
deriving DecidableEq

/-- The identity matrix, the value of the default constructor `mat4()`. -/
def mat4.identity : mat4 :=
  { c0 := ⟨1, 0, 0, 0⟩, c1 := ⟨0, 1, 0, 0⟩, c2 := ⟨0, 0, 1, 0⟩, c3 := ⟨0, 0, 0, 1⟩ }

/-- GL enumerant `GL_TEXTURE_2D`. -/
def GL_TEXTURE_2D : Nat := 0x0DE1

/-- GL enumerant `GL_TEXTURE_EXTERNAL_OES`. -/
def GL_TEXTURE_EXTERNAL_OES : Nat := 0x8D65

/-- The part of `Texture` used by the code embedded here: the GL name, the
target returned by `getTextureTarget()`, and the dimensions written by
`setDimensions()`. -/
structure Texture where
  mTextureName : Nat
  mTextureTarget : Nat
  mWidth : Nat
  mHeight : Nat
deriving DecidableEq

/-- The accessor `Texture::getTextureTarget()`. -/
def Texture.getTextureTarget (t : Texture) : Nat := t.mTextureTarget

/-- The fields of `Description` (the class is declared in `Description.h`; the
field names are those read by `ProgramCache::computeKey`). -/
structure Description where
  mPlaneAlpha : ℚ
  mPremultipliedAlpha : Bool
  mOpaque : Bool
  mTexture : Texture
  mTextureEnabled : Bool
  mColor : vec4
  mProjectionMatrix : mat4
  mColorMatrixEnabled : Bool
  mColorMatrix : mat4
  mDeformEnabled : Bool
  mDispersionEnabled : Bool
deriving DecidableEq

/-! ## `ProgramCache::Key` -/

/-- The cache key: `key_t mKey`, a `uint32_t`. -/
structure Key where
  mKey : Nat
deriving DecidableEq

namespace Key

/-- Modelled from the spec: the enumerators of `ProgramCache::Key` are declared
in `ProgramCache.h`, which is not among the sources. The spec gives the key as
disjoint bit-fields (blend 1 bit, opacity 1 bit, plane-alpha 1 bit, texture
target 2 bits, colour-matrix 1 bit, deform and dispersion 1 bit each);
`primeCache` counts through the first four, so they are the low five bits. -/
def BLEND_PREMULT : Nat := 0x00000001

/-- Modelled from the spec: blend field value for non-premultiplied alpha. -/
def BLEND_NORMAL : Nat := 0x00000000

/-- Modelled from the spec: the 1-bit blend field. -/
def BLEND_MASK : Nat := 0x00000001

/-- Modelled from the spec: opacity field value for opaque layers. -/
def OPACITY_OPAQUE : Nat := 0x00000002

/-- Modelled from the spec: opacity field value for translucent layers. -/
def OPACITY_TRANSLUCENT : Nat := 0x00000000

/-- Modelled from the spec: the 1-bit opacity field. -/
def OPACITY_MASK : Nat := 0x00000002

/-- Modelled from the spec: plane-alpha field value for alpha below one. -/
def PLANE_ALPHA_LT_ONE : Nat := 0x00000004

/-- Modelled from the spec: plane-alpha field value for alpha equal to one. -/
def PLANE_ALPHA_EQ_ONE : Nat := 0x00000000

/-- Modelled from the spec: the 1-bit plane-alpha field. -/
def PLANE_ALPHA_MASK : Nat := 0x00000004

/-- Modelled from the spec: texture field value for untextured draws. -/
def TEXTURE_OFF : Nat := 0x00000000

/-- Modelled from the spec: texture field value for external-image textures. -/
def TEXTURE_EXT : Nat := 0x00000008

/-- Modelled from the spec: texture field value for plain 2D textures. -/
def TEXTURE_2D : Nat := 0x00000010

/-- Modelled from the spec: the 2-bit texture field. -/
def TEXTURE_MASK : Nat := 0x00000018

/-- Modelled from the spec: colour-matrix field value when disabled. -/
def COLOR_MATRIX_OFF : Nat := 0x00000000

/-- Modelled from the spec: colour-matrix field value when enabled. -/
def COLOR_MATRIX_ON : Nat := 0x00000020

/-- Modelled from the spec: the 1-bit colour-matrix field. -/
def COLOR_MATRIX_MASK : Nat := 0x00000020

/-- Modelled from the spec: deform field value when disabled. -/
def DEFORMATION_OFF : Nat := 0x00000000

/-- Modelled from the spec: deform field value when enabled. -/
def DEFORMATION_ON : Nat := 0x00000040

/-- Modelled from the spec: the 1-bit deform field (stereo build). -/
def DEFORMATION_MASK : Nat := 0x00000040

/-- Modelled from the spec: dispersion field value when disabled. -/
def DISPERSION_OFF : Nat := 0x00000000

/-- Modelled from the spec: dispersion field value when enabled. -/
def DISPERSION_ON : Nat := 0x00000080

/-- Modelled from the spec: the 1-bit dispersion field (stereo build). -/
def DISPERSION_MASK : Nat := 0x00000080

/-- The default constructor `Key() : mKey(0)`. -/
def new : Key := ⟨0⟩

/-- Modelled from the spec: `Key::set(mask, value)` is declared in
`ProgramCache.h`; it overwrites the field `mask` with `value`:
`mKey = (mKey & ~mask) | value`. -/
def set (k : Key) (mask value : Nat) : Key :=
  ⟨(k.mKey &&& (0xFFFFFFFF ^^^ mask)) ||| value⟩

/-- Modelled from the spec: `Key::getTextureTarget()`, the texture field. -/
def getTextureTarget (k : Key) : Nat := k.mKey &&& TEXTURE_MASK

/-- Modelled from the spec: `Key::isTexturing()`, texture field not `OFF`. -/
def isTexturing (k : Key) : Bool := (k.mKey &&& TEXTURE_MASK) != TEXTURE_OFF

/-- Modelled from the spec: `Key::isPremultiplied()`. -/
def isPremultiplied (k : Key) : Bool := (k.mKey &&& BLEND_MASK) == BLEND_PREMULT

/-- Modelled from the spec: `Key::isOpaque()`. -/
def isOpaque (k : Key) : Bool := (k.mKey &&& OPACITY_MASK) == OPACITY_OPAQUE

/-- Modelled from the spec: `Key::hasPlaneAlpha()`. -/
def hasPlaneAlpha (k : Key) : Bool := (k.mKey &&& PLANE_ALPHA_MASK) == PLANE_ALPHA_LT_ONE

/-- Modelled from the spec: `Key::hasColorMatrix()`. -/
def hasColorMatrix (k : Key) : Bool := (k.mKey &&& COLOR_MATRIX_MASK) == COLOR_MATRIX_ON

/-- Modelled from the spec: `Key::hasDeform()` (stereo build). -/
def hasDeform (k : Key) : Bool := (k.mKey &&& DEFORMATION_MASK) == DEFORMATION_ON

/-- Modelled from the spec: `Key::hasDispersion()` (stereo build). -/
def hasDispersion (k : Key) : Bool := (k.mKey &&& DISPERSION_MASK) == DISPERSION_ON

end Key

/-! ## `ProgramCache::computeKey` -/

/-- `ProgramCache::computeKey(const Description&)`. The first five `set` calls
are common to both builds; the stereo build (`enableVR`) adds the deform and
dispersion fields. -/
def computeKey (enableVR : Bool) (description : Description) : Key :=
  let needs : Key := Key.new
  let needs := needs.set Key.TEXTURE_MASK
    (if !description.mTextureEnabled then Key.TEXTURE_OFF
     else if description.mTexture.getTextureTarget = GL_TEXTURE_EXTERNAL_OES then Key.TEXTURE_EXT
     else if description.mTexture.getTextureTarget = GL_TEXTURE_2D then Key.TEXTURE_2D
     else Key.TEXTURE_OFF)
  let needs := needs.set Key.PLANE_ALPHA_MASK
    (if description.mPlaneAlpha < 1 then Key.PLANE_ALPHA_LT_ONE else Key.PLANE_ALPHA_EQ_ONE)
  let needs := needs.set Key.BLEND_MASK
    (if description.mPremultipliedAlpha then Key.BLEND_PREMULT else Key.BLEND_NORMAL)
  let needs := needs.set Key.OPACITY_MASK
    (if description.mOpaque then Key.OPACITY_OPAQUE else Key.OPACITY_TRANSLUCENT)
  let needs := needs.set Key.COLOR_MATRIX_MASK
    (if description.mColorMatrixEnabled then Key.COLOR_MATRIX_ON else Key.COLOR_MATRIX_OFF)
  if enableVR then
    let needs := needs.set Key.DEFORMATION_MASK
      (if description.mDeformEnabled then Key.DEFORMATION_ON else Key.DEFORMATION_OFF)
    needs.set Key.DISPERSION_MASK
      (if description.mDispersionEnabled then Key.DISPERSION_ON else Key.DISPERSION_OFF)
  else
    needs

/-! ## The `Formatter` of `ProgramCache.cpp` -/

/-- The class `Formatter`. Every `operator<<` on a C string appends one
newline-terminated line to `mString`, so `mString` is kept as the list of its
lines (indentation included, terminator excluded); `getString` joins them. -/
structure Formatter where
  mLines : List String
  mIndent : Int
deriving DecidableEq

namespace Formatter

/-- The constructor `Formatter() : mIndent(0)` with an empty `mString`. -/
def new : Formatter := ⟨[], 0⟩

/-- The text `operator<<` puts in front of a line: `mIndent` times four
spaces (none when `mIndent` is not positive). -/
def indentation (f : Formatter) : String :=
  String.join (List.replicate f.mIndent.toNat "    ")

/-- The stream operator `operator << (Formatter& out, const char* in)`. -/
def out (f : Formatter) (s : String) : Formatter :=
  { f with mLines := f.mLines ++ [f.indentation ++ s] }

/-- The manipulator `indent`. -/
def indent (f : Formatter) : Formatter := { f with mIndent := f.mIndent + 1 }

/-- The manipulator `dedent`. -/
def dedent (f : Formatter) : Formatter := { f with mIndent := f.mIndent - 1 }

/-- The accessor `getString()`: every line followed by a newline. -/
def getString (f : Formatter) : String :=
  String.join (f.mLines.map (fun l => l ++ "\n"))

end Formatter

/-! ## Shader synthesis -/

/-- The formatter `vs` of `ProgramCache::generateVertexShader` at its
`return`. -/
def vertexFormatter (needs : Key) : Formatter :=
  let vs : Formatter := Formatter.new
  let vs :=
    if needs.isTexturing then
      ((((((((vs.out "attribute vec4 texCoords;").out
        "attribute vec4 texCoords_r;").out
        "attribute vec4 texCoords_g;").out
        "attribute vec4 texCoords_b;").out
        "varying vec2 outTexCoords_r;").out
        "varying vec2 outTexCoords_g;").out
        "varying vec2 outTexCoords_b;").out
        "varying vec2 outTexCoords;")
    else vs
  let vs := ((((vs.out "attribute vec4 position;").out
    "uniform mat4 projection;").out
    "uniform mat4 texture;").out
    "void main(void) \x7b").indent.out
    "gl_Position = projection * position;"
  let vs :=
    if needs.isTexturing then
      ((((vs.out "outTexCoords = (texture * texCoords).st;").out
        "outTexCoords_r = (texture * texCoords_r).st;").out
        "outTexCoords_g = (texture * texCoords_g).st;").out
        "outTexCoords_b = (texture * texCoords_b).st;")
    else vs
  vs.dedent.out "\x7d"

/-- `ProgramCache::generateVertexShader(const Key&)`. -/
def generateVertexShader (needs : Key) : String :=
  (vertexFormatter needs).getString

/-- Lines 191-218 of `generateFragmentShader`: the extension line, the
precision line, the sampler or colour declarations and the plane-alpha
uniform. The declaration of `colorMatrix` that follows in the source (lines
219-221) is commented out there and emits nothing. -/
def fragmentDeclare (needs : Key) (fs : Formatter) : Formatter :=
  let fs :=
    if needs.getTextureTarget = Key.TEXTURE_EXT then
      fs.out "#extension GL_OES_EGL_image_external : require"
    else fs
  let fs := fs.out "precision mediump float;"
  let fs :=
    if needs.getTextureTarget = Key.TEXTURE_EXT then
      ((((((fs.out "uniform samplerExternalOES sampler;").out
        "uniform sampler2D FogBorder;").out
        "varying vec2 outTexCoords;").out
        "varying vec2 outTexCoords_r;").out
        "varying vec2 outTexCoords_g;").out
        "varying vec2 outTexCoords_b;")
    else if needs.getTextureTarget = Key.TEXTURE_2D then
      (((((fs.out "uniform sampler2D sampler;").out
        "varying vec2 outTexCoords;").out
        "varying vec2 outTexCoords_r;").out
        "varying vec2 outTexCoords_g;").out
        "varying vec2 outTexCoords_b;")
    else if needs.getTextureTarget = Key.TEXTURE_OFF then
      fs.out "uniform vec4 color;"
    else fs
  if needs.hasPlaneAlpha then fs.out "uniform float alphaPlane;" else fs

/-- Lines 223-265 of `generateFragmentShader`: the colour source, a texture
sample when the key is texturing (both arms of `#ifdef ENABLE_VR`), the flat
colour otherwise. -/
def fragmentColour (enableVR : Bool) (needs : Key) (fs : Formatter) : Formatter :=
  if needs.isTexturing then
    if enableVR then
      if needs.hasDeform then
        if needs.hasDispersion then
          ((((((((((fs.out "float scale = 20.0;").out
            "float fade_top    = clamp(       outTexCoords_r.y  * scale,0.0,1.0);").out
            "float fade_bottom = clamp((1.0 - outTexCoords_r.y) * scale,0.0,1.0);").out
            "float fade_left   = clamp(       outTexCoords_r.x  * scale,0.0,1.0);").out
            "float fade_right  = clamp((1.0 - outTexCoords_r.x) * scale,0.0,1.0);").out
            "float fade = fade_top * fade_bottom * fade_left * fade_right;").out
            "gl_FragColor.r = texture2D(sampler, outTexCoords_r).r * fade;").out
            "gl_FragColor.g = texture2D(sampler, outTexCoords_g).g * fade;").out
            "gl_FragColor.b = texture2D(sampler, outTexCoords_b).b * fade;").out
            "gl_FragColor.a = 1.0;")
        else
          ((((((((fs.out "float scale = 20.0;").out
            "float fade_top    = clamp(       outTexCoords_r.y  * scale,0.0,1.0);").out
            "float fade_bottom = clamp((1.0 - outTexCoords_r.y) * scale,0.0,1.0);").out
            "float fade_left   = clamp(       outTexCoords_r.x  * scale,0.0,1.0);").out
            "float fade_right  = clamp((1.0 - outTexCoords_r.x) * scale,0.0,1.0);").out
            "float fade = fade_top * fade_bottom * fade_left * fade_right;").out
            "gl_FragColor   = texture2D(sampler, outTexCoords_r) * fade;").out
            "gl_FragColor.a = 1.0;")
      else
        fs.out "   gl_FragColor = texture2D(sampler, outTexCoords);"
    else
      fs.out "gl_FragColor = texture2D(sampler, outTexCoords);"
  else
    fs.out "gl_FragColor = color;"

/-- Lines 266-268 of `generateFragmentShader`: force alpha to one for an
opaque key. -/
def fragmentOpaque (needs : Key) (fs : Formatter) : Formatter :=
  if needs.isOpaque then fs.out "gl_FragColor.a = 1.0;" else fs

/-- Lines 269-277 of `generateFragmentShader`: modulate by the plane alpha. -/
def fragmentPlaneAlpha (needs : Key) (fs : Formatter) : Formatter :=
  if needs.hasPlaneAlpha then
    if needs.isPremultiplied then fs.out "gl_FragColor *= alphaPlane;"
    else fs.out "gl_FragColor.a *= alphaPlane;"
  else fs

/-- Lines 279-292 of `generateFragmentShader`: apply the colour matrix in
linear space. -/
def fragmentColorMatrix (needs : Key) (fs : Formatter) : Formatter :=
  if needs.hasColorMatrix then
    let fs :=
      if !needs.isOpaque && needs.isPremultiplied then
        fs.out "gl_FragColor.rgb = gl_FragColor.rgb/gl_FragColor.a;"
      else fs
    let fs := fs.out "gl_FragColor.rgb = pow(gl_FragColor.rgb, vec3(2.2));"
    let fs := fs.out "vec4 transformed = colorMatrix * vec4(gl_FragColor.rgb, 1);"
    let fs := fs.out "gl_FragColor.rgb = transformed.rgb/transformed.a;"
    let fs := fs.out "gl_FragColor.rgb = pow(gl_FragColor.rgb, vec3(1.0 / 2.2));"
    if !needs.isOpaque && needs.isPremultiplied then
      fs.out "gl_FragColor.rgb = gl_FragColor.rgb*gl_FragColor.a;"
    else fs
  else fs

/-- The formatter `fs` of `ProgramCache::generateFragmentShader` at its
`return`: the body of the function, block by block. -/
def fragmentFormatter (enableVR : Bool) (needs : Key) : Formatter :=
  let fs : Formatter := Formatter.new
  let fs := fragmentDeclare needs fs
  let fs := (fs.out "void main(void) \x7b").indent
  let fs := fragmentColour enableVR needs fs
  let fs := fragmentOpaque needs fs
  let fs := fragmentPlaneAlpha needs fs
  let fs := fragmentColorMatrix needs fs
  fs.dedent.out "\x7d"

/-- `ProgramCache::generateFragmentShader(const Key&)`. -/
def generateFragmentShader (enableVR : Bool) (needs : Key) : String :=
  (fragmentFormatter enableVR needs).getString

/-! ## Programs, the GL log and the cache -/

/-- A `Program` object as seen by `ProgramCache`: `mId` is the identity of the
heap object returned by `new Program`, the two sources are the constructor's
arguments, and `mInitialized` is what `isValid()` returns (set by the
constructor when compiling and linking succeeded). -/
structure Program where
  mId : Nat
  mVertexShader : String
  mFragmentShader : String
  mInitialized : Bool
deriving DecidableEq

/-- The accessor `Program::isValid()`. -/
def Program.isValid (p : Program) : Bool := p.mInitialized

/-- The GL driver's verdict on compiling and linking the sources handed to the
`n`-th `Program` constructed by the process. -/
abbrev Driver := Nat → String → String → Bool

/-- The vertex attribute slots named in `Program` (`Program::position`,
`Program::texCoords` and, for the warp mesh, one set of texture coordinates
per colour channel). -/
inductive Attrib where
  | position
  | texCoords
  | texCoords_r
  | texCoords_g
  | texCoords_b
deriving DecidableEq

/-- One recorded call. `generateProgram` records an invocation of
`ProgramCache::generateProgram`; `use` and `setUniforms` are the two `Program`
methods called by `useProgram`; the rest are GL entry points, with the
arguments that vary between the calls of the code embedded here (a `glGen*`
call carries the name it returned). -/
inductive Call where
  | generateProgram (needs : Key)
  | use (program : Program)
  | setUniforms (program : Program) (description : Description)
  | glEnableVertexAttribArray (index : Attrib)
  | glVertexAttribPointer (index : Attrib) (size : Nat) (stride : Nat) (pointer : Nat)
  | glDrawArrays (mode : Nat) (first : Nat) (count : Nat)
  | glDisableVertexAttribArray (index : Attrib)
  | glViewport (x : Nat) (y : Nat) (width : Nat) (height : Nat)
  | glEnable (cap : Nat)
  | glDisable (cap : Nat)
  | glBlendFuncSeparate (srcRGB : Nat) (dstRGB : Nat) (srcAlpha : Nat) (dstAlpha : Nat)
  | glGenTextures (name : Nat)
  | glBindTexture (target : Nat) (texture : Nat)
  | glTexParameteri (target : Nat) (pname : Nat) (param : Nat)
  | glTexImage2D (target : Nat) (width : ℚ) (height : ℚ)
  | glDeleteTextures (name : Nat)
  | glGenFramebuffers (name : Nat)
  | glBindFramebuffer (framebuffer : Nat)
  | glFramebufferTexture2D (texture : Nat)
  | glDeleteFramebuffers (name : Nat)
  | glGenBuffers (name : Nat)
  | glBindBuffer (buffer : Nat)
  | glBufferData (size : Nat)
deriving DecidableEq

/-- `DefaultKeyedVector<Key, Program*>::valueFor`: the value stored under
`key`, or the default (`NULL`, here `none`) when the key is absent. -/
def valueFor : List (Key × Program) → Key → Option Program
  | [], _ => none
  | (k, v) :: rest, key => if k = key then some v else valueFor rest key

/-- `KeyedVector::add` on the vector sorted by `mKey`
(`strictly_order_type`): inserts at the ordered position, and replaces the
item when the key is already present. -/
def add : List (Key × Program) → Key → Program → List (Key × Program)
  | [], key, value => [(key, value)]
  | (k, v) :: rest, key, value =>
    if key.mKey < k.mKey then (key, value) :: (k, v) :: rest
    else if k.mKey < key.mKey then (k, v) :: add rest key value
    else (key, value) :: rest

/-- The singleton `ProgramCache`: the member `mCache`, plus the two pieces of
process state its methods touch, the number of `Program` objects constructed
so far (the next heap identity) and the log of calls. -/
structure ProgramCache where
  mCache : List (Key × Program)
  mAllocated : Nat
  log : List Call
deriving DecidableEq

/-- A cache with no entries, before the constructor body runs. -/
def ProgramCache.empty : ProgramCache := ⟨[], 0, []⟩

/-- Appends one call to the log. -/
def ProgramCache.record (c : ProgramCache) (call : Call) : ProgramCache :=
  { c with log := c.log ++ [call] }

/-- `ProgramCache::generateProgram(const Key&)`: builds both sources and
constructs a new `Program` from them. -/
def generateProgram (enableVR : Bool) (driver : Driver) (c : ProgramCache) (needs : Key) :
    ProgramCache × Program :=
  let vs := generateVertexShader needs
  let fs := generateFragmentShader enableVR needs
  let program : Program :=
    { mId := c.mAllocated, mVertexShader := vs, mFragmentShader := fs,
      mInitialized := driver c.mAllocated vs fs }
  ({ (c.record (Call.generateProgram needs)) with mAllocated := c.mAllocated + 1 }, program)

/-- The first half of `ProgramCache::useProgram`, up to
"here we have a suitable program for this description": look the key up and,
on a miss, generate a program and add it. Returns the local `program`. -/
def lookupOrGenerate (enableVR : Bool) (driver : Driver) (c : ProgramCache) (needs : Key) :
    ProgramCache × Program :=
  match valueFor c.mCache needs with
  | some program => (c, program)
  | none =>
    let r := generateProgram enableVR driver c needs
    ({ r.1 with mCache := add r.1.mCache needs r.2 }, r.2)

/-- `ProgramCache::useProgram(const Description&)`. -/
def useProgram (enableVR : Bool) (driver : Driver) (c : ProgramCache)
    (description : Description) : ProgramCache :=
  let needs := computeKey enableVR description
  let r := lookupOrGenerate enableVR driver c needs
  if r.2.isValid then
    (r.1.record (Call.use r.2)).record (Call.setUniforms r.2 description)
  else r.1

/-- One iteration of the loop of `ProgramCache::primeCache`. -/
def primeStep (enableVR : Bool) (driver : Driver) (keyMask : Nat) (c : ProgramCache)
    (keyVal : Nat) : ProgramCache :=
  let shaderKey := Key.new.set keyMask keyVal
  let tex := shaderKey.getTextureTarget
  if tex ≠ Key.TEXTURE_OFF ∧ tex ≠ Key.TEXTURE_EXT ∧ tex ≠ Key.TEXTURE_2D then c
  else
    match valueFor c.mCache shaderKey with
    | some _ => c
    | none =>
      let r := generateProgram enableVR driver c shaderKey
      { r.1 with mCache := add r.1.mCache shaderKey r.2 }

/-- `ProgramCache::primeCache()`: `keyVal` runs from `0` to `keyMask`
inclusive. -/
def primeCache (enableVR : Bool) (driver : Driver) (c : ProgramCache) : ProgramCache :=
  let keyMask := Key.BLEND_MASK ||| Key.OPACITY_MASK ||| Key.PLANE_ALPHA_MASK ||| Key.TEXTURE_MASK
  (List.range (keyMask + 1)).foldl (primeStep enableVR driver keyMask) c

/-- The constructor `ProgramCache::ProgramCache()`, which primes the cache. -/
def ProgramCache.new (enableVR : Bool) (driver : Driver) : ProgramCache :=
  primeCache enableVR driver ProgramCache.empty

/-! ## `GLES20RenderEngine::drawMesh` -/

/-- The values of the `Mesh` accessors read by `drawMesh` (the class is
declared in `Mesh.h`); pointers are addresses. -/
structure Mesh where
  getPrimitive : Nat
  getVertexCount : Nat
  getVertexSize : Nat
  getTexCoordsSize : Nat
  getByteStride : Nat
  getPositions : Nat
  getTexCoords : Nat
deriving DecidableEq

/-- `GLES20RenderEngine::drawMesh(const Mesh&)`, with `mState` the engine's
current description. In the stereo build it first calls `print3dLog()`, which
only writes to the system log. -/
def drawMesh (enableVR : Bool) (driver : Driver) (c : ProgramCache) (mState : Description)
    (mesh : Mesh) : ProgramCache :=
  let c := useProgram enableVR driver c mState
  let c :=
    if mesh.getTexCoordsSize ≠ 0 then
      (c.record (Call.glEnableVertexAttribArray Attrib.texCoords)).record
        (Call.glVertexAttribPointer Attrib.texCoords mesh.getTexCoordsSize
          mesh.getByteStride mesh.getTexCoords)
    else c
  let c := c.record
    (Call.glVertexAttribPointer Attrib.position mesh.getVertexSize
      mesh.getByteStride mesh.getPositions)
  let c := c.record (Call.glDrawArrays mesh.getPrimitive 0 mesh.getVertexCount)
  if mesh.getTexCoordsSize ≠ 0 then
    c.record (Call.glDisableVertexAttribArray Attrib.texCoords)
  else c

/-! ## Sequences of cache operations -/

/-- The two public operations on the cache. -/
inductive Op where
  | primeCache
  | useProgram (description : Description)
deriving DecidableEq

/-- Runs one operation. -/
def Op.apply (enableVR : Bool) (driver : Driver) (c : ProgramCache) : Op → ProgramCache
  | Op.primeCache => android.primeCache enableVR driver c
  | Op.useProgram description => android.useProgram enableVR driver c description

/-- Runs a sequence of operations, first to last. -/
def runOps (enableVR : Bool) (driver : Driver) (c : ProgramCache) (ops : List Op) :
    ProgramCache :=
  ops.foldl (Op.apply enableVR driver) c

/-- The number of `generateProgram` invocations recorded in a log. -/
def generateCount (log : List Call) : Nat :=
  (log.filter (fun call => match call with
    | Call.generateProgram _ => true
    | _ => false)).length

/-- The number of `glDrawArrays` calls recorded in a log. -/
def drawCount (log : List Call) : Nat :=
  (log.filter (fun call => match call with
    | Call.glDrawArrays _ _ _ => true
    | _ => false)).length

/-! ## Vocabulary of the specification -/

/-- The three texture categories a key distinguishes. -/
inductive TextureCategory where
  | off
  | ext
  | tex2D
deriving DecidableEq

/-- The texture field value that stands for a category. -/
def TextureCategory.field : TextureCategory → Nat
  | TextureCategory.off => Key.TEXTURE_OFF
  | TextureCategory.ext => Key.TEXTURE_EXT
  | TextureCategory.tex2D => Key.TEXTURE_2D

/-- The texture category of a description in the words of the specification:
`OFF` if the description is untextured, else `EXT` or `2D` depending on the
bound texture's target, any other target being treated as `OFF`. -/
def textureCategory (d : Description) : TextureCategory :=
  if d.mTextureEnabled = false then TextureCategory.off
  else if d.mTexture.getTextureTarget = GL_TEXTURE_EXTERNAL_OES then TextureCategory.ext
  else if d.mTexture.getTextureTarget = GL_TEXTURE_2D then TextureCategory.tex2D
  else TextureCategory.off

/-- Two descriptions agree on every enable flag and category: textured,
texture target, premultiplied alpha, opaque, colour matrix enabled, deform
enabled, dispersion enabled. -/
def SameFeatures (d1 d2 : Description) : Prop :=
  d1.mTextureEnabled = d2.mTextureEnabled ∧
  d1.mTexture.getTextureTarget = d2.mTexture.getTextureTarget ∧
  d1.mPremultipliedAlpha = d2.mPremultipliedAlpha ∧
  d1.mOpaque = d2.mOpaque ∧
  d1.mColorMatrixEnabled = d2.mColorMatrixEnabled ∧
  d1.mDeformEnabled = d2.mDeformEnabled ∧
  d1.mDispersionEnabled = d2.mDispersionEnabled

/-- The key assembled from the seven categories, by the same chain of `set`
calls as `computeKey`. -/
def keyOfFields (enableVR : Bool) (tex : TextureCategory)
    (ltOne premult opaq matrix deform dispersion : Bool) : Key :=
  let needs := ((((Key.new.set Key.TEXTURE_MASK tex.field).set Key.PLANE_ALPHA_MASK
      (if ltOne then Key.PLANE_ALPHA_LT_ONE else Key.PLANE_ALPHA_EQ_ONE)).set Key.BLEND_MASK
      (if premult then Key.BLEND_PREMULT else Key.BLEND_NORMAL)).set Key.OPACITY_MASK
      (if opaq then Key.OPACITY_OPAQUE else Key.OPACITY_TRANSLUCENT)).set Key.COLOR_MATRIX_MASK
      (if matrix then Key.COLOR_MATRIX_ON else Key.COLOR_MATRIX_OFF)
  if enableVR then
    (needs.set Key.DEFORMATION_MASK
      (if deform then Key.DEFORMATION_ON else Key.DEFORMATION_OFF)).set Key.DISPERSION_MASK
      (if dispersion then Key.DISPERSION_ON else Key.DISPERSION_OFF)
  else needs

/-! ## Sample inputs -/

/-- An untextured, translucent, non-premultiplied layer at full plane alpha,
with identity matrices and a transparent black colour. -/
def plainLayer : Description :=
  { mPlaneAlpha := 1, mPremultipliedAlpha := false, mOpaque := false,
    mTexture := ⟨0, 0, 0, 0⟩, mTextureEnabled := false, mColor := ⟨0, 0, 0, 0⟩,
    mProjectionMatrix := mat4.identity, mColorMatrixEnabled := false,
    mColorMatrix := mat4.identity, mDeformEnabled := false, mDispersionEnabled := false }

/-- The same layer at half plane alpha. -/
def halfAlphaLayer : Description := { plainLayer with mPlaneAlpha := 1 / 2 }

/-- The layer at a quarter plane alpha, with another colour matrix content and
another solid colour. -/
def quarterAlphaLayer : Description :=
  { plainLayer with
    mPlaneAlpha := 1 / 4
    mColorMatrix := { mat4.identity with c3 := ⟨1, 2, 3, 1⟩ }
    mColor := ⟨1, 0, 0, 1⟩ }

/-- The vector is strictly sorted by `mKey`. -/
def SortedByKey (l : List (Key × Program)) : Prop :=
  l.Pairwise (fun a b => a.1.mKey < b.1.mKey)

/-- The invariant of the cache: as many `generateProgram` invocations were
recorded as there are entries, and the vector is strictly sorted by key. -/
def CacheInv (c : ProgramCache) : Prop :=
  generateCount c.log = c.mCache.length ∧ SortedByKey c.mCache

/-- The cache `c2` keeps everything `c1` holds: every entry of `c1` is an entry
of `c2`, every lookup that succeeds in `c1` gives the same program in `c2`,
and `c2` satisfies the invariant if `c1` does. -/
def Grows (c1 c2 : ProgramCache) : Prop :=
  (∀ e ∈ c1.mCache, e ∈ c2.mCache) ∧
  (∀ k p, valueFor c1.mCache k = some p → valueFor c2.mCache k = some p) ∧
  (CacheInv c1 → CacheInv c2)

/-- A driver that accepts every program. -/
def acceptAll : Driver := fun _ _ _ => true

/-- A driver that rejects every program. -/
def rejectAll : Driver := fun _ _ _ => false

/-- A quad drawn as a triangle fan: four vertices of two floats each, with two
texture coordinates per vertex. -/
def quadMesh : Mesh :=
  { getPrimitive := 6, getVertexCount := 4, getVertexSize := 2, getTexCoordsSize := 2,
    getByteStride := 16, getPositions := 4096, getTexCoords := 4104 }

/-- The GL calls `drawMesh` makes for a mesh after the program was selected. -/
def meshCalls (mesh : Mesh) : List Call :=
  (if mesh.getTexCoordsSize ≠ 0 then
    [Call.glEnableVertexAttribArray Attrib.texCoords,
     Call.glVertexAttribPointer Attrib.texCoords mesh.getTexCoordsSize mesh.getByteStride
       mesh.getTexCoords]
   else []) ++
  [Call.glVertexAttribPointer Attrib.position mesh.getVertexSize mesh.getByteStride
     mesh.getPositions,
   Call.glDrawArrays mesh.getPrimitive 0 mesh.getVertexCount] ++
  (if mesh.getTexCoordsSize ≠ 0 then [Call.glDisableVertexAttribArray Attrib.texCoords]
   else [])

/-- The statements of the fragment `main`: the lines of the fragment source
after the line that opens `main`, without the closing brace. -/
def fragmentBody (enableVR : Bool) (needs : Key) : List String :=
  (((fragmentFormatter enableVR needs).mLines.dropWhile
    (fun l => l != "void main(void) \x7b")).drop 1).dropLast

/-- The lines of the fragment source in front of the line that opens `main`. -/
def fragmentDeclarations (enableVR : Bool) (needs : Key) : List String :=
  (fragmentFormatter enableVR needs).mLines.takeWhile (fun l => l != "void main(void) \x7b")

/-- The declarations the fragment source has for a key. -/
def expectedDeclarations (needs : Key) : List String :=
  (if needs.getTextureTarget = Key.TEXTURE_EXT then
    ["#extension GL_OES_EGL_image_external : require"] else []) ++
  ["precision mediump float;"] ++
  (if needs.getTextureTarget = Key.TEXTURE_EXT then
    ["uniform samplerExternalOES sampler;", "uniform sampler2D FogBorder;",
     "varying vec2 outTexCoords;", "varying vec2 outTexCoords_r;",
     "varying vec2 outTexCoords_g;", "varying vec2 outTexCoords_b;"]
   else if needs.getTextureTarget = Key.TEXTURE_2D then
    ["uniform sampler2D sampler;", "varying vec2 outTexCoords;",
     "varying vec2 outTexCoords_r;", "varying vec2 outTexCoords_g;",
     "varying vec2 outTexCoords_b;"]
   else if needs.getTextureTarget = Key.TEXTURE_OFF then ["uniform vec4 color;"]
   else []) ++
  (if needs.hasPlaneAlpha then ["uniform float alphaPlane;"] else [])

/-- The fade computation that opens the colour source of a deform key. -/
def fadeLines : List String :=
  ["    float scale = 20.0;",
   "    float fade_top    = clamp(       outTexCoords_r.y  * scale,0.0,1.0);",
   "    float fade_bottom = clamp((1.0 - outTexCoords_r.y) * scale,0.0,1.0);",
   "    float fade_left   = clamp(       outTexCoords_r.x  * scale,0.0,1.0);",
   "    float fade_right  = clamp((1.0 - outTexCoords_r.x) * scale,0.0,1.0);",
   "    float fade = fade_top * fade_bottom * fade_left * fade_right;"]

/-- The key takes the deform path of the stereo build: stereo build,
texturing, deform on. -/
def deformPath (enableVR : Bool) (needs : Key) : Bool :=
  enableVR && needs.isTexturing && needs.hasDeform

/-- The colour source of the fragment body: the flat colour for a key that is
not texturing, one texture sample for a texturing key, and, on the deform
path, the fade computation, the faded sample (one per channel with
dispersion) and a statement forcing alpha to one. -/
def colourSource (enableVR : Bool) (needs : Key) : List String :=
  if deformPath enableVR needs then
    fadeLines ++
    (if needs.hasDispersion then
      ["    gl_FragColor.r = texture2D(sampler, outTexCoords_r).r * fade;",
       "    gl_FragColor.g = texture2D(sampler, outTexCoords_g).g * fade;",
       "    gl_FragColor.b = texture2D(sampler, outTexCoords_b).b * fade;"]
     else ["    gl_FragColor   = texture2D(sampler, outTexCoords_r) * fade;"]) ++
    ["    gl_FragColor.a = 1.0;"]
  else if needs.isTexturing then
    [if enableVR then "       gl_FragColor = texture2D(sampler, outTexCoords);"
     else "    gl_FragColor = texture2D(sampler, outTexCoords);"]
  else ["    gl_FragColor = color;"]

/-- The statement forcing alpha to one, present iff the key is opaque. -/
def opaquePart (needs : Key) : List String :=
  if needs.isOpaque then ["    gl_FragColor.a = 1.0;"] else []

/-- The plane-alpha modulation, present iff the key has plane alpha: of the
whole colour when premultiplied, of alpha only otherwise. -/
def planeAlphaPart (needs : Key) : List String :=
  if needs.hasPlaneAlpha then
    [if needs.isPremultiplied then "    gl_FragColor *= alphaPlane;"
     else "    gl_FragColor.a *= alphaPlane;"]
  else []

/-- The colour-matrix statements, present iff the key has the colour matrix:
un-premultiply, linearize, multiply, divide, restore gamma, re-premultiply,
the first and the last exactly when the key is premultiplied and not
opaque. -/
def colorMatrixPart (needs : Key) : List String :=
  if needs.hasColorMatrix then
    (if needs.isPremultiplied && !needs.isOpaque then
      ["    gl_FragColor.rgb = gl_FragColor.rgb/gl_FragColor.a;"] else []) ++
    ["    gl_FragColor.rgb = pow(gl_FragColor.rgb, vec3(2.2));",
     "    vec4 transformed = colorMatrix * vec4(gl_FragColor.rgb, 1);",
     "    gl_FragColor.rgb = transformed.rgb/transformed.a;",
     "    gl_FragColor.rgb = pow(gl_FragColor.rgb, vec3(1.0 / 2.2));"] ++
    (if needs.isPremultiplied && !needs.isOpaque then
      ["    gl_FragColor.rgb = gl_FragColor.rgb*gl_FragColor.a;"] else [])
  else []

/-- A stereo layer drawn from a 2D texture with deform on, translucent, at
full plane alpha. -/
def deformLayer : Description :=
  { plainLayer with
    mTexture := ⟨1, GL_TEXTURE_2D, 0, 0⟩
    mTextureEnabled := true
    mDeformEnabled := true }

/-! ## GL enumerants and the GL context -/

/-- GL enumerant `GL_BLEND`. -/
def GL_BLEND : Nat := 0x0BE2

/-- GL enumerant `GL_ZERO`. -/
def GL_ZERO : Nat := 0

/-- GL enumerant `GL_ONE`. -/
def GL_ONE : Nat := 1

/-- GL enumerant `GL_SRC_ALPHA`. -/
def GL_SRC_ALPHA : Nat := 0x0302

/-- GL enumerant `GL_ONE_MINUS_SRC_ALPHA`. -/
def GL_ONE_MINUS_SRC_ALPHA : Nat := 0x0303

/-- GL enumerant `GL_TEXTURE_MAG_FILTER`. -/
def GL_TEXTURE_MAG_FILTER : Nat := 0x2800

/-- GL enumerant `GL_TEXTURE_MIN_FILTER`. -/
def GL_TEXTURE_MIN_FILTER : Nat := 0x2801

/-- GL enumerant `GL_TEXTURE_WRAP_S`. -/
def GL_TEXTURE_WRAP_S : Nat := 0x2802

/-- GL enumerant `GL_TEXTURE_WRAP_T`. -/
def GL_TEXTURE_WRAP_T : Nat := 0x2803

/-- GL enumerant `GL_NEAREST`. -/
def GL_NEAREST : Nat := 0x2600

/-- GL enumerant `GL_LINEAR`. -/
def GL_LINEAR : Nat := 0x2601

/-- GL enumerant `GL_CLAMP_TO_EDGE`. -/
def GL_CLAMP_TO_EDGE : Nat := 0x812F

/-- GL enumerant `GL_TRIANGLES` (`Mesh::TRIANGLES`). -/
def GL_TRIANGLES : Nat := 0x0004

/-- GL enumerant `GL_TRIANGLE_FAN` (`Mesh::TRIANGLE_FAN`). -/
def GL_TRIANGLE_FAN : Nat := 0x0006

/-- The four factors set by `glBlendFuncSeparate`. -/
structure BlendFunc where
  srcRGB : Nat
  dstRGB : Nat
  srcAlpha : Nat
  dstAlpha : Nat
deriving DecidableEq

/-- The part of the GL context the embedded code acts on: how many names
each `glGen*` entry point has handed out, which names are framebuffer objects
(`glIsFramebuffer`), the current bindings, the blend state and the viewport. -/
structure GLContext where
  textureNames : Nat
  framebufferNames : Nat
  bufferNames : Nat
  framebufferObjects : List Nat
  framebufferBinding : Nat
  textureBinding2D : Nat
  arrayBufferBinding : Nat
  blend : Bool
  blendFunc : BlendFunc
  viewport : Nat × Nat × Nat × Nat
deriving DecidableEq

/-- A fresh context: nothing generated or bound, blending off with the
initial factors `(GL_ONE, GL_ZERO)`. -/
def GLContext.initial : GLContext :=
  { textureNames := 0, framebufferNames := 0, bufferNames := 0, framebufferObjects := [],
    framebufferBinding := 0, textureBinding2D := 0, arrayBufferBinding := 0, blend := false,
    blendFunc := ⟨GL_ONE, GL_ZERO, GL_ONE, GL_ZERO⟩, viewport := (0, 0, 0, 0) }

/-- The query `glIsFramebuffer`: true for a name that has been bound and not
deleted since; never for zero. -/
def GLContext.glIsFramebuffer (gl : GLContext) (name : Nat) : Bool :=
  decide (name ∈ gl.framebufferObjects)

/-- The effect of one call on the context. A `glGen*` call hands out the next
unused name; binding a non-zero framebuffer name makes it a framebuffer
object; deleting the bound framebuffer or texture reverts the binding to
zero. Calls that act on object contents only leave the context as it is. -/
def GLContext.apply (gl : GLContext) : Call → GLContext
  | Call.glViewport x y width height => { gl with viewport := (x, y, width, height) }
  | Call.glEnable cap => { gl with blend := if cap = GL_BLEND then true else gl.blend }
  | Call.glDisable cap => { gl with blend := if cap = GL_BLEND then false else gl.blend }
  | Call.glBlendFuncSeparate srcRGB dstRGB srcAlpha dstAlpha =>
    { gl with blendFunc := ⟨srcRGB, dstRGB, srcAlpha, dstAlpha⟩ }
  | Call.glGenTextures _ => { gl with textureNames := gl.textureNames + 1 }
  | Call.glBindTexture target texture =>
    { gl with
      textureBinding2D := if target = GL_TEXTURE_2D then texture else gl.textureBinding2D }
  | Call.glDeleteTextures name =>
    { gl with
      textureBinding2D :=
        if name ≠ 0 ∧ gl.textureBinding2D = name then 0 else gl.textureBinding2D }
  | Call.glGenFramebuffers _ => { gl with framebufferNames := gl.framebufferNames + 1 }
  | Call.glBindFramebuffer framebuffer =>
    { gl with
      framebufferBinding := framebuffer
      framebufferObjects :=
        if framebuffer = 0 ∨ framebuffer ∈ gl.framebufferObjects then gl.framebufferObjects
        else framebuffer :: gl.framebufferObjects }
  | Call.glDeleteFramebuffers name =>
    { gl with
      framebufferObjects := gl.framebufferObjects.filter (fun n => n != name)
      framebufferBinding :=
        if name ≠ 0 ∧ gl.framebufferBinding = name then 0 else gl.framebufferBinding }
  | Call.glGenBuffers _ => { gl with bufferNames := gl.bufferNames + 1 }
  | Call.glBindBuffer buffer => { gl with arrayBufferBinding := buffer }
  | _ => gl

/-! ## The configuration store -/

/-- The system properties: names with their string values. -/
abbrev Properties := List (String × String)

/-- `property_get(key, value, default_value)`: the stored value, or the
default when the property is unset or empty. -/
def property_get (props : Properties) (key : String) (default_value : String) : String :=
  match props.lookup key with
  | some value => if value.isEmpty then default_value else value
  | none => default_value

/-- `property_set(key, value)`. -/
def property_set (props : Properties) (key : String) (value : String) : Properties :=
  (key, value) :: props.filter (fun entry => entry.1 != key)

/-- The digits read by `strtol` after the sign, most significant first. -/
def atoiDigits : List Char → Int → Int
  | [], acc => acc
  | c :: cs, acc => if c.isDigit then atoiDigits cs (acc * 10 + (c.toNat - 48 : Nat)) else acc

/-- The largest `long`, for a `long` of 64 bits. -/
def LONG_MAX : Int := 2 ^ 63 - 1

/-- The smallest `long`, for a `long` of 64 bits. -/
def LONG_MIN : Int := -(2 ^ 63)

/-- The C library's `strtol(s, NULL, 10)`: skips white space, reads an
optional sign and the decimal digits that follow; no digits give zero, and a
value outside the range of `long` gives the nearest end of that range. -/
def strtol (s : String) : Int :=
  let value :=
    match s.toList.dropWhile (fun c => c == ' ' || (9 ≤ c.toNat && c.toNat ≤ 13)) with
    | '-' :: rest => - atoiDigits rest 0
    | '+' :: rest => atoiDigits rest 0
    | rest => atoiDigits rest 0
  if value > LONG_MAX then LONG_MAX else if value < LONG_MIN then LONG_MIN else value

/-- The conversion of a `long` to the 32-bit `int`: the value of the low 32
bits in two's complement. -/
def longToInt (x : Int) : Int := (x + 2 ^ 31) % 2 ^ 32 - 2 ^ 31

/-- The C library's `atoi`, which is `(int) strtol(s, NULL, 10)`: the result
is a 32-bit `int`. -/
def atoi (s : String) : Int := longToInt (strtol s)

/-! ## The description's setters and the texture object -/

/-- The constructor `Texture(Target, uint32_t)`, with zero dimensions. -/
def Texture.new (textureTarget : Nat) (tname : Nat) : Texture :=
  { mTextureName := tname, mTextureTarget := textureTarget, mWidth := 0, mHeight := 0 }

/-- The setter `Texture::setDimensions`. -/
def Texture.setDimensions (t : Texture) (width height : Nat) : Texture :=
  { t with mWidth := width, mHeight := height }

namespace Description

/-- Modelled from the spec: `Description::setPlaneAlpha` (`Description.cpp` is
not among the sources) stores the plane alpha. -/
def setPlaneAlpha (d : Description) (planeAlpha : ℚ) : Description :=
  { d with mPlaneAlpha := planeAlpha }

/-- Modelled from the spec: `Description::setPremultipliedAlpha` stores the
flag. -/
def setPremultipliedAlpha (d : Description) (premultipliedAlpha : Bool) : Description :=
  { d with mPremultipliedAlpha := premultipliedAlpha }

/-- Modelled from the spec: `Description::setOpaque` stores the flag. -/
def setOpaque (d : Description) (opaq : Bool) : Description :=
  { d with mOpaque := opaq }

/-- Modelled from the spec: `Description::setTexture` stores the texture and
enables texturing. -/
def setTexture (d : Description) (texture : Texture) : Description :=
  { d with mTexture := texture, mTextureEnabled := true }

/-- Modelled from the spec: `Description::disableTexture` disables
texturing. -/
def disableTexture (d : Description) : Description :=
  { d with mTextureEnabled := false }

/-- Modelled from the spec: `Description::setProjectionMatrix` stores the
matrix. -/
def setProjectionMatrix (d : Description) (mtx : mat4) : Description :=
  { d with mProjectionMatrix := mtx }

/-- Modelled from the spec: `Description::setColorMatrix` stores the matrix;
the enable flag says whether the matrix differs from the identity. -/
def setColorMatrix (d : Description) (mtx : mat4) : Description :=
  { d with mColorMatrix := mtx, mColorMatrixEnabled := decide (mtx ≠ mat4.identity) }

/-- Modelled from the spec: `Description::setDeform` stores the deform flag. -/
def setDeform (d : Description) (enable : Bool) : Description :=
  { d with mDeformEnabled := enable }

/-- Modelled from the spec: `Description::setDisper` stores the dispersion
flag. -/
def setDisper (d : Description) (enable : Bool) : Description :=
  { d with mDispersionEnabled := enable }

end Description

/-! ## The engine -/

/-- Two floats (`vec2`). -/
structure vec2 where
  x : ℚ
  y : ℚ
deriving DecidableEq

/-- One entry of the group stack (`struct Group` of the engine): the texture
and framebuffer names, the size and the captured colour transform. -/
structure Group where
  texture : Nat
  fbo : Nat
  width : Nat
  height : Nat
  colorTransform : mat4
deriving DecidableEq

/-- The members of `mVRInfoTable` used by the embedded code. The two sizes
hold the value of the float expression assigned to them. -/
structure VRInfoTable where
  VRMeshBuffer : Nat
  leftFbo : Nat
  leftTex : Nat
  rightFbo : Nat
  checkLeftTex : Nat
  checkLeftFBO : Nat
  checkRightTex : Nat
  checkRightFBO : Nat
  fboWidth : ℚ
  fboHeight : ℚ
deriving DecidableEq

/-- One vertex of the warp mesh (`struct Vertex` of `genVRMeshBuffer`). -/
structure Vertex where
  left_position : vec2
  right_position : vec2
  uv_red : vec2
  uv_green : vec2
  uv_blue : vec2
deriving DecidableEq

/-- The engine: the members of `GLES20RenderEngine` used by the embedded code
(`mGroupStack` with its top first, `meshV` for the function-static vertex
array of `genVRMeshBuffer`), together with the process state its methods
reach: the program cache with the call log, the GL context, the contents
handed to `glBufferData` under each buffer name, and the system properties. -/
structure GLES20RenderEngine where
  mState : Description
  mVpWidth : Nat
  mVpHeight : Nat
  mGroupStack : List Group
  mVRInfoTable : VRInfoTable
  tname : Nat
  name : Nat
  rightTex : Nat
  useRightFBO : Bool
  meshV : List Vertex
  cache : ProgramCache
  gl : GLContext
  buffers : List (Nat × List Vertex)
  props : Properties
deriving DecidableEq

namespace GLES20RenderEngine

/-- Issues one GL call: it is recorded in the log and acts on the context. -/
def call (e : GLES20RenderEngine) (c : Call) : GLES20RenderEngine :=
  { e with cache := e.cache.record c, gl := e.gl.apply c }

/-- The call `glGenTextures(1, &name)`: returns the engine after the call and
the name handed out. -/
def glGenTextures (e : GLES20RenderEngine) : GLES20RenderEngine × Nat :=
  (e.call (Call.glGenTextures (e.gl.textureNames + 1)), e.gl.textureNames + 1)

/-- The call `glGenFramebuffers(1, &name)`. -/
def glGenFramebuffers (e : GLES20RenderEngine) : GLES20RenderEngine × Nat :=
  (e.call (Call.glGenFramebuffers (e.gl.framebufferNames + 1)), e.gl.framebufferNames + 1)

/-- The call `glGenBuffers(1, &name)`. -/
def glGenBuffers (e : GLES20RenderEngine) : GLES20RenderEngine × Nat :=
  (e.call (Call.glGenBuffers (e.gl.bufferNames + 1)), e.gl.bufferNames + 1)

end GLES20RenderEngine

/-! ## `setViewportAndProjection` and `setupLayerBlending` -/

/-- The rectangle `Rect`, with `int32_t` coordinates. -/
structure Rect where
  left : Int
  top : Int
  right : Int
  bottom : Int
deriving DecidableEq

/-- Conversion of an integer to `size_t`, a word of `sizeBits` bits. -/
def toSizeT (sizeBits : Nat) (x : Int) : Nat := (x % 2 ^ sizeBits).toNat

/-- Modelled from the spec: `mat4::ortho(left, right, bottom, top, near, far)`
(`mat4.h` is not among the sources), the orthographic projection that takes
`left..right`, `bottom..top` and `-near..-far` to `-1..1`. -/
def mat4.ortho (left right bottom top near far : ℚ) : mat4 :=
  { c0 := ⟨2 / (right - left), 0, 0, 0⟩
    c1 := ⟨0, 2 / (top - bottom), 0, 0⟩
    c2 := ⟨0, 0, -2 / (far - near), 0⟩
    c3 := ⟨-(right + left) / (right - left), -(top + bottom) / (top - bottom),
      -(far + near) / (far - near), 1⟩ }

/-- The product of a matrix with a column vector (`mat4 * vec4`). -/
def mat4.mulVec (m : mat4) (v : vec4) : vec4 :=
  { x := m.c0.x * v.x + m.c1.x * v.y + m.c2.x * v.z + m.c3.x * v.w
    y := m.c0.y * v.x + m.c1.y * v.y + m.c2.y * v.z + m.c3.y * v.w
    z := m.c0.z * v.x + m.c1.z * v.y + m.c2.z * v.z + m.c3.z * v.w
    w := m.c0.w * v.x + m.c1.w * v.y + m.c2.w * v.z + m.c3.w * v.w }

/-- The product of two matrices (`mat4 * mat4`). -/
def mat4.mul (a b : mat4) : mat4 :=
  { c0 := a.mulVec b.c0, c1 := a.mulVec b.c1, c2 := a.mulVec b.c2, c3 := a.mulVec b.c3 }

/-- `Transform::ROT_0`. -/
def ROT_0 : Nat := 0

/-- `Transform::ROT_90`. -/
def ROT_90 : Nat := 4

/-- `Transform::ROT_180`. -/
def ROT_180 : Nat := 3

/-- `Transform::ROT_270`. -/
def ROT_270 : Nat := 7

/-- `GLES20RenderEngine::setViewportAndProjection`. The crop coordinates are
converted to `size_t` (a word of `sizeBits` bits) and from there to float;
`rotate k` stands for the float matrix `mat4::rotate(k * rot90InRadians,
vec3(0,0,1))`. -/
def setViewportAndProjection (sizeBits : Nat) (rotate : Nat → mat4) (vpw vph : Nat)
    (sourceCrop : Rect) (hwh : Nat) (yswap : Bool) (rotation : Nat)
    (e : GLES20RenderEngine) : GLES20RenderEngine :=
  let l : Nat := toSizeT sizeBits sourceCrop.left
  let r : Nat := toSizeT sizeBits sourceCrop.right
  let t : Nat := toSizeT sizeBits (hwh - sourceCrop.top)
  let b : Nat := toSizeT sizeBits (hwh - sourceCrop.bottom)
  let m : mat4 :=
    if yswap then mat4.ortho l r t b 0 1
    else mat4.ortho l r b t 0 1
  let m : mat4 :=
    if rotation = ROT_0 then m
    else if rotation = ROT_90 then (rotate 1).mul m
    else if rotation = ROT_180 then (rotate 2).mul m
    else if rotation = ROT_270 then (rotate 3).mul m
    else m
  let e := e.call (Call.glViewport 0 0 vpw vph)
  { e with mState := e.mState.setProjectionMatrix m, mVpWidth := vpw, mVpHeight := vph }

/-- `GLES20RenderEngine::setupLayerBlending`. -/
def setupLayerBlending (premultipliedAlpha opaq : Bool) (alpha : Int)
    (e : GLES20RenderEngine) : GLES20RenderEngine :=
  let e := { e with mState := e.mState.setPremultipliedAlpha premultipliedAlpha }
  let e := { e with mState := e.mState.setOpaque opaq }
  let e := { e with mState := e.mState.setPlaneAlpha (alpha / 255) }
  if alpha < 0xFF ∨ !opaq then
    (e.call (Call.glEnable GL_BLEND)).call
      (Call.glBlendFuncSeparate (if premultipliedAlpha then GL_ONE else GL_SRC_ALPHA)
        GL_ONE_MINUS_SRC_ALPHA GL_ONE GL_ONE_MINUS_SRC_ALPHA)
  else
    e.call (Call.glDisable GL_BLEND)

/-- A sample engine: every member zero and no group, as the initialiser list
of the constructor leaves them, the plain description, an empty cache, no
property set and a GL context on which no call was made yet. The GL calls of
the constructor body (the protected texture and, in the stereo build, the
first mesh buffer) are not part of it. -/
def freshEngine : GLES20RenderEngine :=
  { mState := plainLayer, mVpWidth := 0, mVpHeight := 0, mGroupStack := [],
    mVRInfoTable := ⟨0, 0, 0, 0, 0, 0, 0, 0, 0, 0⟩, tname := 0, name := 0, rightTex := 0,
    useRightFBO := false, meshV := [], cache := ProgramCache.empty,
    gl := GLContext.initial, buffers := [], props := [] }

/-! ## Groups, non-stereo build -/

/-- The framebuffer that becomes the render target when a group is popped:
that of the new top of the stack, or zero, the real output, when the stack is
empty. -/
def previousTarget : List Group → Nat
  | [] => 0
  | top :: _ => top.fbo

/-- `GLES20RenderEngine::beginGroup(const mat4&)` of the non-stereo build. -/
def beginGroup (colorTransform : mat4) (e : GLES20RenderEngine) : GLES20RenderEngine :=
  let r := e.glGenTextures
  let e := r.1
  let tname := r.2
  let e := e.call (Call.glBindTexture GL_TEXTURE_2D tname)
  let e := e.call (Call.glTexParameteri GL_TEXTURE_2D GL_TEXTURE_WRAP_S GL_CLAMP_TO_EDGE)
  let e := e.call (Call.glTexParameteri GL_TEXTURE_2D GL_TEXTURE_WRAP_T GL_CLAMP_TO_EDGE)
  let e := e.call (Call.glTexParameteri GL_TEXTURE_2D GL_TEXTURE_MAG_FILTER GL_NEAREST)
  let e := e.call (Call.glTexParameteri GL_TEXTURE_2D GL_TEXTURE_MIN_FILTER GL_NEAREST)
  let e := e.call (Call.glTexImage2D GL_TEXTURE_2D e.mVpWidth e.mVpHeight)
  let r := e.glGenFramebuffers
  let e := r.1
  let name := r.2
  let e := e.call (Call.glBindFramebuffer name)
  let e := e.call (Call.glFramebufferTexture2D tname)
  let group : Group :=
    { texture := tname, fbo := name, width := e.mVpWidth, height := e.mVpHeight,
      colorTransform := colorTransform }
  { e with mGroupStack := group :: e.mGroupStack }

/-- The mesh built by the non-stereo `endGroup`: `Mesh(Mesh::TRIANGLE_FAN, 4,
2, 2)`, whose float array was allocated at address `vertices`. -/
def groupMesh (vertices : Nat) : Mesh :=
  { getPrimitive := GL_TRIANGLE_FAN, getVertexCount := 4, getVertexSize := 2,
    getTexCoordsSize := 2, getByteStride := (2 + 2) * 4, getPositions := vertices,
    getTexCoords := vertices + 2 * 4 }

/-- `GLES20RenderEngine::endGroup()` of the non-stereo build; `none` when the
stack is empty, where `top()` has no defined result. `vertices` is the address
of the float array of the mesh it builds. -/
def endGroup (driver : Driver) (vertices : Nat) (e : GLES20RenderEngine) :
    Option GLES20RenderEngine :=
  match e.mGroupStack with
  | [] => none
  | group :: rest =>
    let e := { e with mGroupStack := rest }
    let fbo := previousTarget e.mGroupStack
    let e := e.call (Call.glBindFramebuffer fbo)
    let texture := (Texture.new GL_TEXTURE_2D group.texture).setDimensions group.width
      group.height
    let e := e.call (Call.glBindTexture GL_TEXTURE_2D group.texture)
    let e := { e with mState := e.mState.setPlaneAlpha 1 }
    let e := { e with mState := e.mState.setPremultipliedAlpha true }
    let e := { e with mState := e.mState.setOpaque false }
    let e := { e with mState := e.mState.setTexture texture }
    let e := { e with mState := e.mState.setColorMatrix group.colorTransform }
    let e := e.call (Call.glDisable GL_BLEND)
    let mesh := groupMesh vertices
    let e := { e with cache := drawMesh false driver e.cache e.mState mesh }
    let e := { e with mState := e.mState.setColorMatrix mat4.identity }
    let e := e.call (Call.glDeleteFramebuffers group.fbo)
    let e := e.call (Call.glDeleteTextures group.texture)
    some e

/-! ## The warp mesh -/

/-- The macro `Screen_X`. -/
def Screen_X : ℚ := 1440

/-- The macro `Screen_Y`. -/
def Screen_Y : ℚ := 2560

/-- The macro `Warp_Mesh_Resolution_X`. -/
def Warp_Mesh_Resolution_X : Nat := 64

/-- The macro `Warp_Mesh_Resolution_Y`. -/
def Warp_Mesh_Resolution_Y : Nat := 64

/-- The macro `VR_Buffer_Stride`, the number of floats of a vertex. -/
def VR_Buffer_Stride : Nat := 10

/-- `GLES20RenderEngine::genDeformTex(vec2 tex, float k1, float k2)`. `atof`
stands for the C library's parser. `length(tex)` enters only through
`pow(len, 2.0)` and `pow(len, 4.0)`, which in exact arithmetic are the squared
norm and its square. -/
def genDeformTex (atof : String → ℚ) (props : Properties) (tex : vec2) (k1 k2 : ℚ) : vec2 :=
  let Scale := atof (property_get props "sys.3d.height" "0.5")
  let ipdByScale := atof (property_get props "sys.3d.ipd_scale" "0")
  let ipdByScale := if ipdByScale < 0 then (-1) * ipdByScale else ipdByScale
  let xyRatio := (Screen_X * Scale) / ((Screen_Y / 2) * (1 - (1 / 2) * ipdByScale))
  let tex : vec2 := ⟨tex.x - 1 / 2, tex.y - 1 / 2⟩
  let tex : vec2 := { tex with x := tex.x * xyRatio }
  let r2 := tex.x * tex.x + tex.y * tex.y
  let r4 := r2 * r2
  let tex : vec2 := ⟨tex.x * (1 + k1 * r2 + k2 * r4), tex.y * (1 + k1 * r2 + k2 * r4)⟩
  let tex : vec2 := { tex with x := tex.x / xyRatio }
  ⟨tex.x + 1 / 2, tex.y + 1 / 2⟩

/-- The locals of `genVRMeshBuffer` that are set before the vertex loop
(lines 473-520). -/
structure MeshLocals where
  orient : Int
  rk1 : ℚ
  rk2 : ℚ
  gk1 : ℚ
  gk2 : ℚ
  bk1 : ℚ
  bk2 : ℚ
  heightScale : ℚ
  ipdByOffset : ℚ
  ipdByScale : ℚ
  finalHeight : ℚ
  finalWidth : ℚ
  ipdMaxSize : ℚ
deriving DecidableEq

/-- Lines 473-520 of `genVRMeshBuffer`: the properties are read, a non-zero
IPD offset forces the IPD scale to zero, and the sizes follow the
orientation. -/
def meshLocals (atof : String → ℚ) (props : Properties) (width height : ℚ) : MeshLocals :=
  let orient := atoi (property_get props "sys.hwc.force3d.primary" "2")
  let rk1 := atof (property_get props "sys.3d.deform_red1" "0")
  let rk2 := atof (property_get props "sys.3d.deform_red2" "0")
  let gk1 := atof (property_get props "sys.3d.deform_green1" "0")
  let gk2 := atof (property_get props "sys.3d.deform_green2" "0")
  let bk1 := atof (property_get props "sys.3d.deform_blue1" "0")
  let bk2 := atof (property_get props "sys.3d.deform_blue2" "0")
  let heightScale := atof (property_get props "sys.3d.height" "0.5")
  let ipdByOffset := atof (property_get props "sys.3d.ipd_offset" "0")
  let ipdByScale := atof (property_get props "sys.3d.ipd_scale" "0")
  let ipdByScale := if ipdByOffset ≠ 0 ∧ ipdByScale ≠ 0 then 0 else ipdByScale
  let finalHeight : ℚ := 0
  let finalWidth : ℚ := 0
  let ipdMaxSize : ℚ := 0
  let ipdMaxSize := if 2 = orient then (Screen_Y / 2) / 10 else ipdMaxSize
  let finalHeight := if 2 = orient then height * (1 / 2) else finalHeight
  let finalWidth := if 2 = orient then width * heightScale else finalWidth
  let ipdMaxSize := if 1 = orient then (Screen_X / 2) / 10 else ipdMaxSize
  let finalHeight := if 1 = orient then height * heightScale else finalHeight
  let finalWidth := if 1 = orient then width * (1 / 2) else finalWidth
  { orient := orient, rk1 := rk1, rk2 := rk2, gk1 := gk1, gk2 := gk2, bk1 := bk1, bk2 := bk2,
    heightScale := heightScale, ipdByOffset := ipdByOffset, ipdByScale := ipdByScale,
    finalHeight := finalHeight, finalWidth := finalWidth, ipdMaxSize := ipdMaxSize }

/-- The orientation-2 block of the vertex loop (lines 533-560), acting on
`v[vi]`. -/
def genVertexPhone (atof : String → ℚ) (props : Properties) (L : MeshLocals) (x y : ℚ)
    (v : Vertex) : Vertex :=
  let tex : vec2 := ⟨x, y⟩
  let v := { v with
    left_position :=
      ⟨L.finalWidth * x + Screen_X * ((1 - L.heightScale) * (1 / 2)), L.finalHeight * y⟩ }
  let v := { v with
    right_position :=
      ⟨L.finalWidth * x + Screen_X * ((1 - L.heightScale) * (1 / 2)),
        L.finalHeight * y + L.finalHeight⟩ }
  let v := { v with uv_red := genDeformTex atof props tex L.rk1 L.rk2 }
  let v := { v with uv_green := genDeformTex atof props tex L.gk1 L.gk2 }
  let v := { v with uv_blue := genDeformTex atof props tex L.bk1 L.bk2 }
  let v := { v with
    left_position := { v.left_position with
      y := v.left_position.y + L.ipdMaxSize * L.ipdByOffset } }
  let v := { v with
    right_position := { v.right_position with
      y := v.right_position.y - L.ipdMaxSize * L.ipdByOffset } }
  let v := { v with
    left_position := { v.left_position with
      y := if v.left_position.y < L.finalHeight then v.left_position.y else L.finalHeight } }
  let v := { v with
    right_position := { v.right_position with
      y := if v.right_position.y > L.finalHeight then v.right_position.y
        else L.finalHeight } }
  let v :=
    if L.ipdByScale > 0 then
      let screenScale := 1 - (1 / 2) * L.ipdByScale
      let v := { v with
        left_position := { v.left_position with y := v.left_position.y * screenScale } }
      { v with
        right_position := { v.right_position with
          y := v.right_position.y * screenScale + (Screen_Y / 4) * L.ipdByScale * 2 } }
    else v
  if L.ipdByScale < 0 then
    let ipdByScale_abs := (-1) * L.ipdByScale
    let screenScale := 1 - (1 / 2) * ipdByScale_abs
    let v := { v with
      left_position := { v.left_position with
        y := v.left_position.y * screenScale + (Screen_Y / 4) * ipdByScale_abs } }
    { v with
      right_position := { v.right_position with
        y := v.right_position.y * screenScale + (Screen_Y / 4) * ipdByScale_abs } }
  else v

/-- The orientation-1 block of the vertex loop (lines 563-590), acting on
`v[vi]`. -/
def genVertexTablet (atof : String → ℚ) (props : Properties) (L : MeshLocals) (x y : ℚ)
    (v : Vertex) : Vertex :=
  let tex : vec2 := ⟨x, y⟩
  let v := { v with
    left_position :=
      ⟨L.finalWidth * x, L.finalHeight * y + Screen_Y * ((1 - L.heightScale) * (1 / 2))⟩ }
  let v := { v with
    right_position :=
      ⟨L.finalWidth * x + L.finalWidth,
        L.finalHeight * y + Screen_Y * ((1 - L.heightScale) * (1 / 2))⟩ }
  let v := { v with uv_red := genDeformTex atof props tex L.rk1 L.rk2 }
  let v := { v with uv_green := genDeformTex atof props tex L.gk1 L.gk2 }
  let v := { v with uv_blue := genDeformTex atof props tex L.bk1 L.bk2 }
  let v := { v with
    left_position := { v.left_position with
      x := v.left_position.x + L.ipdMaxSize * L.ipdByOffset } }
  let v := { v with
    right_position := { v.right_position with
      x := v.right_position.x - L.ipdMaxSize * L.ipdByOffset } }
  let v := { v with
    left_position := { v.left_position with
      x := if v.left_position.x < L.finalWidth then v.left_position.x else L.finalWidth } }
  let v := { v with
    right_position := { v.right_position with
      x := if v.right_position.x > L.finalWidth then v.right_position.x else L.finalWidth } }
  let v :=
    if L.ipdByScale > 0 then
      let screenScale := 1 - (1 / 2) * L.ipdByScale
      let v := { v with
        left_position := { v.left_position with x := v.left_position.x * screenScale } }
      { v with
        right_position := { v.right_position with
          x := v.right_position.x * screenScale + (Screen_X / 4) * L.ipdByScale * 2 } }
    else v
  if L.ipdByScale < 0 then
    let ipdByScale_abs := (-1) * L.ipdByScale
    let screenScale := 1 - (1 / 2) * ipdByScale_abs
    let v := { v with
      left_position := { v.left_position with
        x := v.left_position.x * screenScale + (Screen_X / 4) * ipdByScale_abs } }
    { v with
      right_position := { v.right_position with
        x := v.right_position.x * screenScale + (Screen_X / 4) * ipdByScale_abs } }
  else v

/-- The body of the vertex loop (lines 527-590) for the grid point
`(xi, yi)`, acting on `v[vi]`. -/
def genVertex (atof : String → ℚ) (props : Properties) (L : MeshLocals) (xi yi : Nat)
    (v : Vertex) : Vertex :=
  let x : ℚ := (xi : ℚ) / (Warp_Mesh_Resolution_X : ℚ)
  let y : ℚ := (yi : ℚ) / (Warp_Mesh_Resolution_Y : ℚ)
  let v := if 2 = L.orient then genVertexPhone atof props L x y v else v
  if 1 = L.orient then genVertexTablet atof props L x y v else v

/-- A vertex of the zero-initialised static array. -/
def Vertex.zero : Vertex := ⟨⟨0, 0⟩, ⟨0, 0⟩, ⟨0, 0⟩, ⟨0, 0⟩, ⟨0, 0⟩⟩

/-- The vertex loops of `genVRMeshBuffer` (lines 523-593): the new contents
of the static array `v`, given its old contents; `vi` runs through
`yi * (Warp_Mesh_Resolution_X + 1) + xi`. -/
def genVRMeshVertices (atof : String → ℚ) (props : Properties) (width height : ℚ)
    (v : List Vertex) : List Vertex :=
  let L := meshLocals atof props width height
  (List.range (Warp_Mesh_Resolution_Y + 1)).flatMap fun yi =>
    (List.range (Warp_Mesh_Resolution_X + 1)).map fun xi =>
      genVertex atof props L xi yi (v.getD (yi * (Warp_Mesh_Resolution_X + 1) + xi) Vertex.zero)

/-- The face loops of `genVRMeshBuffer` (lines 596-611): six vertices per
grid cell. -/
def genVRMeshFaces (v : List Vertex) : List Vertex :=
  (List.range Warp_Mesh_Resolution_Y).flatMap fun yi =>
    (List.range Warp_Mesh_Resolution_X).flatMap fun xi =>
      let v0 := v.getD (yi * (Warp_Mesh_Resolution_X + 1) + xi) Vertex.zero
      let v1 := v.getD (yi * (Warp_Mesh_Resolution_X + 1) + xi + 1) Vertex.zero
      let v2 := v.getD ((yi + 1) * (Warp_Mesh_Resolution_X + 1) + xi + 1) Vertex.zero
      let v3 := v.getD ((yi + 1) * (Warp_Mesh_Resolution_X + 1) + xi) Vertex.zero
      [v0, v1, v2, v2, v3, v0]

/-- A stand-in for `atof` that agrees with it on the strings `0`, `0.5`, `1`
and `2`. -/
def sampleAtof (s : String) : ℚ :=
  if s = "0.5" then 1 / 2 else if s = "1" then 1 else if s = "2" then 2 else 0

/-- The radial distortion in the words of the specification:
`center + (uv - center) * (1 + k1 r² + k2 r⁴)`, `r` the distance of `uv` from
the centre `(0.5, 0.5)`. -/
def radialDistortion (uv : vec2) (k1 k2 : ℚ) : vec2 :=
  let r2 := (uv.x - 1 / 2) ^ 2 + (uv.y - 1 / 2) ^ 2
  ⟨1 / 2 + (uv.x - 1 / 2) * (1 + k1 * r2 + k2 * r2 ^ 2),
    1 / 2 + (uv.y - 1 / 2) * (1 + k1 * r2 + k2 * r2 ^ 2)⟩

/-- The aspect factor `xyRatio` that `genDeformTex` derives from the
properties: `(Screen_X * height) / ((Screen_Y / 2) * (1 - |ipd_scale| / 2))`. -/
def deformAspect (atof : String → ℚ) (props : Properties) : ℚ :=
  (Screen_X * atof (property_get props "sys.3d.height" "0.5")) /
    ((Screen_Y / 2) * (1 - (1 / 2) * |atof (property_get props "sys.3d.ipd_scale" "0")|))

/-- The radial distortion with the radius measured after the horizontal
offset from the centre was multiplied by `aspect`. -/
def aspectRadialDistortion (aspect : ℚ) (uv : vec2) (k1 k2 : ℚ) : vec2 :=
  let r2 := ((uv.x - 1 / 2) * aspect) ^ 2 + (uv.y - 1 / 2) ^ 2
  ⟨1 / 2 + (uv.x - 1 / 2) * (1 + k1 * r2 + k2 * r2 ^ 2),
    1 / 2 + (uv.y - 1 / 2) * (1 + k1 * r2 + k2 * r2 ^ 2)⟩

/-- The two eye positions of a vertex. -/
def Vertex.positions (v : Vertex) : vec2 × vec2 := (v.left_position, v.right_position)

/-! ## Groups, stereo build -/

/-- `GLES20RenderEngine::checkVRPropertyChanged()`, acting on the system
properties: returns the store after the call and the result. -/
def checkVRPropertyChanged (props : Properties) : Properties × Bool :=
  let value := property_get props "sys.3d.property_update" "1"
  let result := atoi value
  if result ≠ 0 then (property_set props "sys.3d.property_update" "0", true)
  else (props, false)

/-- `GLES20RenderEngine::enableRightFBO(bool)`. -/
def enableRightFBO (key : Bool) (e : GLES20RenderEngine) : GLES20RenderEngine :=
  if key then { e with useRightFBO := true } else { e with useRightFBO := false }

/-- `GLES20RenderEngine::genVRMeshBuffer(float, float)`: rebuilds the static
vertex array, derives the face list and uploads it into a new buffer; returns
the engine after the call and the buffer name. -/
def genVRMeshBuffer (atof : String → ℚ) (width height : ℚ) (e : GLES20RenderEngine) :
    GLES20RenderEngine × Nat :=
  let v := genVRMeshVertices atof e.props width height e.meshV
  let e := { e with meshV := v }
  let f := genVRMeshFaces v
  let r := e.glGenBuffers
  let e := r.1
  let result := r.2
  let e := e.call (Call.glBindBuffer result)
  let e := e.call (Call.glBufferData
    (Warp_Mesh_Resolution_X * Warp_Mesh_Resolution_Y * 6 * (VR_Buffer_Stride * 4)))
  let e := { e with buffers := (result, f) :: e.buffers }
  let e := e.call (Call.glBindBuffer 0)
  (e, result)

/-- `GLES20RenderEngine::enableShaderTexArray()`. -/
def enableShaderTexArray (e : GLES20RenderEngine) : GLES20RenderEngine :=
  let e := e.call (Call.glBindBuffer e.mVRInfoTable.VRMeshBuffer)
  let e := e.call (Call.glEnableVertexAttribArray Attrib.texCoords_r)
  let e := e.call (Call.glVertexAttribPointer Attrib.texCoords_r 2 (VR_Buffer_Stride * 4) (4 * 4))
  let e := e.call (Call.glEnableVertexAttribArray Attrib.texCoords_g)
  let e := e.call (Call.glVertexAttribPointer Attrib.texCoords_g 2 (VR_Buffer_Stride * 4) (6 * 4))
  let e := e.call (Call.glEnableVertexAttribArray Attrib.texCoords_b)
  e.call (Call.glVertexAttribPointer Attrib.texCoords_b 2 (VR_Buffer_Stride * 4) (8 * 4))

/-- The macro `LEFT`. -/
def LEFT : Int := 1

/-- The macro `RIGHT`. -/
def RIGHT : Int := 2

/-- `GLES20RenderEngine::enableShaderVerArray(int mode)`. -/
def enableShaderVerArray (mode : Int) (e : GLES20RenderEngine) : GLES20RenderEngine :=
  let e := e.call (Call.glBindBuffer e.mVRInfoTable.VRMeshBuffer)
  let e :=
    if LEFT = mode then
      (e.call (Call.glEnableVertexAttribArray Attrib.position)).call
        (Call.glVertexAttribPointer Attrib.position 2 (VR_Buffer_Stride * 4) (0 * 4))
    else e
  if RIGHT = mode then
    (e.call (Call.glEnableVertexAttribArray Attrib.position)).call
      (Call.glVertexAttribPointer Attrib.position 2 (VR_Buffer_Stride * 4) (2 * 4))
  else e

/-- `GLES20RenderEngine::drawMeshLeftEye()`. -/
def drawMeshLeftEye (driver : Driver) (e : GLES20RenderEngine) : GLES20RenderEngine :=
  let e := { e with cache := useProgram true driver e.cache e.mState }
  let e := enableShaderTexArray e
  let e := enableShaderVerArray LEFT e
  let e := e.call (Call.glDrawArrays GL_TRIANGLES 0
    (Warp_Mesh_Resolution_X * Warp_Mesh_Resolution_Y * 6))
  e.call (Call.glBindBuffer 0)

/-- `GLES20RenderEngine::drawMeshRightEye()`. -/
def drawMeshRightEye (driver : Driver) (e : GLES20RenderEngine) : GLES20RenderEngine :=
  let e := { e with cache := useProgram true driver e.cache e.mState }
  let e := enableShaderTexArray e
  let e := enableShaderVerArray RIGHT e
  let e := e.call (Call.glDrawArrays GL_TRIANGLES 0
    (Warp_Mesh_Resolution_X * Warp_Mesh_Resolution_Y * 6))
  e.call (Call.glBindBuffer 0)

/-- Lines 682-694 of the stereo `beginGroup`, taken when the properties
changed: the mesh buffer is rebuilt and both eye textures are resized and
attached again. -/
def beginGroupRebuild (atof : String → ℚ) (e : GLES20RenderEngine) : GLES20RenderEngine :=
  let r := genVRMeshBuffer atof e.mVpWidth e.mVpHeight e
  let e := { r.1 with mVRInfoTable := { r.1.mVRInfoTable with VRMeshBuffer := r.2 } }
  let e := e.call (Call.glBindTexture GL_TEXTURE_2D e.mVRInfoTable.leftTex)
  let e := e.call (Call.glTexImage2D GL_TEXTURE_2D e.mVRInfoTable.fboWidth
    e.mVRInfoTable.fboHeight)
  let e := e.call (Call.glBindFramebuffer e.mVRInfoTable.leftFbo)
  let e := e.call (Call.glFramebufferTexture2D e.mVRInfoTable.leftTex)
  let e := e.call (Call.glBindTexture GL_TEXTURE_2D e.rightTex)
  let e := e.call (Call.glTexImage2D GL_TEXTURE_2D e.mVRInfoTable.fboWidth
    e.mVRInfoTable.fboHeight)
  let e := e.call (Call.glBindFramebuffer e.mVRInfoTable.rightFbo)
  e.call (Call.glFramebufferTexture2D e.rightTex)

/-- The four `glTexParameteri` calls that follow each new texture: clamped
wrapping and the given filter. -/
def textureParameters (filter : Nat) (e : GLES20RenderEngine) : GLES20RenderEngine :=
  let e := e.call (Call.glTexParameteri GL_TEXTURE_2D GL_TEXTURE_WRAP_S GL_CLAMP_TO_EDGE)
  let e := e.call (Call.glTexParameteri GL_TEXTURE_2D GL_TEXTURE_WRAP_T GL_CLAMP_TO_EDGE)
  let e := e.call (Call.glTexParameteri GL_TEXTURE_2D GL_TEXTURE_MAG_FILTER filter)
  e.call (Call.glTexParameteri GL_TEXTURE_2D GL_TEXTURE_MIN_FILTER filter)

/-- The macros `Check_Width` and `Check_Height`. -/
def Check_Width : ℚ := 8

/-- Lines 701-710 of the stereo `beginGroup`: the left check target. -/
def createCheckLeft (e : GLES20RenderEngine) : GLES20RenderEngine :=
  let r := e.glGenTextures
  let e := { r.1 with mVRInfoTable := { r.1.mVRInfoTable with checkLeftTex := r.2 } }
  let e := e.call (Call.glBindTexture GL_TEXTURE_2D e.mVRInfoTable.checkLeftTex)
  let e := textureParameters GL_LINEAR e
  let e := e.call (Call.glTexImage2D GL_TEXTURE_2D Check_Width Check_Width)
  let r := e.glGenFramebuffers
  let e := { r.1 with mVRInfoTable := { r.1.mVRInfoTable with checkLeftFBO := r.2 } }
  let e := e.call (Call.glBindFramebuffer e.mVRInfoTable.checkLeftFBO)
  e.call (Call.glFramebufferTexture2D e.mVRInfoTable.checkLeftTex)

/-- Lines 712-721 of the stereo `beginGroup`: the right check target. -/
def createCheckRight (e : GLES20RenderEngine) : GLES20RenderEngine :=
  let r := e.glGenTextures
  let e := { r.1 with mVRInfoTable := { r.1.mVRInfoTable with checkRightTex := r.2 } }
  let e := e.call (Call.glBindTexture GL_TEXTURE_2D e.mVRInfoTable.checkRightTex)
  let e := textureParameters GL_LINEAR e
  let e := e.call (Call.glTexImage2D GL_TEXTURE_2D Check_Width Check_Width)
  let r := e.glGenFramebuffers
  let e := { r.1 with mVRInfoTable := { r.1.mVRInfoTable with checkRightFBO := r.2 } }
  let e := e.call (Call.glBindFramebuffer e.mVRInfoTable.checkRightFBO)
  e.call (Call.glFramebufferTexture2D e.mVRInfoTable.checkRightTex)

/-- Lines 726-740 of the stereo `beginGroup`: the left eye target. -/
def createLeftTarget (e : GLES20RenderEngine) : GLES20RenderEngine :=
  let r := e.glGenTextures
  let e := { r.1 with mVRInfoTable := { r.1.mVRInfoTable with leftTex := r.2 } }
  let e := e.call (Call.glBindTexture GL_TEXTURE_2D e.mVRInfoTable.leftTex)
  let e := textureParameters GL_NEAREST e
  let e := e.call (Call.glTexImage2D GL_TEXTURE_2D e.mVRInfoTable.fboWidth
    e.mVRInfoTable.fboHeight)
  let r := e.glGenFramebuffers
  let e := { r.1 with mVRInfoTable := { r.1.mVRInfoTable with leftFbo := r.2 } }
  let e := e.call (Call.glBindFramebuffer e.mVRInfoTable.leftFbo)
  e.call (Call.glFramebufferTexture2D e.mVRInfoTable.leftTex)

/-- Lines 745-760 of the stereo `beginGroup`: the right eye target. -/
def createRightTarget (e : GLES20RenderEngine) : GLES20RenderEngine :=
  let r := e.glGenTextures
  let e := { r.1 with rightTex := r.2 }
  let e := e.call (Call.glBindTexture GL_TEXTURE_2D e.rightTex)
  let e := textureParameters GL_NEAREST e
  let e := e.call (Call.glTexImage2D GL_TEXTURE_2D e.mVRInfoTable.fboWidth
    e.mVRInfoTable.fboHeight)
  let r := e.glGenFramebuffers
  let e := { r.1 with mVRInfoTable := { r.1.mVRInfoTable with rightFbo := r.2 } }
  let e := e.call (Call.glBindFramebuffer e.mVRInfoTable.rightFbo)
  e.call (Call.glFramebufferTexture2D e.rightTex)

/-- Lines 763-772 of the stereo `beginGroup`: the texture and framebuffer
names that go into every group; the framebuffer name is generated and never
bound. -/
def createGroupNames (e : GLES20RenderEngine) : GLES20RenderEngine :=
  let r := e.glGenTextures
  let e := { r.1 with tname := r.2 }
  let e := e.call (Call.glBindTexture GL_TEXTURE_2D e.tname)
  let e := textureParameters GL_NEAREST e
  let e := e.call (Call.glTexImage2D GL_TEXTURE_2D 1 1)
  let r := e.glGenFramebuffers
  { r.1 with name := r.2 }

/-- Lines 697-773 of the stereo `beginGroup`, taken when `leftFbo` is not a
framebuffer: the two check targets, the two eye targets and the group names
are created. -/
def beginGroupCreate (e : GLES20RenderEngine) : GLES20RenderEngine :=
  createGroupNames (createRightTarget (createLeftTarget (createCheckRight (createCheckLeft e))))

/-- Lines 664-679 of the stereo `beginGroup`: the size of the eye targets by
the orientation property. -/
def beginGroupSize (atof : String → ℚ) (e : GLES20RenderEngine) : GLES20RenderEngine :=
  let heightScale := atof (property_get e.props "sys.3d.height" "0.5")
  let orient := atoi (property_get e.props "sys.hwc.force3d.primary" "0")
  let e :=
    if 2 = orient then
      { e with mVRInfoTable := { e.mVRInfoTable with
          fboWidth := Screen_X * heightScale + 2, fboHeight := Screen_Y * (1 / 2) + 2 } }
    else e
  if 1 = orient then
    { e with mVRInfoTable := { e.mVRInfoTable with
        fboWidth := Screen_X * (1 / 2) + 2, fboHeight := Screen_Y * heightScale + 2 } }
  else e

/-- Lines 682-694 of the stereo `beginGroup`: the update flag is consumed
and, when it was set, the mesh buffer and the eye targets are rebuilt. -/
def beginGroupRefresh (atof : String → ℚ) (e : GLES20RenderEngine) : GLES20RenderEngine :=
  let r := checkVRPropertyChanged e.props
  let e := { e with props := r.1 }
  if r.2 then beginGroupRebuild atof e else e

/-- Lines 697-773 of the stereo `beginGroup`: the targets are created when
`leftFbo` is not a framebuffer. -/
def beginGroupTargets (e : GLES20RenderEngine) : GLES20RenderEngine :=
  if e.gl.glIsFramebuffer e.mVRInfoTable.leftFbo = false then beginGroupCreate e else e

/-- `GLES20RenderEngine::beginGroup(const mat4&, int mode)` of the stereo
build. Returns the engine after the call and the final value of the local
`group`: the group is pushed before `colorTransform` is assigned to the
local, so the pushed copy keeps the transform of the default-constructed
`Group`, the identity. -/
def beginGroupVRBody (atof : String → ℚ) (colorTransform : mat4) (mode : Int)
    (e : GLES20RenderEngine) : GLES20RenderEngine × Group :=
  let e := beginGroupTargets (beginGroupRefresh atof (beginGroupSize atof e))
  let e := e.call (Call.glBindFramebuffer e.mVRInfoTable.leftFbo)
  let group : Group :=
    { texture := 0, fbo := 0, width := 0, height := 0, colorTransform := mat4.identity }
  let group := { group with texture := e.tname }
  let group := { group with fbo := e.name }
  let group := { group with width := e.mVpWidth }
  let group := { group with height := e.mVpHeight }
  let e := { e with mGroupStack := group :: e.mGroupStack }
  let group := if mode > 1 then { group with colorTransform := colorTransform } else group
  (e, group)

/-- The engine after the stereo `beginGroup`. -/
def beginGroupVR (atof : String → ℚ) (colorTransform : mat4) (mode : Int)
    (e : GLES20RenderEngine) : GLES20RenderEngine :=
  (beginGroupVRBody atof colorTransform mode e).1

/-- The local `LeftTexture` of the stereo `endGroup`. -/
def leftTexture (e : GLES20RenderEngine) (group : Group) : Texture :=
  (Texture.new GL_TEXTURE_2D e.mVRInfoTable.leftTex).setDimensions group.width group.height

/-- The local `RightTexture` of the stereo `endGroup`. -/
def rightTexture (e : GLES20RenderEngine) (group : Group) : Texture :=
  (Texture.new GL_TEXTURE_2D e.rightTex).setDimensions group.width group.height

/-- Lines 796-815 of the stereo `endGroup`, after the pop: the previous
target is bound, both eye textures are bound in turn and the description gets
the group's blending state and colour transform. -/
def endGroupActivate (group : Group) (e : GLES20RenderEngine) : GLES20RenderEngine :=
  let fbo := previousTarget e.mGroupStack
  let e := e.call (Call.glBindFramebuffer fbo)
  let e := e.call (Call.glBindTexture GL_TEXTURE_2D e.mVRInfoTable.leftTex)
  let e := e.call (Call.glBindTexture GL_TEXTURE_2D e.rightTex)
  let e := { e with mState := e.mState.setPlaneAlpha 1 }
  let e := { e with mState := e.mState.setPremultipliedAlpha true }
  let e := { e with mState := e.mState.setOpaque false }
  { e with mState := e.mState.setColorMatrix group.colorTransform }

/-- Lines 817-833 of the stereo `endGroup`: the first `switch(mode)`; case 2
falls through into case 3. -/
def endGroupSwitch (mode : Int) (group : Group) (e : GLES20RenderEngine) :
    GLES20RenderEngine :=
  if mode = 1 then
    let e := { e with mState := e.mState.setDeform true }
    let e := e.call (Call.glTexParameteri GL_TEXTURE_2D GL_TEXTURE_MAG_FILTER GL_LINEAR)
    e.call (Call.glTexParameteri GL_TEXTURE_2D GL_TEXTURE_MIN_FILTER GL_LINEAR)
  else if mode = 2 then
    let e := { e with mState := e.mState.setDeform true }
    let e := e.call (Call.glTexParameteri GL_TEXTURE_2D GL_TEXTURE_MAG_FILTER GL_LINEAR)
    let e := e.call (Call.glTexParameteri GL_TEXTURE_2D GL_TEXTURE_MIN_FILTER GL_LINEAR)
    { e with mState := e.mState.setColorMatrix group.colorTransform }
  else if mode = 3 then
    { e with mState := e.mState.setColorMatrix group.colorTransform }
  else e

/-- Lines 834-843 of the stereo `endGroup`: blending is switched off and the
dispersion flag is read from the properties. -/
def endGroupDispersion (e : GLES20RenderEngine) : GLES20RenderEngine :=
  let e := e.call (Call.glDisable GL_BLEND)
  let dispersionEnabled := atoi (property_get e.props "debug.sf.dispersion" "0")
  if dispersionEnabled ≠ 0 then { e with mState := e.mState.setDisper true }
  else { e with mState := e.mState.setDisper false }

/-- Lines 796-847 of the stereo `endGroup`, after the pop: the engine at the
call of `drawMeshLeftEye()`. -/
def endGroupLeftEye (mode : Int) (group : Group) (e : GLES20RenderEngine) :
    GLES20RenderEngine :=
  let e := endGroupDispersion (endGroupSwitch mode group (endGroupActivate group e))
  let e := e.call (Call.glBindTexture GL_TEXTURE_2D e.mVRInfoTable.leftTex)
  { e with mState := e.mState.setTexture (leftTexture e group) }

/-- Lines 852-859 of the stereo `endGroup` up to the call of
`drawMeshRightEye()`: the texture for the right eye is selected. -/
def endGroupRightEye (group : Group) (e : GLES20RenderEngine) : GLES20RenderEngine :=
  if e.useRightFBO then
    let e := e.call (Call.glBindTexture GL_TEXTURE_2D e.rightTex)
    { e with mState := e.mState.setTexture (rightTexture e group) }
  else
    { e with mState := e.mState.setTexture (leftTexture e group) }

/-- Lines 861-878 of the stereo `endGroup`: the right-target flag and the
colour matrix are reset. -/
def endGroupReset (mode : Int) (e : GLES20RenderEngine) : GLES20RenderEngine :=
  let e := enableRightFBO false e
  let e := { e with mState := e.mState.setColorMatrix mat4.identity }
  if mode = 1 then { e with mState := e.mState.setDeform false }
  else if mode = 2 then
    let e := { e with mState := e.mState.setDeform false }
    { e with mState := e.mState.setColorMatrix mat4.identity }
  else if mode = 3 then { e with mState := e.mState.setColorMatrix mat4.identity }
  else e

/-- The engine at the call of `drawMeshLeftEye()` in the stereo `endGroup`;
`none` when the stack is empty. -/
def leftEyeDraw (mode : Int) (e : GLES20RenderEngine) : Option GLES20RenderEngine :=
  match e.mGroupStack with
  | [] => none
  | group :: rest => some (endGroupLeftEye mode group { e with mGroupStack := rest })

/-- The engine at the call of `drawMeshRightEye()` in the stereo `endGroup`;
`none` when the stack is empty. -/
def rightEyeDraw (driver : Driver) (mode : Int) (e : GLES20RenderEngine) :
    Option GLES20RenderEngine :=
  match e.mGroupStack with
  | [] => none
  | group :: _ => (leftEyeDraw mode e).map fun e =>
      endGroupRightEye group (drawMeshLeftEye driver e)

/-- `GLES20RenderEngine::endGroup(int mode)` of the stereo build; `none` when
the stack is empty, where `top()` has no defined result. -/
def endGroupVR (driver : Driver) (mode : Int) (e : GLES20RenderEngine) :
    Option GLES20RenderEngine :=
  (rightEyeDraw driver mode e).map fun e => endGroupReset mode (drawMeshRightEye driver e)

/-- The framebuffer names passed to `glBindFramebuffer` in a log, in order. -/
def framebufferBinds (log : List Call) : List Nat :=
  log.filterMap (fun call => match call with
    | Call.glBindFramebuffer framebuffer => some framebuffer
    | _ => none)

/-- A colour transform that is not the identity: it halves the red channel. -/
def sampleTransform : mat4 :=
  { c0 := ⟨1 / 2, 0, 0, 0⟩, c1 := ⟨0, 1, 0, 0⟩, c2 := ⟨0, 0, 1, 0⟩, c3 := ⟨0, 0, 0, 1⟩ }

/-- A store with IPD offset 1, IPD scale 1 and first red distortion
coefficient 1. -/
def offsetScaleStore : Properties :=
  [("sys.3d.ipd_offset", "1"), ("sys.3d.ipd_scale", "1"), ("sys.3d.deform_red1", "1")]

/-- The six face vertices of the grid cell `(xi, yi)`, as the body of the
face loops reads them from the vertex array. -/
def cellFaces (v : List Vertex) (yi xi : Nat) : List Vertex :=
  let v0 := v.getD (yi * (Warp_Mesh_Resolution_X + 1) + xi) Vertex.zero
  let v1 := v.getD (yi * (Warp_Mesh_Resolution_X + 1) + xi + 1) Vertex.zero
  let v2 := v.getD ((yi + 1) * (Warp_Mesh_Resolution_X + 1) + xi + 1) Vertex.zero
  let v3 := v.getD ((yi + 1) * (Warp_Mesh_Resolution_X + 1) + xi) Vertex.zero
  [v0, v1, v2, v2, v3, v0]

/-- The assignment `f[fi] = x` to an array of fixed size with the index
checked: `none` when `fi` is outside the array. -/
def storeAt (f : List Vertex) (fi : Nat) (x : Vertex) : Option (List Vertex) :=
  if fi < f.length then some (f.set fi x) else none

/-- The body of the face loops of `genVRMeshBuffer` (lines 600-611) with
every array access checked against the size of its array: the four reads of
the vertex array `v` and the six writes `f[fi++]`. The state is the face
array `f` and the counter `fi`; `none` stands for an access outside an
array. -/
def genFaceCell (v : List Vertex) (yi xi : Nat) (st : List Vertex × Nat) :
    Option (List Vertex × Nat) :=
  (v[yi * (Warp_Mesh_Resolution_X + 1) + xi]?).bind fun v0 =>
  (v[yi * (Warp_Mesh_Resolution_X + 1) + xi + 1]?).bind fun v1 =>
  (v[(yi + 1) * (Warp_Mesh_Resolution_X + 1) + xi + 1]?).bind fun v2 =>
  (v[(yi + 1) * (Warp_Mesh_Resolution_X + 1) + xi]?).bind fun v3 =>
  (storeAt st.1 st.2 v0).bind fun f =>
  (storeAt f (st.2 + 1) v1).bind fun f =>
  (storeAt f (st.2 + 2) v2).bind fun f =>
  (storeAt f (st.2 + 3) v2).bind fun f =>
  (storeAt f (st.2 + 4) v3).bind fun f =>
  (storeAt f (st.2 + 5) v0).bind fun f =>
  some (f, st.2 + 6)

/-- The face loops of `genVRMeshBuffer` (lines 596-611) with checked array
accesses, starting from the old contents of the static array `f` and
`fi = 0`: the new contents of `f` and the final `fi`, or `none` if some
access falls outside its array. -/
def genVRMeshFacesChecked (v f : List Vertex) : Option (List Vertex × Nat) :=
  (List.range Warp_Mesh_Resolution_Y).foldlM (fun st yi =>
    (List.range Warp_Mesh_Resolution_X).foldlM (fun st xi => genFaceCell v yi xi st) st)
    (f, 0)

/-- The vertex the vertex loops store for the grid point `(xi, yi)`. -/
def gridVertex (atof : String → ℚ) (props : Properties) (width height : ℚ)
    (old : List Vertex) (xi yi : Nat) : Vertex :=
  genVertex atof props (meshLocals atof props width height) xi yi
    (old.getD (yi * (Warp_Mesh_Resolution_X + 1) + xi) Vertex.zero)

/-- The GL calls of one eye draw after the program was selected: the three
UV attributes and the position attribute are set up from the mesh buffer
(`positionOffset` is 0 for the left-eye positions and 8 for the right-eye
positions), the face list is drawn as triangles and the buffer is unbound. -/
def eyeCalls (buffer positionOffset : Nat) : List Call :=
  [Call.glBindBuffer buffer,
   Call.glEnableVertexAttribArray Attrib.texCoords_r,
   Call.glVertexAttribPointer Attrib.texCoords_r 2 40 16,
   Call.glEnableVertexAttribArray Attrib.texCoords_g,
   Call.glVertexAttribPointer Attrib.texCoords_g 2 40 24,
   Call.glEnableVertexAttribArray Attrib.texCoords_b,
   Call.glVertexAttribPointer Attrib.texCoords_b 2 40 32,
   Call.glBindBuffer buffer,
   Call.glEnableVertexAttribArray Attrib.position,
   Call.glVertexAttribPointer Attrib.position 2 40 positionOffset,
   Call.glDrawArrays GL_TRIANGLES 0 (64 * 64 * 6),
   Call.glBindBuffer 0]

/-! # Theorems -/

/-! ## `computeKey` -/

/-- The texture expression of `computeKey` is the field of the description's
texture category. -/
theorem texture_value_eq_field (d : Description) :
    (if !d.mTextureEnabled then Key.TEXTURE_OFF
     else if d.mTexture.getTextureTarget = GL_TEXTURE_EXTERNAL_OES then Key.TEXTURE_EXT
     else if d.mTexture.getTextureTarget = GL_TEXTURE_2D then Key.TEXTURE_2D
     else Key.TEXTURE_OFF) = (textureCategory d).field := by
  unfold textureCategory
  by_cases h1 : d.mTextureEnabled = false
  · simp [h1, TextureCategory.field]
  · by_cases h2 : d.mTexture.getTextureTarget = GL_TEXTURE_EXTERNAL_OES
    · simp [h1, h2, TextureCategory.field]
    · by_cases h3 : d.mTexture.getTextureTarget = GL_TEXTURE_2D
      · have h4 : ¬ GL_TEXTURE_2D = GL_TEXTURE_EXTERNAL_OES := by decide
        simp [h1, h3, h4, TextureCategory.field]
      · simp [h1, h2, h3, TextureCategory.field]

/-- The key of a description depends on the description only through its
seven categories. -/
theorem computeKey_eq_keyOfFields (vr : Bool) (d : Description) :
    computeKey vr d = keyOfFields vr (textureCategory d) (decide (d.mPlaneAlpha < 1))
      d.mPremultipliedAlpha d.mOpaque d.mColorMatrixEnabled d.mDeformEnabled
      d.mDispersionEnabled := by
  unfold computeKey keyOfFields
  simp only [texture_value_eq_field, decide_eq_true_eq]

/-- Each getter reads back the category that was written into its field. -/
theorem keyOfFields_getters (vr : Bool) (tex : TextureCategory) (a b c d e f : Bool) :
    (keyOfFields vr tex a b c d e f).getTextureTarget = tex.field ∧
    (keyOfFields vr tex a b c d e f).hasPlaneAlpha = a ∧
    (keyOfFields vr tex a b c d e f).isPremultiplied = b ∧
    (keyOfFields vr tex a b c d e f).isOpaque = c ∧
    (keyOfFields vr tex a b c d e f).hasColorMatrix = d ∧
    (keyOfFields vr tex a b c d e f).hasDeform = (vr && e) ∧
    (keyOfFields vr tex a b c d e f).hasDispersion = (vr && f) := by
  cases vr <;> cases tex <;> cases a <;> cases b <;> cases c <;> cases d <;> cases e <;>
    cases f <;> decide

/-- The field values of the three texture categories are pairwise distinct. -/
theorem TextureCategory.field_injective (t1 t2 : TextureCategory)
    (h : t1.field = t2.field) : t1 = t2 := by
  cases t1 <;> cases t2 <;> first | rfl | (exact absurd h (by decide))

/-- Descriptions with the same features have the same texture category. -/
theorem SameFeatures.textureCategory_eq {d1 d2 : Description} (h : SameFeatures d1 d2) :
    textureCategory d1 = textureCategory d2 := by
  obtain ⟨h1, h2, -⟩ := h
  unfold textureCategory
  rw [h1, h2]

/-- C1 (counterexample): `plainLayer` and `halfAlphaLayer` agree on every
enable flag and category and differ only in the plane-alpha value (1 against
1/2), yet their keys differ, in both builds. -/
theorem computeKey_planeAlpha_value_counterexample :
    halfAlphaLayer = { plainLayer with mPlaneAlpha := 1 / 2 } ∧
    SameFeatures plainLayer halfAlphaLayer ∧
    computeKey false plainLayer ≠ computeKey false halfAlphaLayer ∧
    computeKey true plainLayer ≠ computeKey true halfAlphaLayer := by
  have h1 : ¬ ((1 : ℚ) < 1) := by norm_num
  have h2 : ((1 : ℚ) / 2 < 1) := by norm_num
  refine ⟨rfl, by simp [SameFeatures, plainLayer, halfAlphaLayer], ?_, ?_⟩ <;>
    · rw [computeKey_eq_keyOfFields, computeKey_eq_keyOfFields]
      simp only [plainLayer, halfAlphaLayer, textureCategory, h1, h2, if_true,
        decide_True, decide_False]
      decide

/-- Descriptions with the same features and the same side of the plane-alpha
test have the same key. -/
theorem computeKey_congr (vr : Bool) (d1 d2 : Description)
    (h : SameFeatures d1 d2) (hα : d1.mPlaneAlpha < 1 ↔ d2.mPlaneAlpha < 1) :
    computeKey vr d1 = computeKey vr d2 := by
  have htex := h.textureCategory_eq
  obtain ⟨-, -, h3, h4, h5, h6, h7⟩ := h
  rw [computeKey_eq_keyOfFields, computeKey_eq_keyOfFields, htex, h3, h4, h5, h6, h7]
  simp only [hα]

/-- The two translucent sample layers have the same features. -/
theorem sameFeatures_half_quarter : SameFeatures halfAlphaLayer quarterAlphaLayer := by
  simp [SameFeatures, halfAlphaLayer, quarterAlphaLayer, plainLayer]

/-- Both translucent sample layers have a plane alpha below one. -/
theorem planeAlpha_half_quarter :
    halfAlphaLayer.mPlaneAlpha < 1 ↔ quarterAlphaLayer.mPlaneAlpha < 1 := by
  simp only [halfAlphaLayer, quarterAlphaLayer]
  norm_num

/-- The key of the plain sample layer is zero in both builds. -/
theorem computeKey_plainLayer (vr : Bool) : computeKey vr plainLayer = ⟨0⟩ := by
  have h1 : ¬ ((1 : ℚ) < 1) := by norm_num
  rw [computeKey_eq_keyOfFields]
  simp only [plainLayer, textureCategory, h1, if_true, decide_False]
  cases vr <;> decide

/-- C1 (amended): descriptions that agree on every enable flag and category
and on whether the plane alpha is below one have the same key, whatever their
plane-alpha values, colour-matrix contents and solid colours. -/
theorem computeKey_eq_of_sameFeatures (vr : Bool) (d1 d2 : Description)
    (h : SameFeatures d1 d2) (hα : d1.mPlaneAlpha < 1 ↔ d2.mPlaneAlpha < 1) :
    computeKey vr d1 = computeKey vr d2 :=
  computeKey_congr vr d1 d2 h hα

/-- C1 (witness): a layer at half plane alpha and a layer at a quarter plane
alpha with another matrix and colour are different descriptions with the same
key. -/
theorem computeKey_eq_of_sameFeatures_witness :
    SameFeatures halfAlphaLayer quarterAlphaLayer ∧
    (halfAlphaLayer.mPlaneAlpha < 1 ↔ quarterAlphaLayer.mPlaneAlpha < 1) ∧
    halfAlphaLayer.mPlaneAlpha ≠ quarterAlphaLayer.mPlaneAlpha ∧
    computeKey true halfAlphaLayer = computeKey true quarterAlphaLayer :=
  ⟨sameFeatures_half_quarter, planeAlpha_half_quarter,
    by simp only [halfAlphaLayer, quarterAlphaLayer]; norm_num,
    computeKey_eq_of_sameFeatures true halfAlphaLayer quarterAlphaLayer
      sameFeatures_half_quarter planeAlpha_half_quarter⟩

/-- C5: two descriptions have the same key exactly when they agree on the
texture category, on premultiplied alpha, on opaque, on whether the plane
alpha is below one, on the colour-matrix flag and, in the stereo build, on the
deform and dispersion flags. -/
theorem computeKey_eq_iff (vr : Bool) (d1 d2 : Description) :
    computeKey vr d1 = computeKey vr d2 ↔
      textureCategory d1 = textureCategory d2 ∧
      d1.mPremultipliedAlpha = d2.mPremultipliedAlpha ∧
      d1.mOpaque = d2.mOpaque ∧
      (d1.mPlaneAlpha < 1 ↔ d2.mPlaneAlpha < 1) ∧
      d1.mColorMatrixEnabled = d2.mColorMatrixEnabled ∧
      (vr = false ∨
        (d1.mDeformEnabled = d2.mDeformEnabled ∧
         d1.mDispersionEnabled = d2.mDispersionEnabled)) := by
  rw [computeKey_eq_keyOfFields, computeKey_eq_keyOfFields]
  constructor
  · intro h
    obtain ⟨a1, a2, a3, a4, a5, a6, a7⟩ := keyOfFields_getters vr (textureCategory d1)
      (decide (d1.mPlaneAlpha < 1)) d1.mPremultipliedAlpha d1.mOpaque d1.mColorMatrixEnabled
      d1.mDeformEnabled d1.mDispersionEnabled
    obtain ⟨b1, b2, b3, b4, b5, b6, b7⟩ := keyOfFields_getters vr (textureCategory d2)
      (decide (d2.mPlaneAlpha < 1)) d2.mPremultipliedAlpha d2.mOpaque d2.mColorMatrixEnabled
      d2.mDeformEnabled d2.mDispersionEnabled
    rw [h] at a1 a2 a3 a4 a5 a6 a7
    refine ⟨TextureCategory.field_injective _ _ (a1.symm.trans b1), a3.symm.trans b3,
      a4.symm.trans b4, ?_, a5.symm.trans b5, ?_⟩
    · have := a2.symm.trans b2
      simpa using this
    · cases vr
      · exact Or.inl rfl
      · refine Or.inr ⟨?_, ?_⟩
        · simpa using a6.symm.trans b6
        · simpa using a7.symm.trans b7
  · rintro ⟨h1, h2, h3, h4, h5, h6⟩
    rcases h6 with h6 | ⟨h6, h7⟩
    · subst h6
      rw [h1, h2, h3, h5]
      simp only [h4, keyOfFields]
      rfl
    · rw [h1, h2, h3, h5, h6, h7]
      simp only [h4]

/-- C6: `computeKey` is a total function and the texture field of its result
is `OFF` when texturing is disabled, `EXT` for an enabled external texture,
`2D` for an enabled 2D texture and `OFF` for every other target; the field is
always one of the three. -/
theorem computeKey_texture_field (vr : Bool) (d : Description) :
    (if d.mTextureEnabled = false then
        (computeKey vr d).getTextureTarget = Key.TEXTURE_OFF
      else if d.mTexture.getTextureTarget = GL_TEXTURE_EXTERNAL_OES then
        (computeKey vr d).getTextureTarget = Key.TEXTURE_EXT
      else if d.mTexture.getTextureTarget = GL_TEXTURE_2D then
        (computeKey vr d).getTextureTarget = Key.TEXTURE_2D
      else (computeKey vr d).getTextureTarget = Key.TEXTURE_OFF) ∧
    ((computeKey vr d).getTextureTarget = Key.TEXTURE_OFF ∨
      (computeKey vr d).getTextureTarget = Key.TEXTURE_EXT ∨
      (computeKey vr d).getTextureTarget = Key.TEXTURE_2D) := by
  have hg := (keyOfFields_getters vr (textureCategory d) (decide (d.mPlaneAlpha < 1))
    d.mPremultipliedAlpha d.mOpaque d.mColorMatrixEnabled d.mDeformEnabled
    d.mDispersionEnabled).1
  rw [← computeKey_eq_keyOfFields] at hg
  rw [hg]
  constructor
  · unfold textureCategory
    split_ifs <;> rfl
  · cases textureCategory d
    · exact Or.inl rfl
    · exact Or.inr (Or.inl rfl)
    · exact Or.inr (Or.inr rfl)

/-! ## The keyed vector -/

/-- Looking a key up after `add`: the added value under the added key, the
old content elsewhere. -/
theorem valueFor_add (l : List (Key × Program)) (key : Key) (value : Program) (k : Key) :
    valueFor (add l key value) k = if key = k then some value else valueFor l k := by
  induction l with
  | nil => simp [add, valueFor]
  | cons e rest ih =>
    obtain ⟨k0, v0⟩ := e
    unfold add
    by_cases h1 : key.mKey < k0.mKey
    · simp [h1, valueFor]
    · by_cases h2 : k0.mKey < key.mKey
      · have hne : k0 ≠ key := fun h => by rw [h] at h2; exact lt_irrefl _ h2
        simp only [h1, h2, if_true, if_false, valueFor, ih]
        by_cases h3 : key = k
        · have : k0 ≠ k := h3 ▸ hne
          simp [h3, this]
        · simp [h3]
      · have heq : k0 = key := by
          cases k0; cases key
          simp only [Key.mk.injEq]
          simp only at h1 h2
          omega
        subst heq
        simp only [lt_irrefl, if_false, valueFor]
        by_cases h3 : k0 = k <;> simp [h3]

/-- Every entry of the vector after `add` is the added one or an old one. -/
theorem mem_add (l : List (Key × Program)) (key : Key) (value : Program)
    (e : Key × Program) (h : e ∈ add l key value) : e = (key, value) ∨ e ∈ l := by
  induction l with
  | nil => simpa [add] using h
  | cons e0 rest ih =>
    obtain ⟨k0, v0⟩ := e0
    unfold add at h
    by_cases h1 : key.mKey < k0.mKey
    · simp only [h1, if_true, List.mem_cons] at h
      simpa using h
    · by_cases h2 : k0.mKey < key.mKey
      · simp only [h1, h2, if_true, if_false, List.mem_cons] at h
        rcases h with h | h
        · exact Or.inr (by simp [h])
        · rcases ih h with h | h
          · exact Or.inl h
          · exact Or.inr (List.mem_cons_of_mem _ h)
      · simp only [h1, h2, if_false, List.mem_cons] at h
        rcases h with h | h
        · exact Or.inl h
        · exact Or.inr (List.mem_cons_of_mem _ h)

/-- Adding under a key that is absent keeps every old entry. -/
theorem mem_add_of_mem (l : List (Key × Program)) (key : Key) (value : Program)
    (hnone : valueFor l key = none) (e : Key × Program) (h : e ∈ l) :
    e ∈ add l key value := by
  induction l with
  | nil => simp at h
  | cons e0 rest ih =>
    obtain ⟨k0, v0⟩ := e0
    have hk : k0 ≠ key := by
      intro hk
      simp [valueFor, hk] at hnone
    have hrest : valueFor rest key = none := by
      simpa [valueFor, hk] using hnone
    unfold add
    by_cases h1 : key.mKey < k0.mKey
    · simp only [h1, if_true]
      exact List.mem_cons_of_mem _ h
    · by_cases h2 : k0.mKey < key.mKey
      · simp only [h1, h2, if_true, if_false]
        rcases List.mem_cons.mp h with h | h
        · simp [h]
        · exact List.mem_cons_of_mem _ (ih hrest h)
      · exfalso
        apply hk
        cases k0; cases key
        simp only [Key.mk.injEq]
        simp only at h1 h2
        omega

/-- Adding under a key that is absent makes the vector one entry longer. -/
theorem length_add_of_none (l : List (Key × Program)) (key : Key) (value : Program)
    (hnone : valueFor l key = none) : (add l key value).length = l.length + 1 := by
  induction l with
  | nil => simp [add]
  | cons e0 rest ih =>
    obtain ⟨k0, v0⟩ := e0
    have hk : k0 ≠ key := by
      intro hk
      simp [valueFor, hk] at hnone
    have hrest : valueFor rest key = none := by
      simpa [valueFor, hk] using hnone
    unfold add
    by_cases h1 : key.mKey < k0.mKey
    · simp [h1]
    · by_cases h2 : k0.mKey < key.mKey
      · simp [h1, h2, ih hrest]
      · exfalso
        apply hk
        cases k0; cases key
        simp only [Key.mk.injEq]
        simp only at h1 h2
        omega

/-- Adding keeps the vector strictly sorted. -/
theorem sortedByKey_add (l : List (Key × Program)) (key : Key) (value : Program)
    (hs : SortedByKey l) : SortedByKey (add l key value) := by
  induction l with
  | nil => simp [add, SortedByKey]
  | cons e0 rest ih =>
    obtain ⟨k0, v0⟩ := e0
    unfold SortedByKey at hs ⊢
    rw [List.pairwise_cons] at hs
    obtain ⟨hhead, htail⟩ := hs
    unfold add
    by_cases h1 : key.mKey < k0.mKey
    · simp only [h1, if_true]
      refine List.Pairwise.cons ?_ (List.Pairwise.cons hhead htail)
      intro b hb
      rcases List.mem_cons.mp hb with hb | hb
      · rw [hb]; exact h1
      · exact lt_trans h1 (hhead b hb)
    · by_cases h2 : k0.mKey < key.mKey
      · simp only [h1, h2, if_true, if_false]
        refine List.Pairwise.cons ?_ (ih htail)
        intro b hb
        rcases mem_add rest key value b hb with hb | hb
        · rw [hb]; exact h2
        · exact hhead b hb
      · simp only [h1, h2, if_false]
        have heq : key.mKey = k0.mKey := by omega
        refine List.Pairwise.cons ?_ htail
        intro b hb
        simpa [heq] using hhead b hb

/-- A strictly sorted vector holds each key at most once. -/
theorem SortedByKey.nodup_keys {l : List (Key × Program)} (hs : SortedByKey l) :
    (l.map Prod.fst).Nodup := by
  unfold SortedByKey at hs
  unfold List.Nodup
  rw [List.pairwise_map]
  exact hs.imp (fun {a b} h heq => by rw [heq] at h; exact lt_irrefl _ h)

/-- In a strictly sorted vector, the entry found under a key is the entry
stored under it. -/
theorem SortedByKey.valueFor_of_mem {l : List (Key × Program)} (hs : SortedByKey l)
    (e : Key × Program) (h : e ∈ l) : valueFor l e.1 = some e.2 := by
  induction l with
  | nil => simp at h
  | cons e0 rest ih =>
    obtain ⟨k0, v0⟩ := e0
    unfold SortedByKey at hs
    rw [List.pairwise_cons] at hs
    rcases List.mem_cons.mp h with h | h
    · simp [h, valueFor]
    · have hlt := hs.1 e h
      have hne : k0 ≠ e.1 := fun hk => by rw [hk] at hlt; exact lt_irrefl _ hlt
      simp only [valueFor, hne, if_false]
      exact ih hs.2 h

/-! ## Resolving a key -/

/-- The number of `generateProgram` records in a concatenated log. -/
theorem generateCount_append (l1 l2 : List Call) :
    generateCount (l1 ++ l2) = generateCount l1 + generateCount l2 := by
  simp [generateCount]

/-- A cache keeps what it holds. -/
theorem Grows.refl (c : ProgramCache) : Grows c c :=
  ⟨fun _ h => h, fun _ _ h => h, fun h => h⟩

/-- Keeping everything composes. -/
theorem Grows.trans {c1 c2 c3 : ProgramCache} (h12 : Grows c1 c2) (h23 : Grows c2 c3) :
    Grows c1 c3 :=
  ⟨fun e h => h23.1 e (h12.1 e h), fun k p h => h23.2.1 k p (h12.2.1 k p h),
    fun h => h23.2.2 (h12.2.2 h)⟩

/-- On a hit nothing changes and the cached program is returned. -/
theorem lookupOrGenerate_hit (vr : Bool) (driver : Driver) (c : ProgramCache) (needs : Key)
    (p : Program) (h : valueFor c.mCache needs = some p) :
    lookupOrGenerate vr driver c needs = (c, p) := by
  simp [lookupOrGenerate, h]

/-- On a miss one program is generated, recorded and added under the key. -/
theorem lookupOrGenerate_miss (vr : Bool) (driver : Driver) (c : ProgramCache) (needs : Key)
    (h : valueFor c.mCache needs = none) :
    lookupOrGenerate vr driver c needs =
      ({ mCache := add c.mCache needs (generateProgram vr driver c needs).2,
         mAllocated := c.mAllocated + 1,
         log := c.log ++ [Call.generateProgram needs] },
       (generateProgram vr driver c needs).2) := by
  simp [lookupOrGenerate, h, generateProgram, ProgramCache.record]

/-- After resolving a key, the key is cached with the returned program. -/
theorem valueFor_lookupOrGenerate (vr : Bool) (driver : Driver) (c : ProgramCache)
    (needs : Key) :
    valueFor (lookupOrGenerate vr driver c needs).1.mCache needs =
      some (lookupOrGenerate vr driver c needs).2 := by
  cases h : valueFor c.mCache needs with
  | some p => rw [lookupOrGenerate_hit vr driver c needs p h]; exact h
  | none =>
    rw [lookupOrGenerate_miss vr driver c needs h]
    simp [valueFor_add]

/-- Resolving a key keeps everything the cache holds. -/
theorem grows_lookupOrGenerate (vr : Bool) (driver : Driver) (c : ProgramCache)
    (needs : Key) : Grows c (lookupOrGenerate vr driver c needs).1 := by
  cases h : valueFor c.mCache needs with
  | some p => rw [lookupOrGenerate_hit vr driver c needs p h]; exact Grows.refl c
  | none =>
    rw [lookupOrGenerate_miss vr driver c needs h]
    refine ⟨fun e he => mem_add_of_mem _ _ _ h e he, ?_, ?_⟩
    · intro k p hk
      simp only [valueFor_add]
      have hne : needs ≠ k := by
        intro heq
        rw [heq] at h
        rw [h] at hk
        exact Option.noConfusion hk
      simp [hne, hk]
    · rintro ⟨hcount, hsorted⟩
      refine ⟨?_, sortedByKey_add _ _ _ hsorted⟩
      simp only [generateCount_append, length_add_of_none _ _ _ h, hcount]
      rfl

/-- The cache after `useProgram` is the cache after resolving the key. -/
theorem useProgram_mCache (vr : Bool) (driver : Driver) (c : ProgramCache)
    (d : Description) :
    (useProgram vr driver c d).mCache =
      (lookupOrGenerate vr driver c (computeKey vr d)).1.mCache := by
  unfold useProgram
  simp only [ProgramCache.record]
  split_ifs <;> rfl

/-- The log after `useProgram`: the log after resolving the key, followed by
`use` and `setUniforms` on the resolved program when it is valid. -/
theorem useProgram_log (vr : Bool) (driver : Driver) (c : ProgramCache) (d : Description) :
    (useProgram vr driver c d).log =
      (lookupOrGenerate vr driver c (computeKey vr d)).1.log ++
        (if (lookupOrGenerate vr driver c (computeKey vr d)).2.isValid then
          [Call.use (lookupOrGenerate vr driver c (computeKey vr d)).2,
           Call.setUniforms (lookupOrGenerate vr driver c (computeKey vr d)).2 d]
         else []) := by
  unfold useProgram
  simp only [ProgramCache.record]
  split_ifs <;> simp

/-- Calling `use` and `setUniforms` adds no `generateProgram` record. -/
theorem generateCount_useProgram (vr : Bool) (driver : Driver) (c : ProgramCache)
    (d : Description) :
    generateCount (useProgram vr driver c d).log =
      generateCount (lookupOrGenerate vr driver c (computeKey vr d)).1.log := by
  rw [useProgram_log, generateCount_append]
  split_ifs <;> simp [generateCount]

/-- A call of `useProgram` keeps everything the cache holds. -/
theorem grows_useProgram (vr : Bool) (driver : Driver) (c : ProgramCache) (d : Description) :
    Grows c (useProgram vr driver c d) := by
  have h := grows_lookupOrGenerate vr driver c (computeKey vr d)
  refine ⟨?_, ?_, ?_⟩
  · rw [useProgram_mCache]; exact h.1
  · rw [useProgram_mCache]; exact h.2.1
  · intro hinv
    have h2 := h.2.2 hinv
    unfold CacheInv at h2 ⊢
    rw [useProgram_mCache, generateCount_useProgram]
    exact h2

/-- An iteration of the priming loop either skips its key or resolves it. -/
theorem primeStep_eq (vr : Bool) (driver : Driver) (keyMask : Nat) (c : ProgramCache)
    (keyVal : Nat) :
    primeStep vr driver keyMask c keyVal =
      if (Key.new.set keyMask keyVal).getTextureTarget ≠ Key.TEXTURE_OFF ∧
          (Key.new.set keyMask keyVal).getTextureTarget ≠ Key.TEXTURE_EXT ∧
          (Key.new.set keyMask keyVal).getTextureTarget ≠ Key.TEXTURE_2D then c
      else (lookupOrGenerate vr driver c (Key.new.set keyMask keyVal)).1 := by
  unfold primeStep
  simp only
  split_ifs with hskip
  · rfl
  · cases h : valueFor c.mCache (Key.new.set keyMask keyVal) with
    | some p => rw [lookupOrGenerate_hit vr driver c _ p h]
    | none => rw [lookupOrGenerate_miss vr driver c _ h]; simp [generateProgram, ProgramCache.record]

/-- An iteration of the priming loop keeps everything the cache holds. -/
theorem grows_primeStep (vr : Bool) (driver : Driver) (keyMask : Nat) (c : ProgramCache)
    (keyVal : Nat) : Grows c (primeStep vr driver keyMask c keyVal) := by
  rw [primeStep_eq]
  split_ifs
  · exact Grows.refl c
  · exact grows_lookupOrGenerate vr driver c _

/-- Any run of priming iterations keeps everything the cache holds. -/
theorem grows_foldl_primeStep (vr : Bool) (driver : Driver) (keyMask : Nat)
    (l : List Nat) (c : ProgramCache) :
    Grows c (l.foldl (primeStep vr driver keyMask) c) := by
  induction l generalizing c with
  | nil => exact Grows.refl c
  | cons a rest ih =>
    rw [List.foldl_cons]
    exact (grows_primeStep vr driver keyMask c a).trans (ih _)

/-- A call of `primeCache` keeps everything the cache holds. -/
theorem grows_primeCache (vr : Bool) (driver : Driver) (c : ProgramCache) :
    Grows c (primeCache vr driver c) :=
  grows_foldl_primeStep vr driver _ _ c

/-- One operation keeps everything the cache holds. -/
theorem grows_apply (vr : Bool) (driver : Driver) (c : ProgramCache) (op : Op) :
    Grows c (op.apply vr driver c) := by
  cases op with
  | primeCache => exact grows_primeCache vr driver c
  | useProgram d => exact grows_useProgram vr driver c d

/-- A sequence of operations keeps everything the cache holds. -/
theorem grows_runOps (vr : Bool) (driver : Driver) (ops : List Op) (c : ProgramCache) :
    Grows c (runOps vr driver c ops) := by
  induction ops generalizing c with
  | nil => exact Grows.refl c
  | cons op rest ih =>
    unfold runOps
    rw [List.foldl_cons]
    exact (grows_apply vr driver c op).trans (ih _)

/-- The empty cache satisfies the invariant. -/
theorem cacheInv_empty : CacheInv ProgramCache.empty := by
  simp [CacheInv, ProgramCache.empty, generateCount, SortedByKey]

/-! ## The cache across operations -/

/-- C2: in a cache reached by any sequence of operations, let `useProgram d1`
run, then any further operations, then `useProgram d2` with
`computeKey d2 = computeKey d1`. The second call resolves to the very program
the first call resolved to, records no `generateProgram`, and leaves the map
unchanged; all it records is `use` and `setUniforms` on that program when it
is valid. -/
theorem useProgram_same_key_hit (vr : Bool) (driver : Driver) (ops mid : List Op)
    (d1 d2 : Description) (h : computeKey vr d1 = computeKey vr d2) :
    let c0 := runOps vr driver ProgramCache.empty ops
    let first := lookupOrGenerate vr driver c0 (computeKey vr d1)
    let c1 := runOps vr driver (useProgram vr driver c0 d1) mid
    let second := lookupOrGenerate vr driver c1 (computeKey vr d2)
    let c2 := useProgram vr driver c1 d2
    second.2 = first.2 ∧
    c2.mCache = c1.mCache ∧
    generateCount c2.log = generateCount c1.log ∧
    c2.log = c1.log ++
      (if first.2.isValid then [Call.use first.2, Call.setUniforms first.2 d2] else []) := by
  intro c0 first c1 second c2
  have hfirst : valueFor (useProgram vr driver c0 d1).mCache (computeKey vr d1) =
      some first.2 := by
    rw [useProgram_mCache]
    exact valueFor_lookupOrGenerate vr driver c0 (computeKey vr d1)
  have hc1 : valueFor c1.mCache (computeKey vr d2) = some first.2 := by
    rw [← h]
    exact (grows_runOps vr driver mid _).2.1 _ _ hfirst
  have hsecond : second = (c1, first.2) :=
    lookupOrGenerate_hit vr driver c1 (computeKey vr d2) first.2 hc1
  have hlog : c2.log = c1.log ++
      (if first.2.isValid then [Call.use first.2, Call.setUniforms first.2 d2] else []) := by
    show (useProgram vr driver c1 d2).log = _
    rw [useProgram_log]
    show second.1.log ++ (if second.2.isValid then
      [Call.use second.2, Call.setUniforms second.2 d2] else []) = _
    rw [hsecond]
  refine ⟨by rw [hsecond], ?_, ?_, hlog⟩
  · show (useProgram vr driver c1 d2).mCache = _
    rw [useProgram_mCache]
    show second.1.mCache = _
    rw [hsecond]
  · rw [hlog, generateCount_append]
    split_ifs <;> simp [generateCount]

/-- C2 (witness): from the primed cache, `useProgram halfAlphaLayer`, then
`useProgram plainLayer`, then `useProgram quarterAlphaLayer`, whose key is
that of `halfAlphaLayer`. -/
theorem useProgram_same_key_hit_witness :
    computeKey true halfAlphaLayer = computeKey true quarterAlphaLayer ∧
    (let c0 := runOps true acceptAll ProgramCache.empty [Op.primeCache]
     let first := lookupOrGenerate true acceptAll c0 (computeKey true halfAlphaLayer)
     let c1 := runOps true acceptAll (useProgram true acceptAll c0 halfAlphaLayer)
       [Op.useProgram plainLayer]
     let second := lookupOrGenerate true acceptAll c1 (computeKey true quarterAlphaLayer)
     let c2 := useProgram true acceptAll c1 quarterAlphaLayer
     second.2 = first.2 ∧
     c2.mCache = c1.mCache ∧
     generateCount c2.log = generateCount c1.log ∧
     c2.log = c1.log ++
       (if first.2.isValid then
         [Call.use first.2, Call.setUniforms first.2 quarterAlphaLayer] else [])) :=
  have hkey : computeKey true halfAlphaLayer = computeKey true quarterAlphaLayer :=
    computeKey_congr true _ _ sameFeatures_half_quarter planeAlpha_half_quarter
  ⟨hkey, useProgram_same_key_hit true acceptAll [Op.primeCache] [Op.useProgram plainLayer]
    halfAlphaLayer quarterAlphaLayer hkey⟩

/-- C3: starting from the empty cache, after any sequence of `primeCache` and
`useProgram` operations the number of recorded `generateProgram` invocations
equals the number of entries, no key occurs twice, and every entry present
at an earlier point of the sequence is still present, with the same program,
at every later point. -/
theorem cache_invariant (vr : Bool) (driver : Driver) (ops1 ops2 : List Op) :
    let c1 := runOps vr driver ProgramCache.empty ops1
    let c2 := runOps vr driver c1 ops2
    generateCount c2.log = c2.mCache.length ∧
    (c2.mCache.map Prod.fst).Nodup ∧
    (∀ e ∈ c1.mCache, e ∈ c2.mCache ∧ valueFor c2.mCache e.1 = some e.2) := by
  intro c1 c2
  have h1 : CacheInv c1 := (grows_runOps vr driver ops1 _).2.2 cacheInv_empty
  have hg : Grows c1 c2 := grows_runOps vr driver ops2 c1
  have h2 : CacheInv c2 := hg.2.2 h1
  exact ⟨h2.1, h2.2.nodup_keys, fun e he =>
    ⟨hg.1 e he, h2.2.valueFor_of_mem e (hg.1 e he)⟩⟩

/-! ## Priming -/

/-- The priming loop leaves every key it does not skip in the cache. -/
theorem covers_foldl_primeStep (vr : Bool) (driver : Driver) (keyMask : Nat)
    (l : List Nat) (c : ProgramCache) (n : Nat) (hn : n ∈ l)
    (hkeep : ¬ ((Key.new.set keyMask n).getTextureTarget ≠ Key.TEXTURE_OFF ∧
      (Key.new.set keyMask n).getTextureTarget ≠ Key.TEXTURE_EXT ∧
      (Key.new.set keyMask n).getTextureTarget ≠ Key.TEXTURE_2D)) :
    ∃ p, valueFor (l.foldl (primeStep vr driver keyMask) c).mCache
      (Key.new.set keyMask n) = some p := by
  induction l generalizing c with
  | nil => simp at hn
  | cons a rest ih =>
    rw [List.foldl_cons]
    rcases List.mem_cons.mp hn with h | h
    · subst h
      refine ⟨(lookupOrGenerate vr driver c (Key.new.set keyMask n)).2, ?_⟩
      apply (grows_foldl_primeStep vr driver keyMask rest _).2.1
      rw [primeStep_eq, if_neg hkeep]
      exact valueFor_lookupOrGenerate vr driver c _
    · exact ih _ h

/-- A key without colour matrix, deform and dispersion is one of the values
the priming loop counts through, and is not skipped. -/
theorem keyOfFields_primed (vr : Bool) (tex : TextureCategory) (a b c : Bool) :
    (keyOfFields vr tex a b c false false false).mKey < 31 + 1 ∧
    Key.new.set 31 (keyOfFields vr tex a b c false false false).mKey =
      keyOfFields vr tex a b c false false false ∧
    ¬ ((keyOfFields vr tex a b c false false false).getTextureTarget ≠ Key.TEXTURE_OFF ∧
      (keyOfFields vr tex a b c false false false).getTextureTarget ≠ Key.TEXTURE_EXT ∧
      (keyOfFields vr tex a b c false false false).getTextureTarget ≠ Key.TEXTURE_2D) := by
  cases vr <;> cases tex <;> cases a <;> cases b <;> cases c <;> decide

/-- After priming, every key without colour matrix, deform and dispersion is
cached. -/
theorem primeCache_covers (vr : Bool) (driver : Driver) (c : ProgramCache) (d : Description)
    (h1 : d.mColorMatrixEnabled = false) (h2 : d.mDeformEnabled = false)
    (h3 : d.mDispersionEnabled = false) :
    ∃ p, valueFor (primeCache vr driver c).mCache (computeKey vr d) = some p := by
  obtain ⟨hlt, hset, hkeep⟩ := keyOfFields_primed vr (textureCategory d)
    (decide (d.mPlaneAlpha < 1)) d.mPremultipliedAlpha d.mOpaque
  rw [computeKey_eq_keyOfFields, h1, h2, h3]
  have hmask : (Key.BLEND_MASK ||| Key.OPACITY_MASK ||| Key.PLANE_ALPHA_MASK |||
      Key.TEXTURE_MASK) = 31 := by decide
  unfold primeCache
  simp only [hmask]
  rw [← hset] at hkeep
  have := covers_foldl_primeStep vr driver 31 (List.range (31 + 1)) c _
    (List.mem_range.mpr hlt) hkeep
  rw [hset] at this
  exact this

/-- A call of `useProgram` whose key is cached records no `generateProgram`
and leaves the map as it is. -/
theorem useProgram_of_cached (vr : Bool) (driver : Driver) (c : ProgramCache)
    (d : Description) (p : Program) (h : valueFor c.mCache (computeKey vr d) = some p) :
    generateCount (useProgram vr driver c d).log = generateCount c.log ∧
    (useProgram vr driver c d).mCache = c.mCache := by
  rw [generateCount_useProgram, useProgram_mCache, lookupOrGenerate_hit vr driver c _ p h]
  exact ⟨rfl, rfl⟩

/-- C4: after `primeCache` has run on the empty cache, and after any further
operations, `useProgram` for a description whose colour-matrix, deform and
dispersion flags are off finds its key cached, records no `generateProgram`
and leaves the map unchanged. -/
theorem primed_useProgram_no_generate (vr : Bool) (driver : Driver) (ops : List Op)
    (d : Description) (h1 : d.mColorMatrixEnabled = false) (h2 : d.mDeformEnabled = false)
    (h3 : d.mDispersionEnabled = false) :
    let c := runOps vr driver (primeCache vr driver ProgramCache.empty) ops
    (∃ p, valueFor c.mCache (computeKey vr d) = some p) ∧
    generateCount (useProgram vr driver c d).log = generateCount c.log ∧
    (useProgram vr driver c d).mCache = c.mCache := by
  intro c
  obtain ⟨p, hp⟩ := primeCache_covers vr driver ProgramCache.empty d h1 h2 h3
  have hc : valueFor c.mCache (computeKey vr d) = some p :=
    (grows_runOps vr driver ops _).2.1 _ _ hp
  exact ⟨⟨p, hc⟩, useProgram_of_cached vr driver c d p hc⟩

/-- C4 (witness): the half-alpha layer right after priming, stereo build. -/
theorem primed_useProgram_no_generate_witness :
    halfAlphaLayer.mColorMatrixEnabled = false ∧
    halfAlphaLayer.mDeformEnabled = false ∧
    halfAlphaLayer.mDispersionEnabled = false ∧
    (let c := runOps true acceptAll (primeCache true acceptAll ProgramCache.empty) []
     (∃ p, valueFor c.mCache (computeKey true halfAlphaLayer) = some p) ∧
     generateCount (useProgram true acceptAll c halfAlphaLayer).log = generateCount c.log ∧
     (useProgram true acceptAll c halfAlphaLayer).mCache = c.mCache) :=
  ⟨rfl, rfl, rfl, primed_useProgram_no_generate true acceptAll [] halfAlphaLayer rfl rfl rfl⟩

/-! ## Invalid programs -/

/-- C8: when the key of a description is not cached, `useProgram` generates a
program, records that, adds the program under `computeKey description` whether
it is valid or not, and then calls `use` and `setUniforms` with the same
description exactly when the program is valid, and neither when it is not. -/
theorem useProgram_generated (vr : Bool) (driver : Driver) (c : ProgramCache)
    (d : Description) (hmiss : valueFor c.mCache (computeKey vr d) = none) :
    let p := (generateProgram vr driver c (computeKey vr d)).2
    let c2 := useProgram vr driver c d
    valueFor c2.mCache (computeKey vr d) = some p ∧
    c2.mCache = add c.mCache (computeKey vr d) p ∧
    c2.log = c.log ++ Call.generateProgram (computeKey vr d) ::
      (if p.isValid then [Call.use p, Call.setUniforms p d] else []) := by
  intro p c2
  have hm := lookupOrGenerate_miss vr driver c (computeKey vr d) hmiss
  have hcache : c2.mCache = add c.mCache (computeKey vr d) p := by
    show (useProgram vr driver c d).mCache = _
    rw [useProgram_mCache, hm]
  refine ⟨?_, hcache, ?_⟩
  · rw [hcache, valueFor_add]
    simp
  · show (useProgram vr driver c d).log = _
    rw [useProgram_log, hm]
    simp only [List.append_assoc, List.singleton_append]

/-- C8 (witness): the plain layer on the empty cache with a driver that
rejects every program: the invalid program is cached and only its generation
is recorded. -/
theorem useProgram_generated_witness :
    valueFor ProgramCache.empty.mCache (computeKey false plainLayer) = none ∧
    (generateProgram false rejectAll ProgramCache.empty
      (computeKey false plainLayer)).2.isValid = false ∧
    (let p := (generateProgram false rejectAll ProgramCache.empty
       (computeKey false plainLayer)).2
     let c2 := useProgram false rejectAll ProgramCache.empty plainLayer
     valueFor c2.mCache (computeKey false plainLayer) = some p ∧
     c2.mCache = add ProgramCache.empty.mCache (computeKey false plainLayer) p ∧
     c2.log = ProgramCache.empty.log ++ Call.generateProgram (computeKey false plainLayer) ::
       (if p.isValid then [Call.use p, Call.setUniforms p plainLayer] else [])) :=
  ⟨rfl, rfl, useProgram_generated false rejectAll ProgramCache.empty plainLayer rfl⟩

/-! ## `drawMesh` -/

/-- The number of draw calls in a concatenated log. -/
theorem drawCount_append (l1 l2 : List Call) :
    drawCount (l1 ++ l2) = drawCount l1 + drawCount l2 := by
  simp [drawCount]

/-- The GL calls for a mesh contain exactly one draw call. -/
theorem drawCount_meshCalls (mesh : Mesh) : drawCount (meshCalls mesh) = 1 := by
  unfold meshCalls
  split_ifs <;> simp [drawCount]

/-- Selecting a program issues no draw call. -/
theorem drawCount_useProgram (vr : Bool) (driver : Driver) (c : ProgramCache)
    (d : Description) : drawCount (useProgram vr driver c d).log = drawCount c.log := by
  rw [useProgram_log]
  cases h : valueFor c.mCache (computeKey vr d) with
  | some p =>
    rw [lookupOrGenerate_hit vr driver c _ p h, drawCount_append]
    split_ifs <;> simp [drawCount]
  | none =>
    rw [lookupOrGenerate_miss vr driver c _ h]
    simp only [drawCount_append]
    split_ifs <;> simp [drawCount]

/-- The log after `drawMesh`: the log after `useProgram`, then the GL calls
for the mesh. -/
theorem drawMesh_log (vr : Bool) (driver : Driver) (c : ProgramCache) (mState : Description)
    (mesh : Mesh) :
    (drawMesh vr driver c mState mesh).log =
      (useProgram vr driver c mState).log ++ meshCalls mesh := by
  unfold drawMesh meshCalls
  simp only [ProgramCache.record]
  split_ifs <;> simp

/-- C7 (counterexample): with a driver that rejects every program, after
`useProgram plainLayer` the program cached for the plain layer is invalid, and
`drawMesh` of the quad with that description still issues
`glDrawArrays(6, 0, 4)`, the only call besides the attribute set-up. -/
theorem drawMesh_invalid_program_counterexample :
    (∃ p, valueFor (useProgram false rejectAll ProgramCache.empty plainLayer).mCache
        (computeKey false plainLayer) = some p ∧ p.isValid = false) ∧
    (drawMesh false rejectAll (useProgram false rejectAll ProgramCache.empty plainLayer)
        plainLayer quadMesh).log =
      [Call.generateProgram ⟨0⟩,
       Call.glEnableVertexAttribArray Attrib.texCoords,
       Call.glVertexAttribPointer Attrib.texCoords 2 16 4104,
       Call.glVertexAttribPointer Attrib.position 2 16 4096,
       Call.glDrawArrays 6 0 4,
       Call.glDisableVertexAttribArray Attrib.texCoords] ∧
    drawCount (drawMesh false rejectAll
      (useProgram false rejectAll ProgramCache.empty plainLayer) plainLayer quadMesh).log ≠ 0 := by
  have hmiss : valueFor ProgramCache.empty.mCache (computeKey false plainLayer) = none := rfl
  have hm := lookupOrGenerate_miss false rejectAll ProgramCache.empty
    (computeKey false plainLayer) hmiss
  have hcache : (useProgram false rejectAll ProgramCache.empty plainLayer).mCache =
      [(⟨0⟩, (generateProgram false rejectAll ProgramCache.empty ⟨0⟩).2)] := by
    rw [useProgram_mCache, hm, computeKey_plainLayer]
    rfl
  have hlog1 : (useProgram false rejectAll ProgramCache.empty plainLayer).log =
      [Call.generateProgram ⟨0⟩] := by
    rw [useProgram_log, hm, computeKey_plainLayer]
    rfl
  have hhit : valueFor (useProgram false rejectAll ProgramCache.empty plainLayer).mCache
      (computeKey false plainLayer) =
      some (generateProgram false rejectAll ProgramCache.empty ⟨0⟩).2 := by
    rw [hcache, computeKey_plainLayer]
    rfl
  have hlog2 : (drawMesh false rejectAll
      (useProgram false rejectAll ProgramCache.empty plainLayer) plainLayer quadMesh).log =
      [Call.generateProgram ⟨0⟩,
       Call.glEnableVertexAttribArray Attrib.texCoords,
       Call.glVertexAttribPointer Attrib.texCoords 2 16 4104,
       Call.glVertexAttribPointer Attrib.position 2 16 4096,
       Call.glDrawArrays 6 0 4,
       Call.glDisableVertexAttribArray Attrib.texCoords] := by
    rw [drawMesh_log, useProgram_log, lookupOrGenerate_hit _ _ _ _ _ hhit, hlog1]
    rfl
  refine ⟨⟨_, hhit, rfl⟩, hlog2, ?_⟩
  rw [hlog2]
  decide

/-- C7 (amended): for every mesh and every description, whether the resolved
program is valid or not, `drawMesh` issues exactly one `glDrawArrays`, for the
mesh's primitive and vertex count; an invalid program only keeps `use` and
`setUniforms` out of the log. -/
theorem drawMesh_always_draws (vr : Bool) (driver : Driver) (c : ProgramCache)
    (mState : Description) (mesh : Mesh) :
    (drawMesh vr driver c mState mesh).log =
      (lookupOrGenerate vr driver c (computeKey vr mState)).1.log ++
        (if (lookupOrGenerate vr driver c (computeKey vr mState)).2.isValid then
          [Call.use (lookupOrGenerate vr driver c (computeKey vr mState)).2,
           Call.setUniforms (lookupOrGenerate vr driver c (computeKey vr mState)).2 mState]
         else []) ++
        meshCalls mesh ∧
    Call.glDrawArrays mesh.getPrimitive 0 mesh.getVertexCount ∈ meshCalls mesh ∧
    drawCount (drawMesh vr driver c mState mesh).log = drawCount c.log + 1 := by
  refine ⟨?_, ?_, ?_⟩
  · rw [drawMesh_log, useProgram_log]
  · unfold meshCalls
    simp
  · rw [drawMesh_log, drawCount_append, drawCount_useProgram, drawCount_meshCalls]

/-! ## The fragment source -/

/-- At indentation level zero a line is appended as it is. -/
theorem Formatter.out_zero (ls : List String) (s : String) :
    Formatter.out ⟨ls, 0⟩ s = ⟨ls ++ [s], 0⟩ := by
  have h : Formatter.indentation ⟨ls, 0⟩ = "" := rfl
  simp [Formatter.out, h]

/-- At indentation level one a line is appended behind four spaces. -/
theorem Formatter.out_one (ls : List String) (s : String) :
    Formatter.out ⟨ls, 1⟩ s = ⟨ls ++ ["    " ++ s], 1⟩ := by
  have h : Formatter.indentation ⟨ls, 1⟩ = "    " := rfl
  simp only [Formatter.out, h]

/-- The declaration block appends the expected declarations. -/
theorem fragmentDeclare_eq (needs : Key) (ls : List String) :
    fragmentDeclare needs ⟨ls, 0⟩ = ⟨ls ++ expectedDeclarations needs, 0⟩ := by
  unfold fragmentDeclare expectedDeclarations
  by_cases h1 : needs.getTextureTarget = Key.TEXTURE_EXT
  · cases h4 : needs.hasPlaneAlpha <;>
      simp [if_pos h1, Formatter.out_zero]
  · by_cases h2 : needs.getTextureTarget = Key.TEXTURE_2D
    · cases h4 : needs.hasPlaneAlpha <;>
        simp [if_neg h1, if_pos h2, Formatter.out_zero]
    · by_cases h3 : needs.getTextureTarget = Key.TEXTURE_OFF
      · cases h4 : needs.hasPlaneAlpha <;>
          simp [if_neg h1, if_neg h2, if_pos h3, Formatter.out_zero]
      · cases h4 : needs.hasPlaneAlpha <;>
          simp [if_neg h1, if_neg h2, if_neg h3, Formatter.out_zero]

/-- The colour block appends the colour source, indented once. -/
theorem fragmentColour_eq (vr : Bool) (needs : Key) (ls : List String) :
    fragmentColour vr needs ⟨ls, 1⟩ = ⟨ls ++ colourSource vr needs, 1⟩ := by
  unfold fragmentColour colourSource deformPath fadeLines
  cases vr <;> cases h1 : needs.isTexturing <;> cases h2 : needs.hasDeform <;>
  cases h3 : needs.hasDispersion <;>
  simp [Formatter.out_one]

/-- The opacity block appends the opaque part. -/
theorem fragmentOpaque_eq (needs : Key) (ls : List String) :
    fragmentOpaque needs ⟨ls, 1⟩ = ⟨ls ++ opaquePart needs, 1⟩ := by
  unfold fragmentOpaque opaquePart
  cases h1 : needs.isOpaque <;> simp [Formatter.out_one]

/-- The plane-alpha block appends the plane-alpha part. -/
theorem fragmentPlaneAlpha_eq (needs : Key) (ls : List String) :
    fragmentPlaneAlpha needs ⟨ls, 1⟩ = ⟨ls ++ planeAlphaPart needs, 1⟩ := by
  unfold fragmentPlaneAlpha planeAlphaPart
  cases h1 : needs.hasPlaneAlpha <;> cases h2 : needs.isPremultiplied <;>
  simp [Formatter.out_one]

/-- The colour-matrix block appends the colour-matrix part. -/
theorem fragmentColorMatrix_eq (needs : Key) (ls : List String) :
    fragmentColorMatrix needs ⟨ls, 1⟩ = ⟨ls ++ colorMatrixPart needs, 1⟩ := by
  unfold fragmentColorMatrix colorMatrixPart
  cases h1 : needs.hasColorMatrix <;> cases h2 : needs.isOpaque <;>
  cases h3 : needs.isPremultiplied <;>
  simp [Formatter.out_one]

/-- The lines of the fragment source: the declarations, the line opening
`main`, the four parts of the body, the closing brace. -/
theorem fragmentFormatter_mLines (vr : Bool) (needs : Key) :
    (fragmentFormatter vr needs).mLines =
      expectedDeclarations needs ++ "void main(void) \x7b" ::
        (colourSource vr needs ++ opaquePart needs ++ planeAlphaPart needs ++
          colorMatrixPart needs ++ ["\x7d"]) := by
  have hindent : ∀ ls : List String, Formatter.indent ⟨ls, 0⟩ = ⟨ls, 1⟩ := fun _ => rfl
  have hdedent : ∀ ls : List String, Formatter.dedent ⟨ls, 1⟩ = ⟨ls, 0⟩ := fun _ => rfl
  unfold fragmentFormatter
  simp only [Formatter.new, fragmentDeclare_eq, Formatter.out_zero, hindent, fragmentColour_eq,
    fragmentOpaque_eq, fragmentPlaneAlpha_eq, fragmentColorMatrix_eq, hdedent]
  simp

/-- No declaration is the line that opens `main`. -/
theorem expectedDeclarations_ne_main (needs : Key) :
    ∀ l ∈ expectedDeclarations needs, (l != "void main(void) \x7b") = true := by
  unfold expectedDeclarations
  intro l hl
  simp only [List.mem_append, List.mem_singleton] at hl
  rcases hl with ((hl | hl) | hl) | hl
  · split_ifs at hl <;> simp at hl
    subst hl; decide
  · subst hl; decide
  · split_ifs at hl <;> simp at hl
    · rcases hl with hl | hl | hl | hl | hl | hl <;> subst hl <;> decide
    · rcases hl with hl | hl | hl | hl | hl <;> subst hl <;> decide
    · subst hl; decide
  · split_ifs at hl <;> simp at hl
    subst hl; decide

/-- The declarations of the fragment source are the expected ones. -/
theorem fragmentDeclarations_eq (vr : Bool) (needs : Key) :
    fragmentDeclarations vr needs = expectedDeclarations needs := by
  unfold fragmentDeclarations
  rw [fragmentFormatter_mLines,
    List.takeWhile_append_of_pos (expectedDeclarations_ne_main needs)]
  simp

/-- The body of the fragment `main` is the colour source, the opaque part,
the plane-alpha part and the colour-matrix part, in this order. -/
theorem fragmentBody_eq (vr : Bool) (needs : Key) :
    fragmentBody vr needs =
      colourSource vr needs ++ opaquePart needs ++ planeAlphaPart needs ++
        colorMatrixPart needs := by
  unfold fragmentBody
  rw [fragmentFormatter_mLines,
    List.dropWhile_append_of_pos (expectedDeclarations_ne_main needs)]
  simp

/-- The key of the deform sample layer in the stereo build: 2D texture and
deform. -/
theorem computeKey_deformLayer : computeKey true deformLayer = ⟨0x50⟩ := by
  have h1 : ¬ ((1 : ℚ) < 1) := by norm_num
  rw [computeKey_eq_keyOfFields]
  have ht : textureCategory deformLayer = TextureCategory.tex2D := by decide
  rw [ht]
  simp only [deformLayer, plainLayer, h1, decide_False]
  decide

/-- C9: for every key with the colour-matrix field on, in both builds, the
declarations of the fragment source are the extension, precision, sampler,
varying, colour and plane-alpha lines only; no line of the source is
`uniform mat4 colorMatrix;`, while the body multiplies by `colorMatrix`. -/
theorem fragment_colorMatrix_undeclared (vr : Bool) (needs : Key)
    (h : needs.hasColorMatrix = true) :
    fragmentDeclarations vr needs = expectedDeclarations needs ∧
    "uniform mat4 colorMatrix;" ∉ (fragmentFormatter vr needs).mLines ∧
    "    vec4 transformed = colorMatrix * vec4(gl_FragColor.rgb, 1);" ∈
      fragmentBody vr needs := by
  have h0 : "uniform mat4 colorMatrix;" ∉ expectedDeclarations needs := by
    unfold expectedDeclarations
    split_ifs <;> simp
  have h1 : "uniform mat4 colorMatrix;" ∉ colourSource vr needs := by
    unfold colourSource fadeLines
    split_ifs <;> simp
  have h2 : "uniform mat4 colorMatrix;" ∉ opaquePart needs := by
    unfold opaquePart
    split_ifs <;> simp
  have h3 : "uniform mat4 colorMatrix;" ∉ planeAlphaPart needs := by
    unfold planeAlphaPart
    split_ifs <;> simp
  have h4 : "uniform mat4 colorMatrix;" ∉ colorMatrixPart needs := by
    unfold colorMatrixPart
    split_ifs <;> simp
  refine ⟨fragmentDeclarations_eq vr needs, ?_, ?_⟩
  · rw [fragmentFormatter_mLines]
    simp only [List.mem_append, List.mem_cons, not_or]
    exact ⟨h0, by decide, ⟨⟨⟨⟨h1, h2⟩, h3⟩, h4⟩, by decide, List.not_mem_nil _⟩⟩
  · rw [fragmentBody_eq]
    simp [colorMatrixPart, h]

/-- C9 (witness): the key with only the colour-matrix field on, non-stereo
build. -/
theorem fragment_colorMatrix_undeclared_witness :
    Key.hasColorMatrix ⟨0x20⟩ = true ∧
    fragmentDeclarations false ⟨0x20⟩ = expectedDeclarations ⟨0x20⟩ ∧
    "uniform mat4 colorMatrix;" ∉ (fragmentFormatter false ⟨0x20⟩).mLines ∧
    "    vec4 transformed = colorMatrix * vec4(gl_FragColor.rgb, 1);" ∈
      fragmentBody false ⟨0x20⟩ :=
  ⟨by decide, fragment_colorMatrix_undeclared false ⟨0x20⟩ (by decide)⟩

/-- C10 (counterexample): in the stereo build the key of a translucent 2D
layer with deform on is not opaque, yet its fragment body contains
`gl_FragColor.a = 1.0;`. -/
theorem fragmentBody_alpha_forced_counterexample :
    computeKey true deformLayer = ⟨0x50⟩ ∧
    Key.isOpaque ⟨0x50⟩ = false ∧
    fragmentBody true ⟨0x50⟩ =
      ["    float scale = 20.0;",
       "    float fade_top    = clamp(       outTexCoords_r.y  * scale,0.0,1.0);",
       "    float fade_bottom = clamp((1.0 - outTexCoords_r.y) * scale,0.0,1.0);",
       "    float fade_left   = clamp(       outTexCoords_r.x  * scale,0.0,1.0);",
       "    float fade_right  = clamp((1.0 - outTexCoords_r.x) * scale,0.0,1.0);",
       "    float fade = fade_top * fade_bottom * fade_left * fade_right;",
       "    gl_FragColor   = texture2D(sampler, outTexCoords_r) * fade;",
       "    gl_FragColor.a = 1.0;"] ∧
    "    gl_FragColor.a = 1.0;" ∈ fragmentBody true ⟨0x50⟩ := by
  have hbody : fragmentBody true ⟨0x50⟩ =
      ["    float scale = 20.0;",
       "    float fade_top    = clamp(       outTexCoords_r.y  * scale,0.0,1.0);",
       "    float fade_bottom = clamp((1.0 - outTexCoords_r.y) * scale,0.0,1.0);",
       "    float fade_left   = clamp(       outTexCoords_r.x  * scale,0.0,1.0);",
       "    float fade_right  = clamp((1.0 - outTexCoords_r.x) * scale,0.0,1.0);",
       "    float fade = fade_top * fade_bottom * fade_left * fade_right;",
       "    gl_FragColor   = texture2D(sampler, outTexCoords_r) * fade;",
       "    gl_FragColor.a = 1.0;"] := by
    rw [fragmentBody_eq]
    decide
  refine ⟨computeKey_deformLayer, by decide, hbody, ?_⟩
  rw [hbody]
  simp

/-- The colour source holds none of the plane-alpha and colour-matrix
statements. -/
theorem colourSource_disjoint (vr : Bool) (needs : Key) :
    "    gl_FragColor *= alphaPlane;" ∉ colourSource vr needs ∧
    "    gl_FragColor.a *= alphaPlane;" ∉ colourSource vr needs ∧
    "    gl_FragColor.rgb = gl_FragColor.rgb/gl_FragColor.a;" ∉ colourSource vr needs ∧
    "    gl_FragColor.rgb = pow(gl_FragColor.rgb, vec3(2.2));" ∉ colourSource vr needs ∧
    "    vec4 transformed = colorMatrix * vec4(gl_FragColor.rgb, 1);" ∉
      colourSource vr needs ∧
    "    gl_FragColor.rgb = transformed.rgb/transformed.a;" ∉ colourSource vr needs ∧
    "    gl_FragColor.rgb = pow(gl_FragColor.rgb, vec3(1.0 / 2.2));" ∉
      colourSource vr needs ∧
    "    gl_FragColor.rgb = gl_FragColor.rgb*gl_FragColor.a;" ∉ colourSource vr needs := by
  unfold colourSource fadeLines
  cases deformPath vr needs <;> cases needs.isTexturing <;> cases needs.hasDispersion <;>
    cases vr <;> simp

/-- C10 (amended): for every key the fragment body is, in this order, the
colour source, then `gl_FragColor.a = 1.0;` iff the key is opaque, then the
plane-alpha modulation iff plane alpha is set (of the whole colour when
premultiplied, of alpha only otherwise), then the colour-matrix statements iff
the colour matrix is on, with the un-premultiply and re-premultiply lines
exactly when the key is premultiplied and not opaque. The colour source is
the flat colour or one texture sample, except on the deform path of the
stereo build, where it ends with its own `gl_FragColor.a = 1.0;`: the body
contains that statement iff the key is opaque or on the deform path. -/
theorem fragmentBody_order (vr : Bool) (needs : Key) :
    fragmentBody vr needs =
      colourSource vr needs ++ opaquePart needs ++ planeAlphaPart needs ++
        colorMatrixPart needs ∧
    ("    gl_FragColor.a = 1.0;" ∈ fragmentBody vr needs ↔
      (needs.isOpaque = true ∨ deformPath vr needs = true)) ∧
    ("    gl_FragColor *= alphaPlane;" ∈ fragmentBody vr needs ↔
      (needs.hasPlaneAlpha = true ∧ needs.isPremultiplied = true)) ∧
    ("    gl_FragColor.a *= alphaPlane;" ∈ fragmentBody vr needs ↔
      (needs.hasPlaneAlpha = true ∧ needs.isPremultiplied = false)) ∧
    ("    gl_FragColor.rgb = pow(gl_FragColor.rgb, vec3(2.2));" ∈ fragmentBody vr needs ↔
      needs.hasColorMatrix = true) ∧
    ("    vec4 transformed = colorMatrix * vec4(gl_FragColor.rgb, 1);" ∈
      fragmentBody vr needs ↔ needs.hasColorMatrix = true) ∧
    ("    gl_FragColor.rgb = transformed.rgb/transformed.a;" ∈ fragmentBody vr needs ↔
      needs.hasColorMatrix = true) ∧
    ("    gl_FragColor.rgb = pow(gl_FragColor.rgb, vec3(1.0 / 2.2));" ∈
      fragmentBody vr needs ↔ needs.hasColorMatrix = true) ∧
    ("    gl_FragColor.rgb = gl_FragColor.rgb/gl_FragColor.a;" ∈ fragmentBody vr needs ↔
      (needs.hasColorMatrix = true ∧ needs.isPremultiplied = true ∧
        needs.isOpaque = false)) ∧
    ("    gl_FragColor.rgb = gl_FragColor.rgb*gl_FragColor.a;" ∈ fragmentBody vr needs ↔
      (needs.hasColorMatrix = true ∧ needs.isPremultiplied = true ∧
        needs.isOpaque = false)) := by
  refine ⟨fragmentBody_eq vr needs, ?_, ?_⟩
  · rw [fragmentBody_eq]
    simp only [List.mem_append]
    have h1 : "    gl_FragColor.a = 1.0;" ∈ colourSource vr needs ↔
        deformPath vr needs = true := by
      by_cases hd : deformPath vr needs = true
      · simp [colourSource, hd]
      · have hd2 : deformPath vr needs = false := by simpa using hd
        simp only [colourSource, hd2, Bool.false_eq_true, if_false, iff_false]
        split_ifs <;> simp
    have h2 : "    gl_FragColor.a = 1.0;" ∈ opaquePart needs ↔ needs.isOpaque = true := by
      unfold opaquePart
      split_ifs <;> simp [*]
    have h3 : "    gl_FragColor.a = 1.0;" ∉ planeAlphaPart needs := by
      unfold planeAlphaPart
      split_ifs <;> simp
    have h4 : "    gl_FragColor.a = 1.0;" ∉ colorMatrixPart needs := by
      unfold colorMatrixPart
      split_ifs <;> simp
    rw [h1, h2]
    tauto
  · obtain ⟨c1, c2, c3, c4, c5, c6, c7, c8⟩ := colourSource_disjoint vr needs
    rw [fragmentBody_eq]
    simp only [List.mem_append, c1, c2, c3, c4, c5, c6, c7, c8, false_or]
    unfold opaquePart planeAlphaPart colorMatrixPart
    cases needs.isOpaque <;> cases needs.hasPlaneAlpha <;> cases needs.isPremultiplied <;>
      cases needs.hasColorMatrix <;> simp

/-! ## Declarations of the fragment source -/

/-- C11 (counterexample): the key whose texture field has both bits set
(0x18) is neither `EXT` nor `2D`, yet its fragment source declares no colour
uniform: its only declaration is the precision line. -/
theorem fragment_declarations_counterexample :
    Key.getTextureTarget ⟨0x18⟩ ≠ Key.TEXTURE_EXT ∧
    Key.getTextureTarget ⟨0x18⟩ ≠ Key.TEXTURE_2D ∧
    fragmentDeclarations false ⟨0x18⟩ = ["precision mediump float;"] ∧
    fragmentDeclarations true ⟨0x18⟩ = ["precision mediump float;"] ∧
    "uniform vec4 color;" ∉ (fragmentFormatter false ⟨0x18⟩).mLines ∧
    "uniform vec4 color;" ∉ (fragmentFormatter true ⟨0x18⟩).mLines := by
  refine ⟨by decide, by decide, ?_, ?_, ?_, ?_⟩
  · rw [fragmentDeclarations_eq]; decide
  · rw [fragmentDeclarations_eq]; decide
  · rw [fragmentFormatter_mLines]; decide
  · rw [fragmentFormatter_mLines]; decide

/-- The three sampler declarations, the colour declaration and the extension
line are not statements of the body. -/
theorem declarations_not_in_body (vr : Bool) (needs : Key) (l : String)
    (hl : l = "#extension GL_OES_EGL_image_external : require" ∨
      l = "uniform samplerExternalOES sampler;" ∨ l = "uniform sampler2D sampler;" ∨
      l = "uniform sampler2D FogBorder;" ∨ l = "uniform vec4 color;") :
    l ∉ colourSource vr needs ++ opaquePart needs ++ planeAlphaPart needs ++
      colorMatrixPart needs ++ ["\x7d"] ∧ l ≠ "void main(void) \x7b" := by
  have h1 : l ∉ colourSource vr needs := by
    unfold colourSource fadeLines
    rcases hl with h | h | h | h | h <;> subst h <;> split_ifs <;> simp
  have h2 : l ∉ opaquePart needs := by
    unfold opaquePart
    rcases hl with h | h | h | h | h <;> subst h <;> split_ifs <;> simp
  have h3 : l ∉ planeAlphaPart needs := by
    unfold planeAlphaPart
    rcases hl with h | h | h | h | h <;> subst h <;> split_ifs <;> simp
  have h4 : l ∉ colorMatrixPart needs := by
    unfold colorMatrixPart
    rcases hl with h | h | h | h | h <;> subst h <;> split_ifs <;> simp
  have h5 : l ≠ "\x7d" ∧ l ≠ "void main(void) \x7b" := by
    rcases hl with h | h | h | h | h <;> subst h <;> decide
  simp only [List.mem_append, List.mem_singleton, not_or]
  exact ⟨⟨⟨⟨⟨h1, h2⟩, h3⟩, h4⟩, h5.1⟩, h5.2⟩

/-- A declaration-like line is a line of the fragment source exactly when it
is one of the expected declarations. -/
theorem mem_fragment_lines_iff (vr : Bool) (needs : Key) (l : String)
    (hl : l = "#extension GL_OES_EGL_image_external : require" ∨
      l = "uniform samplerExternalOES sampler;" ∨ l = "uniform sampler2D sampler;" ∨
      l = "uniform sampler2D FogBorder;" ∨ l = "uniform vec4 color;") :
    l ∈ (fragmentFormatter vr needs).mLines ↔ l ∈ expectedDeclarations needs := by
  obtain ⟨hb, hm⟩ := declarations_not_in_body vr needs l hl
  rw [fragmentFormatter_mLines, List.mem_append, List.mem_cons]
  constructor
  · rintro (h | h | h)
    · exact h
    · exact absurd h hm
    · exact absurd h hb
  · intro h
    exact Or.inl h

/-- C11 (amended): for every key the declarations follow the texture field.
For `EXT` the source starts with the extension line and declares the external
sampler; for `2D` it declares the 2D sampler and has no extension line; for
`OFF` it declares the flat colour uniform and no sampler; for the remaining
value of the field it has neither the extension line nor a sampler nor the
colour uniform. -/
theorem fragment_declarations_by_texture (vr : Bool) (needs : Key) :
    if needs.getTextureTarget = Key.TEXTURE_EXT then
      (fragmentFormatter vr needs).mLines.head? =
        some "#extension GL_OES_EGL_image_external : require" ∧
      "uniform samplerExternalOES sampler;" ∈ fragmentDeclarations vr needs ∧
      "uniform sampler2D sampler;" ∉ (fragmentFormatter vr needs).mLines ∧
      "uniform vec4 color;" ∉ (fragmentFormatter vr needs).mLines
    else if needs.getTextureTarget = Key.TEXTURE_2D then
      "uniform sampler2D sampler;" ∈ fragmentDeclarations vr needs ∧
      "#extension GL_OES_EGL_image_external : require" ∉ (fragmentFormatter vr needs).mLines ∧
      "uniform samplerExternalOES sampler;" ∉ (fragmentFormatter vr needs).mLines ∧
      "uniform vec4 color;" ∉ (fragmentFormatter vr needs).mLines
    else if needs.getTextureTarget = Key.TEXTURE_OFF then
      "uniform vec4 color;" ∈ fragmentDeclarations vr needs ∧
      "#extension GL_OES_EGL_image_external : require" ∉ (fragmentFormatter vr needs).mLines ∧
      "uniform samplerExternalOES sampler;" ∉ (fragmentFormatter vr needs).mLines ∧
      "uniform sampler2D sampler;" ∉ (fragmentFormatter vr needs).mLines ∧
      "uniform sampler2D FogBorder;" ∉ (fragmentFormatter vr needs).mLines
    else
      "uniform vec4 color;" ∉ (fragmentFormatter vr needs).mLines ∧
      "#extension GL_OES_EGL_image_external : require" ∉ (fragmentFormatter vr needs).mLines ∧
      "uniform samplerExternalOES sampler;" ∉ (fragmentFormatter vr needs).mLines ∧
      "uniform sampler2D sampler;" ∉ (fragmentFormatter vr needs).mLines ∧
      "uniform sampler2D FogBorder;" ∉ (fragmentFormatter vr needs).mLines := by
  have hext := mem_fragment_lines_iff vr needs "#extension GL_OES_EGL_image_external : require"
    (Or.inl rfl)
  have hoes := mem_fragment_lines_iff vr needs "uniform samplerExternalOES sampler;"
    (Or.inr (Or.inl rfl))
  have h2d := mem_fragment_lines_iff vr needs "uniform sampler2D sampler;"
    (Or.inr (Or.inr (Or.inl rfl)))
  have hfog := mem_fragment_lines_iff vr needs "uniform sampler2D FogBorder;"
    (Or.inr (Or.inr (Or.inr (Or.inl rfl))))
  have hcol := mem_fragment_lines_iff vr needs "uniform vec4 color;"
    (Or.inr (Or.inr (Or.inr (Or.inr rfl))))
  rw [hext, hoes, h2d, hfog, hcol, fragmentDeclarations_eq, fragmentFormatter_mLines]
  unfold expectedDeclarations
  by_cases h1 : needs.getTextureTarget = Key.TEXTURE_EXT
  · simp [if_pos h1]
  · by_cases h2 : needs.getTextureTarget = Key.TEXTURE_2D
    · simp [if_neg h1, if_pos h2]
    · by_cases h3 : needs.getTextureTarget = Key.TEXTURE_OFF
      · simp [if_neg h1, if_neg h2, if_pos h3]
      · simp [if_neg h1, if_neg h2, if_neg h3]

/-! ## Blending and projection -/

/-- What `setupLayerBlending` leaves behind: the three description fields, and
either blending off with the factors untouched or blending on with the
separate factors. -/
theorem setupLayerBlending_eq (premult opaq : Bool) (alpha : Int) (e : GLES20RenderEngine) :
    (setupLayerBlending premult opaq alpha e).mState =
      { e.mState with
        mPremultipliedAlpha := premult, mOpaque := opaq, mPlaneAlpha := (alpha : ℚ) / 255 } ∧
    (setupLayerBlending premult opaq alpha e).gl =
      if alpha < 255 ∨ opaq = false then
        { e.gl with
          blend := true
          blendFunc := ⟨if premult then GL_ONE else GL_SRC_ALPHA, GL_ONE_MINUS_SRC_ALPHA,
            GL_ONE, GL_ONE_MINUS_SRC_ALPHA⟩ }
      else { e.gl with blend := false } := by
  unfold setupLayerBlending
  by_cases h : alpha < 255 ∨ opaq = false
  · have h2 : alpha < 0xFF ∨ (!opaq) = true := by
      rcases h with h | h
      · exact Or.inl h
      · exact Or.inr (by simp [h])
    simp only [if_pos h, if_pos h2]
    constructor
    · rfl
    · simp [GLES20RenderEngine.call, GLContext.apply]
  · have h2 : ¬ (alpha < 0xFF ∨ (!opaq) = true) := by
      intro h3
      apply h
      rcases h3 with h3 | h3
      · exact Or.inl h3
      · exact Or.inr (by simpa using h3)
    simp only [if_neg h, if_neg h2]
    constructor
    · rfl
    · simp [GLES20RenderEngine.call, GLContext.apply]

/-- C12: for every alpha up to 255 (in particular every alpha in 0..255),
after `setupLayerBlending(premultiplied, opaque, alpha)` blending is disabled
if and only if the layer is opaque and alpha is 255; otherwise blending is
enabled with the factors `(ONE or SRC_ALPHA, ONE_MINUS_SRC_ALPHA, ONE,
ONE_MINUS_SRC_ALPHA)`, the first being `ONE` exactly for premultiplied
alpha. -/
theorem setupLayerBlending_blend (premult opaq : Bool) (alpha : Int) (e : GLES20RenderEngine)
    (h255 : alpha ≤ 255) :
    ((setupLayerBlending premult opaq alpha e).gl.blend = false ↔
      (opaq = true ∧ alpha = 255)) ∧
    ((opaq = true ∧ alpha = 255) ∨
      ((setupLayerBlending premult opaq alpha e).gl.blend = true ∧
       (setupLayerBlending premult opaq alpha e).gl.blendFunc =
        ⟨if premult then GL_ONE else GL_SRC_ALPHA, GL_ONE_MINUS_SRC_ALPHA, GL_ONE,
          GL_ONE_MINUS_SRC_ALPHA⟩)) := by
  rw [(setupLayerBlending_eq premult opaq alpha e).2]
  by_cases h : alpha < 255 ∨ opaq = false
  · have hn : ¬ (opaq = true ∧ alpha = 255) := by
      rintro ⟨h1, h2⟩
      rcases h with h | h
      · omega
      · rw [h1] at h; exact Bool.noConfusion h
    rw [if_pos h]
    exact ⟨⟨fun hb => Bool.noConfusion hb, fun hp => absurd hp hn⟩, Or.inr ⟨rfl, rfl⟩⟩
  · have hp : opaq = true ∧ alpha = 255 := by
      constructor
      · cases opaq
        · exact absurd (Or.inr rfl) h
        · rfl
      · have : ¬ alpha < 255 := fun h1 => h (Or.inl h1)
        omega
    rw [if_neg h]
    exact ⟨⟨fun _ => hp, fun _ => rfl⟩, Or.inl hp⟩

/-- C12 (witness): `(true, true, 255)` disables blending; `(true, true, 200)`
enables it with source factor `ONE`. -/
theorem setupLayerBlending_blend_witness :
    (255 : Int) ≤ 255 ∧ (200 : Int) ≤ 255 ∧
    (setupLayerBlending true true 255 freshEngine).gl.blend = false ∧
    (setupLayerBlending true true 200 freshEngine).gl.blend = true ∧
    (setupLayerBlending true true 200 freshEngine).gl.blendFunc =
      ⟨GL_ONE, GL_ONE_MINUS_SRC_ALPHA, GL_ONE, GL_ONE_MINUS_SRC_ALPHA⟩ :=
  have h1 := setupLayerBlending_blend true true 255 freshEngine (by decide)
  have h2 := setupLayerBlending_blend true true 200 freshEngine (by decide)
  ⟨by decide, by decide, h1.1.mpr ⟨rfl, rfl⟩,
    (h2.2.resolve_left (by decide)).1, (h2.2.resolve_left (by decide)).2⟩

/-- A non-negative integer that fits the word is unchanged by the conversion
to `size_t`. -/
theorem toSizeT_of_nonneg (sizeBits : Nat) (x : Int) (h0 : 0 ≤ x)
    (hlt : x < 2 ^ sizeBits) : ((toSizeT sizeBits x : Nat) : ℚ) = (x : ℚ) := by
  unfold toSizeT
  rw [Int.emod_eq_of_lt h0 hlt]
  have h : ((x.toNat : Int)) = x := Int.toNat_of_nonneg h0
  rw [← Int.cast_natCast, h]

/-- The projection stored for no Y-flip and rotation 0 is the orthographic
projection of the converted crop. -/
theorem setViewportAndProjection_matrix (sizeBits : Nat) (rotate : Nat → mat4)
    (vpw vph : Nat) (crop : Rect) (hwh : Nat) (e : GLES20RenderEngine) :
    (setViewportAndProjection sizeBits rotate vpw vph crop hwh false ROT_0 e).mState.mProjectionMatrix =
      mat4.ortho (toSizeT sizeBits crop.left) (toSizeT sizeBits crop.right)
        (toSizeT sizeBits (hwh - crop.bottom)) (toSizeT sizeBits (hwh - crop.top)) 0 1 := by
  simp [setViewportAndProjection, Description.setProjectionMatrix, GLES20RenderEngine.call]

/-- The orthographic projection takes the lower left corner to `(-1, -1)` and
the upper right corner to `(1, 1)`, on the near plane. -/
theorem ortho_corners (l r b t : ℚ) (hlr : l < r) (hbt : b < t) :
    (mat4.ortho l r b t 0 1).mulVec ⟨l, b, 0, 1⟩ = ⟨-1, -1, -1, 1⟩ ∧
    (mat4.ortho l r b t 0 1).mulVec ⟨r, t, 0, 1⟩ = ⟨1, 1, -1, 1⟩ := by
  have h1 : r - l ≠ 0 := by linarith
  have h2 : t - b ≠ 0 := by linarith
  unfold mat4.ortho mat4.mulVec
  simp only [vec4.mk.injEq]
  refine ⟨⟨?_, ?_, ?_, ?_⟩, ⟨?_, ?_, ?_, ?_⟩⟩ <;> first
    | (field_simp; ring)
    | norm_num

/-- C13 (counterexample): for the crop `(left -1, top 0, right 1, bottom 1)`
and target height 1, which has `left < right` and `0 <= top < bottom <=
targetHeight`, the stored projection does not take `(left, targetHeight -
bottom) = (-1, 0)` to `x = -1`, whether `size_t` has 32 or 64 bits: the
negative left edge wraps around in the conversion to `size_t`. -/
theorem projection_negative_left_counterexample :
    ((-1 : Int) < 1 ∧ (0 : Int) ≤ 0 ∧ (0 : Int) < 1 ∧ (1 : Int) ≤ 1) ∧
    ((setViewportAndProjection 64 (fun _ => mat4.identity) 2 1 ⟨-1, 0, 1, 1⟩ 1 false ROT_0
        freshEngine).mState.mProjectionMatrix.mulVec ⟨-1, 0, 0, 1⟩).x ≠ -1 ∧
    ((setViewportAndProjection 32 (fun _ => mat4.identity) 2 1 ⟨-1, 0, 1, 1⟩ 1 false ROT_0
        freshEngine).mState.mProjectionMatrix.mulVec ⟨-1, 0, 0, 1⟩).x ≠ -1 := by
  have h64 : toSizeT 64 (-1) = 18446744073709551615 := by decide
  have h32 : toSizeT 32 (-1) = 4294967295 := by decide
  have h1 : ∀ n, toSizeT n 1 = 1 % 2 ^ n := by
    intro n
    unfold toSizeT
    norm_cast
  refine ⟨by decide, ?_, ?_⟩
  · rw [setViewportAndProjection_matrix]
    simp only [h64, h1, mat4.ortho, mat4.mulVec]
    norm_num
  · rw [setViewportAndProjection_matrix]
    simp only [h32, h1, mat4.ortho, mat4.mulVec]
    norm_num

/-- C13 (amended): for every crop rectangle with `0 <= left < right` and
`0 <= top < bottom <= targetHeight` (all fitting `size_t`), with no Y-flip and
rotation 0, the stored projection maps `(left, targetHeight - bottom)` to
clip-space `(-1, -1)` and `(right, targetHeight - top)` to `(1, 1)`, both on
the near plane. -/
theorem projection_maps_crop_corners (sizeBits : Nat) (rotate : Nat → mat4)
    (vpw vph : Nat) (crop : Rect) (hwh : Nat) (e : GLES20RenderEngine)
    (hl0 : 0 ≤ crop.left) (hlr : crop.left < crop.right)
    (hr : crop.right < 2 ^ sizeBits)
    (ht0 : 0 ≤ crop.top) (htb : crop.top < crop.bottom) (hb : crop.bottom ≤ hwh)
    (hh : (hwh : Int) < 2 ^ sizeBits) :
    (setViewportAndProjection sizeBits rotate vpw vph crop hwh false ROT_0
        e).mState.mProjectionMatrix.mulVec ⟨crop.left, hwh - crop.bottom, 0, 1⟩ =
      ⟨-1, -1, -1, 1⟩ ∧
    (setViewportAndProjection sizeBits rotate vpw vph crop hwh false ROT_0
        e).mState.mProjectionMatrix.mulVec ⟨crop.right, hwh - crop.top, 0, 1⟩ =
      ⟨1, 1, -1, 1⟩ := by
  rw [setViewportAndProjection_matrix]
  have hL := toSizeT_of_nonneg sizeBits crop.left hl0 (by omega)
  have hR := toSizeT_of_nonneg sizeBits crop.right (by omega) hr
  have hB := toSizeT_of_nonneg sizeBits (hwh - crop.bottom) (by omega) (by omega)
  have hT := toSizeT_of_nonneg sizeBits (hwh - crop.top) (by omega) (by omega)
  rw [hL, hR, hB, hT]
  have hlr2 : (crop.left : ℚ) < crop.right := by exact_mod_cast hlr
  have hbt2 : (((hwh : Int) - crop.bottom : Int) : ℚ) < (((hwh : Int) - crop.top : Int) : ℚ) := by
    have : (hwh : Int) - crop.bottom < (hwh : Int) - crop.top := by omega
    exact_mod_cast this
  have := ortho_corners _ _ _ _ hlr2 hbt2
  simpa using this

/-- C13 (witness): viewport 1440x2560, crop `(0, 1440, 0, 2560)`, target
height 2560: `(0, 0)` goes to `(-1, -1)` and `(1440, 2560)` to `(1, 1)`. -/
theorem projection_maps_crop_corners_witness :
    ((0 : Int) ≤ 0 ∧ (0 : Int) < 1440 ∧ (1440 : Int) < 2 ^ 32 ∧ (0 : Int) ≤ 0 ∧
      (0 : Int) < 2560 ∧ (2560 : Int) ≤ (2560 : Nat) ∧ ((2560 : Nat) : Int) < 2 ^ 32) ∧
    (setViewportAndProjection 32 (fun _ => mat4.identity) 1440 2560 ⟨0, 0, 1440, 2560⟩ 2560
        false ROT_0 freshEngine).mState.mProjectionMatrix.mulVec ⟨0, 0, 0, 1⟩ =
      ⟨-1, -1, -1, 1⟩ ∧
    (setViewportAndProjection 32 (fun _ => mat4.identity) 1440 2560 ⟨0, 0, 1440, 2560⟩ 2560
        false ROT_0 freshEngine).mState.mProjectionMatrix.mulVec ⟨1440, 2560, 0, 1⟩ =
      ⟨1, 1, -1, 1⟩ := by
  have h := projection_maps_crop_corners 32 (fun _ => mat4.identity) 1440 2560
    ⟨0, 0, 1440, 2560⟩ 2560 freshEngine (by decide) (by decide) (by decide) (by decide)
    (by decide) (by decide) (by decide)
  refine ⟨by decide, ?_, ?_⟩
  · simpa using h.1
  · simpa using h.2

/-! ## Groups, non-stereo build -/

/-- What `beginGroup` changes: the new group on the stack, the log, and the
GL context; the description and the viewport size stay. -/
theorem beginGroup_fields (T : mat4) (e : GLES20RenderEngine) :
    (beginGroup T e).mState = e.mState ∧
    (beginGroup T e).mVpWidth = e.mVpWidth ∧
    (beginGroup T e).mVpHeight = e.mVpHeight ∧
    (beginGroup T e).gl.viewport = e.gl.viewport ∧
    (beginGroup T e).mGroupStack =
      { texture := e.gl.textureNames + 1, fbo := e.gl.framebufferNames + 1,
        width := e.mVpWidth, height := e.mVpHeight, colorTransform := T } :: e.mGroupStack ∧
    (beginGroup T e).gl.framebufferBinding = e.gl.framebufferNames + 1 := by
  simp [beginGroup, GLES20RenderEngine.call, GLES20RenderEngine.glGenTextures,
    GLES20RenderEngine.glGenFramebuffers, GLContext.apply]

/-- What the non-stereo `endGroup` leaves in the engine when the stack is
`group :: rest`. -/
theorem endGroup_fields (driver : Driver) (vertices : Nat) (e : GLES20RenderEngine)
    (group : Group) (rest : List Group) (h : e.mGroupStack = group :: rest) :
    ∃ e2, endGroup driver vertices e = some e2 ∧
      e2.mGroupStack = rest ∧
      e2.mVpWidth = e.mVpWidth ∧
      e2.mVpHeight = e.mVpHeight ∧
      e2.gl.viewport = e.gl.viewport ∧
      e2.mState = { e.mState with
        mPlaneAlpha := 1, mPremultipliedAlpha := true, mOpaque := false,
        mTexture := ⟨group.texture, GL_TEXTURE_2D, group.width, group.height⟩,
        mTextureEnabled := true, mColorMatrix := mat4.identity,
        mColorMatrixEnabled := false } ∧
      e2.gl.framebufferBinding =
        (if group.fbo ≠ 0 ∧ previousTarget rest = group.fbo then 0
         else previousTarget rest) := by
  unfold endGroup
  rw [h]
  refine ⟨_, rfl, ?_⟩
  simp [GLES20RenderEngine.call, GLContext.apply, Description.setPlaneAlpha,
    Description.setPremultipliedAlpha, Description.setOpaque, Description.setTexture,
    Description.setColorMatrix, Texture.new, Texture.setDimensions]

/-- C14 (counterexample): on the sample engine, whose description
is not premultiplied and has texturing off, `beginGroup(identity)` followed by
`endGroup()` returns with a description that is premultiplied and has
texturing on. -/
theorem beginGroup_endGroup_description_counterexample :
    freshEngine.mState.mPremultipliedAlpha = false ∧
    freshEngine.mState.mTextureEnabled = false ∧
    ∃ e2, endGroup acceptAll 4096 (beginGroup mat4.identity freshEngine) = some e2 ∧
      e2.mState.mPremultipliedAlpha = true ∧
      e2.mState.mTextureEnabled = true ∧
      e2.mState ≠ freshEngine.mState := by
  refine ⟨rfl, rfl, ?_⟩
  obtain ⟨e2, h1, -, -, -, -, h2, -⟩ := endGroup_fields acceptAll 4096
    (beginGroup mat4.identity freshEngine) _ _ (beginGroup_fields mat4.identity freshEngine).2.2.2.2.1
  refine ⟨e2, h1, ?_, ?_, ?_⟩
  · rw [h2]
  · rw [h2]
  · intro h
    have h3 := congrArg Description.mPremultipliedAlpha h
    rw [h2] at h3
    exact Bool.noConfusion h3

/-- C14 (amended): for every engine state and every colour transform,
`beginGroup(T)` immediately followed by `endGroup()` returns, with the group
stack, the viewport size, the GL viewport, the projection matrix, the solid
colour and the deform and dispersion flags as they were before `beginGroup`;
the other description fields are left as the composite draw set them: plane
alpha 1, premultiplied, not opaque, the group's texture enabled, colour matrix
identity with its enable flag off. -/
theorem beginGroup_endGroup_state (driver : Driver) (vertices : Nat) (T : mat4)
    (e : GLES20RenderEngine) :
    ∃ e2, endGroup driver vertices (beginGroup T e) = some e2 ∧
      e2.mGroupStack = e.mGroupStack ∧
      e2.mVpWidth = e.mVpWidth ∧
      e2.mVpHeight = e.mVpHeight ∧
      e2.gl.viewport = e.gl.viewport ∧
      e2.mState.mProjectionMatrix = e.mState.mProjectionMatrix ∧
      e2.mState.mColor = e.mState.mColor ∧
      e2.mState = { e.mState with
        mPlaneAlpha := 1, mPremultipliedAlpha := true, mOpaque := false,
        mTexture := ⟨e.gl.textureNames + 1, GL_TEXTURE_2D, e.mVpWidth, e.mVpHeight⟩,
        mTextureEnabled := true, mColorMatrix := mat4.identity,
        mColorMatrixEnabled := false } := by
  obtain ⟨b1, b2, b3, b4, b5, -⟩ := beginGroup_fields T e
  obtain ⟨e2, h1, h2, h3, h4, h5, h6, -⟩ := endGroup_fields driver vertices
    (beginGroup T e) _ _ b5
  refine ⟨e2, h1, h2, by rw [h3, b2], by rw [h4, b3], by rw [h5, b4], ?_, ?_, ?_⟩
  · rw [h6, b1]
  · rw [h6, b1]
  · rw [h6, b1]

/-! ## The warp mesh -/

/-- With no property set, every read returns its default. -/
theorem property_get_nil (key default_value : String) :
    property_get [] key default_value = default_value := rfl

/-- The values of the stand-in parser on the two default strings. -/
theorem sampleAtof_defaults : sampleAtof "0.5" = 1 / 2 ∧ sampleAtof "0" = 0 := by
  constructor <;> simp [sampleAtof]

/-- C19 (counterexample): with the default configuration (height 0.5, IPD
scale 0), `uv = (1, 0.5)`, `k1 = 1` and `k2 = 0`, `genDeformTex` returns
`x = 2129/2048`, while the formula with `r` the distance of `uv` from the
centre gives `x = 9/8`. -/
theorem genDeformTex_radius_counterexample :
    (genDeformTex sampleAtof [] ⟨1, 1 / 2⟩ 1 0).x = 2129 / 2048 ∧
    (radialDistortion ⟨1, 1 / 2⟩ 1 0).x = 9 / 8 ∧
    genDeformTex sampleAtof [] ⟨1, 1 / 2⟩ 1 0 ≠ radialDistortion ⟨1, 1 / 2⟩ 1 0 := by
  have h1 : sampleAtof (property_get [] "sys.3d.height" "0.5") = 1 / 2 := by
    rw [property_get_nil]; exact sampleAtof_defaults.1
  have h2 : sampleAtof (property_get [] "sys.3d.ipd_scale" "0") = 0 := by
    rw [property_get_nil]; exact sampleAtof_defaults.2
  have hx : (genDeformTex sampleAtof [] ⟨1, 1 / 2⟩ 1 0).x = 2129 / 2048 := by
    simp only [genDeformTex, h1, h2, Screen_X, Screen_Y]
    norm_num
  have hy : (radialDistortion ⟨1, 1 / 2⟩ 1 0).x = 9 / 8 := by
    simp only [radialDistortion]
    norm_num
  refine ⟨hx, hy, ?_⟩
  intro h
  rw [h, hy] at hx
  norm_num at hx

/-- The aspect factor computed inside `genDeformTex` is `deformAspect`. -/
theorem genDeformTex_eq_aspect (atof : String → ℚ) (props : Properties) (uv : vec2)
    (k1 k2 : ℚ) (h : deformAspect atof props ≠ 0) :
    genDeformTex atof props uv k1 k2 =
      aspectRadialDistortion (deformAspect atof props) uv k1 k2 := by
  have habs : (if atof (property_get props "sys.3d.ipd_scale" "0") < 0 then
      (-1) * atof (property_get props "sys.3d.ipd_scale" "0")
      else atof (property_get props "sys.3d.ipd_scale" "0")) =
      |atof (property_get props "sys.3d.ipd_scale" "0")| := by
    split_ifs with hneg
    · rw [abs_of_neg hneg]; ring
    · rw [abs_of_nonneg (not_lt.mp hneg)]
  unfold genDeformTex aspectRadialDistortion
  simp only [habs]
  have hd : (Screen_X * atof (property_get props "sys.3d.height" "0.5")) /
      ((Screen_Y / 2) * (1 - (1 / 2) * |atof (property_get props "sys.3d.ipd_scale" "0")|)) =
      deformAspect atof props := rfl
  rw [hd]
  generalize deformAspect atof props = a at h
  simp only [vec2.mk.injEq]
  constructor
  · field_simp
    ring
  · ring

/-- C19 (amended): for every base UV and every coefficient pair, with a
configuration whose aspect factor `xyRatio = (Screen_X * height) /
((Screen_Y / 2) * (1 - |ipd_scale| / 2))` is not zero, `genDeformTex(uv, k1,
k2) = center + (uv - center) * (1 + k1 r² + k2 r⁴)` with `center = (0.5, 0.5)`
and `r² = ((uv.x - 0.5) * xyRatio)² + (uv.y - 0.5)²`. -/
theorem genDeformTex_formula (atof : String → ℚ) (props : Properties) (uv : vec2)
    (k1 k2 : ℚ) (h : deformAspect atof props ≠ 0) :
    genDeformTex atof props uv k1 k2 =
      ⟨1 / 2 + (uv.x - 1 / 2) *
          (1 + k1 * (((uv.x - 1 / 2) * deformAspect atof props) ^ 2 + (uv.y - 1 / 2) ^ 2) +
            k2 * (((uv.x - 1 / 2) * deformAspect atof props) ^ 2 + (uv.y - 1 / 2) ^ 2) ^ 2),
        1 / 2 + (uv.y - 1 / 2) *
          (1 + k1 * (((uv.x - 1 / 2) * deformAspect atof props) ^ 2 + (uv.y - 1 / 2) ^ 2) +
            k2 * (((uv.x - 1 / 2) * deformAspect atof props) ^ 2 + (uv.y - 1 / 2) ^ 2) ^ 2)⟩ :=
  genDeformTex_eq_aspect atof props uv k1 k2 h

/-- The aspect factor of the default configuration is 9/16. -/
theorem deformAspect_default : deformAspect sampleAtof [] = 9 / 16 := by
  have h1 : sampleAtof (property_get [] "sys.3d.height" "0.5") = 1 / 2 := by
    rw [property_get_nil]; exact sampleAtof_defaults.1
  have h2 : sampleAtof (property_get [] "sys.3d.ipd_scale" "0") = 0 := by
    rw [property_get_nil]; exact sampleAtof_defaults.2
  simp only [deformAspect, h1, h2, Screen_X, Screen_Y]
  norm_num

/-- C19 (witness): the default configuration, `uv = (1, 0.5)`, `k1 = 1`,
`k2 = 0`. -/
theorem genDeformTex_formula_witness :
    deformAspect sampleAtof [] ≠ 0 ∧
    genDeformTex sampleAtof [] ⟨1, 1 / 2⟩ 1 0 =
      ⟨1 / 2 + (1 - 1 / 2) *
          (1 + 1 * (((1 - 1 / 2) * deformAspect sampleAtof []) ^ 2 + (1 / 2 - 1 / 2) ^ 2) +
            0 * (((1 - 1 / 2) * deformAspect sampleAtof []) ^ 2 + (1 / 2 - 1 / 2) ^ 2) ^ 2),
        1 / 2 + (1 / 2 - 1 / 2) *
          (1 + 1 * (((1 - 1 / 2) * deformAspect sampleAtof []) ^ 2 + (1 / 2 - 1 / 2) ^ 2) +
            0 * (((1 - 1 / 2) * deformAspect sampleAtof []) ^ 2 + (1 / 2 - 1 / 2) ^ 2) ^ 2)⟩ :=
  have h : deformAspect sampleAtof [] ≠ 0 := by
    rw [deformAspect_default]
    norm_num
  ⟨h, genDeformTex_formula sampleAtof [] ⟨1, 1 / 2⟩ 1 0 h⟩

/-- Reading the property that was just set gives the new value, or the
default when the new value is empty. -/
theorem property_get_set_eq (props : Properties) (key value default_value : String) :
    property_get (property_set props key value) key default_value =
      if value.isEmpty then default_value else value := by
  simp [property_get, property_set, List.lookup]

/-- The store without the entries of one key answers like the full store for
every other key. -/
theorem lookup_filter_ne (props : Properties) (key other : String) (h : other ≠ key) :
    (props.filter (fun entry => entry.1 != key)).lookup other = props.lookup other := by
  induction props with
  | nil => rfl
  | cons entry rest ih =>
    obtain ⟨k, v⟩ := entry
    by_cases hk : k = key
    · subst hk
      have h1 : (other == k) = false := by simpa using h
      simp [List.filter, List.lookup, h1, ih]
    · have h1 : (k != key) = true := by simpa using hk
      simp only [List.filter, h1, List.lookup]
      rw [ih]

/-- Setting one property does not change what is read for another. -/
theorem property_get_set_ne (props : Properties) (key value other default_value : String)
    (h : other ≠ key) :
    property_get (property_set props key value) other default_value =
      property_get props other default_value := by
  have h1 : (other == key) = false := by simpa using h
  simp only [property_get, property_set, List.lookup, h1]
  rw [lookup_filter_ne props key other h]

/-- With a non-zero IPD offset and a non-zero IPD scale in the store, the
locals of `genVRMeshBuffer` are those it computes for any other stored IPD
scale: the scale it works with is zero either way. -/
theorem meshLocals_scale_forced (atof : String → ℚ) (props : Properties) (width height : ℚ)
    (value : String)
    (hoff : atof (property_get props "sys.3d.ipd_offset" "0") ≠ 0)
    (hscale : atof (property_get props "sys.3d.ipd_scale" "0") ≠ 0) :
    meshLocals atof (property_set props "sys.3d.ipd_scale" value) width height =
      meshLocals atof props width height := by
  unfold meshLocals
  simp only [property_get_set_eq,
    property_get_set_ne props "sys.3d.ipd_scale" value "sys.hwc.force3d.primary" "2"
      (by decide),
    property_get_set_ne props "sys.3d.ipd_scale" value "sys.3d.deform_red1" "0" (by decide),
    property_get_set_ne props "sys.3d.ipd_scale" value "sys.3d.deform_red2" "0" (by decide),
    property_get_set_ne props "sys.3d.ipd_scale" value "sys.3d.deform_green1" "0" (by decide),
    property_get_set_ne props "sys.3d.ipd_scale" value "sys.3d.deform_green2" "0" (by decide),
    property_get_set_ne props "sys.3d.ipd_scale" value "sys.3d.deform_blue1" "0" (by decide),
    property_get_set_ne props "sys.3d.ipd_scale" value "sys.3d.deform_blue2" "0" (by decide),
    property_get_set_ne props "sys.3d.ipd_scale" value "sys.3d.height" "0.5" (by decide),
    property_get_set_ne props "sys.3d.ipd_scale" value "sys.3d.ipd_offset" "0" (by decide)]
  simp [hoff, hscale]

/-- The eye positions of a vertex computed by the loop body depend on the
store only through the locals. -/
theorem genVertex_positions (atof : String → ℚ) (props1 props2 : Properties)
    (L : MeshLocals) (xi yi : Nat) (v : Vertex) :
    (genVertex atof props1 L xi yi v).positions =
      (genVertex atof props2 L xi yi v).positions := by
  unfold genVertex genVertexPhone genVertexTablet Vertex.positions
  by_cases h2 : 2 = L.orient <;> by_cases h1 : 1 = L.orient <;>
    by_cases hp : L.ipdByScale > 0 <;> by_cases hn : L.ipdByScale < 0 <;>
    simp [h2, h1, hp, hn]

/-- The eye positions of the vertex array depend on the store only through
the locals. -/
theorem genVRMeshVertices_positions (atof : String → ℚ) (props1 props2 : Properties)
    (width height : ℚ) (v : List Vertex)
    (hL : meshLocals atof props1 width height = meshLocals atof props2 width height) :
    (genVRMeshVertices atof props1 width height v).map Vertex.positions =
      (genVRMeshVertices atof props2 width height v).map Vertex.positions := by
  unfold genVRMeshVertices
  simp only [List.map_flatMap, List.map_map, hL]
  congr 1
  funext yi
  congr 1
  funext xi
  exact genVertex_positions atof props1 props2 _ xi yi _

/-- The eye positions of the face list are read off the eye positions of the
vertex array. -/
theorem genVRMeshFaces_positions (v : List Vertex) :
    (genVRMeshFaces v).map Vertex.positions =
      (List.range Warp_Mesh_Resolution_Y).flatMap fun yi =>
        (List.range Warp_Mesh_Resolution_X).flatMap fun xi =>
          [(v.map Vertex.positions).getD (yi * (Warp_Mesh_Resolution_X + 1) + xi)
              Vertex.zero.positions,
           (v.map Vertex.positions).getD (yi * (Warp_Mesh_Resolution_X + 1) + xi + 1)
              Vertex.zero.positions,
           (v.map Vertex.positions).getD ((yi + 1) * (Warp_Mesh_Resolution_X + 1) + xi + 1)
              Vertex.zero.positions,
           (v.map Vertex.positions).getD ((yi + 1) * (Warp_Mesh_Resolution_X + 1) + xi + 1)
              Vertex.zero.positions,
           (v.map Vertex.positions).getD ((yi + 1) * (Warp_Mesh_Resolution_X + 1) + xi)
              Vertex.zero.positions,
           (v.map Vertex.positions).getD (yi * (Warp_Mesh_Resolution_X + 1) + xi)
              Vertex.zero.positions] := by
  unfold genVRMeshFaces
  simp only [List.map_flatMap, List.map_cons, List.map_nil, List.getD_map]

/-- A store with IPD offset 1 and IPD scale 2. -/
theorem sampleIpd_values :
    sampleAtof (property_get [("sys.3d.ipd_offset", "1"), ("sys.3d.ipd_scale", "2")]
      "sys.3d.ipd_offset" "0") = 1 ∧
    sampleAtof (property_get [("sys.3d.ipd_offset", "1"), ("sys.3d.ipd_scale", "2")]
      "sys.3d.ipd_scale" "0") = 2 ∧
    sampleAtof (property_get (property_set
      [("sys.3d.ipd_offset", "1"), ("sys.3d.ipd_scale", "2")] "sys.3d.ipd_scale" "0")
      "sys.3d.ipd_scale" "0") = 0 := by
  have h1 : property_get [("sys.3d.ipd_offset", "1"), ("sys.3d.ipd_scale", "2")]
      "sys.3d.ipd_offset" "0" = "1" := by decide
  have h2 : property_get [("sys.3d.ipd_offset", "1"), ("sys.3d.ipd_scale", "2")]
      "sys.3d.ipd_scale" "0" = "2" := by decide
  have h3 : property_get (property_set
      [("sys.3d.ipd_offset", "1"), ("sys.3d.ipd_scale", "2")] "sys.3d.ipd_scale" "0")
      "sys.3d.ipd_scale" "0" = "0" := by decide
  rw [h1, h2, h3]
  refine ⟨?_, ?_, ?_⟩ <;> simp [sampleAtof]

/-- C20: for every configuration with IPD offset and IPD scale both non-zero,
whatever the orientation, the left-eye and right-eye positions of every vertex
of the vertex array and of the face list built by `genVRMeshBuffer` are those
built when the stored IPD scale is replaced, by `0` or by any other value,
and everything else is the same: with a non-zero offset the scale is not
used. -/
theorem ipd_offset_forces_scale (atof : String → ℚ) (props : Properties) (width height : ℚ)
    (v : List Vertex) (value : String)
    (hoff : atof (property_get props "sys.3d.ipd_offset" "0") ≠ 0)
    (hscale : atof (property_get props "sys.3d.ipd_scale" "0") ≠ 0) :
    (genVRMeshVertices atof props width height v).map Vertex.positions =
      (genVRMeshVertices atof (property_set props "sys.3d.ipd_scale" value) width height
        v).map Vertex.positions ∧
    (genVRMeshFaces (genVRMeshVertices atof props width height v)).map Vertex.positions =
      (genVRMeshFaces (genVRMeshVertices atof (property_set props "sys.3d.ipd_scale" value)
        width height v)).map Vertex.positions := by
  have hL := meshLocals_scale_forced atof props width height value hoff hscale
  have hv := genVRMeshVertices_positions atof props
    (property_set props "sys.3d.ipd_scale" value) width height v hL.symm
  refine ⟨hv, ?_⟩
  rw [genVRMeshFaces_positions, genVRMeshFaces_positions, hv]

/-- C20 (witness): IPD offset 1 and IPD scale 2 against IPD offset 1 and IPD
scale 0, on a 1440x2560 viewport. -/
theorem ipd_offset_forces_scale_witness :
    sampleAtof (property_get [("sys.3d.ipd_offset", "1"), ("sys.3d.ipd_scale", "2")]
      "sys.3d.ipd_offset" "0") ≠ 0 ∧
    sampleAtof (property_get [("sys.3d.ipd_offset", "1"), ("sys.3d.ipd_scale", "2")]
      "sys.3d.ipd_scale" "0") ≠ 0 ∧
    sampleAtof (property_get (property_set
      [("sys.3d.ipd_offset", "1"), ("sys.3d.ipd_scale", "2")] "sys.3d.ipd_scale" "0")
      "sys.3d.ipd_scale" "0") = 0 ∧
    (genVRMeshVertices sampleAtof [("sys.3d.ipd_offset", "1"), ("sys.3d.ipd_scale", "2")]
        1440 2560 []).map Vertex.positions =
      (genVRMeshVertices sampleAtof (property_set
        [("sys.3d.ipd_offset", "1"), ("sys.3d.ipd_scale", "2")] "sys.3d.ipd_scale" "0")
        1440 2560 []).map Vertex.positions ∧
    (genVRMeshFaces (genVRMeshVertices sampleAtof
        [("sys.3d.ipd_offset", "1"), ("sys.3d.ipd_scale", "2")] 1440 2560 [])).map
        Vertex.positions =
      (genVRMeshFaces (genVRMeshVertices sampleAtof (property_set
        [("sys.3d.ipd_offset", "1"), ("sys.3d.ipd_scale", "2")] "sys.3d.ipd_scale" "0")
        1440 2560 [])).map Vertex.positions :=
  have h1 : sampleAtof (property_get [("sys.3d.ipd_offset", "1"), ("sys.3d.ipd_scale", "2")]
      "sys.3d.ipd_offset" "0") ≠ 0 := by
    rw [sampleIpd_values.1]; norm_num
  have h2 : sampleAtof (property_get [("sys.3d.ipd_offset", "1"), ("sys.3d.ipd_scale", "2")]
      "sys.3d.ipd_scale" "0") ≠ 0 := by
    rw [sampleIpd_values.2.1]; norm_num
  ⟨h1, h2, sampleIpd_values.2.2,
    ipd_offset_forces_scale sampleAtof _ 1440 2560 [] "0" h1 h2⟩

/-! ## The property-update flag -/

/-- Framebuffer binds of a concatenated log. -/
theorem framebufferBinds_append (l1 l2 : List Call) :
    framebufferBinds (l1 ++ l2) = framebufferBinds l1 ++ framebufferBinds l2 := by
  simp [framebufferBinds]

/-- Selecting a program binds no framebuffer. -/
theorem framebufferBinds_useProgram (vr : Bool) (driver : Driver) (c : ProgramCache)
    (d : Description) :
    framebufferBinds (useProgram vr driver c d).log = framebufferBinds c.log := by
  rw [useProgram_log]
  cases h : valueFor c.mCache (computeKey vr d) with
  | some p =>
    rw [lookupOrGenerate_hit vr driver c _ p h, framebufferBinds_append]
    split_ifs <;> simp [framebufferBinds]
  | none =>
    rw [lookupOrGenerate_miss vr driver c _ h]
    simp only [framebufferBinds_append]
    split_ifs <;> simp [framebufferBinds]

/-- The GL calls for a mesh bind no framebuffer. -/
theorem framebufferBinds_meshCalls (mesh : Mesh) : framebufferBinds (meshCalls mesh) = [] := by
  unfold meshCalls
  split_ifs <;> simp [framebufferBinds]

/-- What `drawMeshLeftEye` leaves untouched: the description and the members,
the texture and framebuffer bindings, and the list of framebuffer binds. -/
theorem drawMeshLeftEye_fields (driver : Driver) (e : GLES20RenderEngine) :
    (drawMeshLeftEye driver e).mState = e.mState ∧
    (drawMeshLeftEye driver e).useRightFBO = e.useRightFBO ∧
    (drawMeshLeftEye driver e).mVRInfoTable = e.mVRInfoTable ∧
    (drawMeshLeftEye driver e).rightTex = e.rightTex ∧
    (drawMeshLeftEye driver e).mGroupStack = e.mGroupStack ∧
    (drawMeshLeftEye driver e).gl.textureBinding2D = e.gl.textureBinding2D ∧
    (drawMeshLeftEye driver e).gl.framebufferBinding = e.gl.framebufferBinding ∧
    framebufferBinds (drawMeshLeftEye driver e).cache.log = framebufferBinds e.cache.log := by
  refine ⟨?_, ?_, ?_, ?_, ?_, ?_, ?_, ?_⟩ <;>
    simp [drawMeshLeftEye, enableShaderTexArray, enableShaderVerArray, LEFT, RIGHT,
      GLES20RenderEngine.call, GLContext.apply, ProgramCache.record, framebufferBinds_append,
      framebufferBinds_useProgram]
  simp [framebufferBinds]

/-- What `drawMeshRightEye` leaves untouched. -/
theorem drawMeshRightEye_fields (driver : Driver) (e : GLES20RenderEngine) :
    (drawMeshRightEye driver e).mState = e.mState ∧
    (drawMeshRightEye driver e).useRightFBO = e.useRightFBO ∧
    (drawMeshRightEye driver e).mVRInfoTable = e.mVRInfoTable ∧
    (drawMeshRightEye driver e).rightTex = e.rightTex ∧
    (drawMeshRightEye driver e).mGroupStack = e.mGroupStack ∧
    (drawMeshRightEye driver e).gl.textureBinding2D = e.gl.textureBinding2D ∧
    (drawMeshRightEye driver e).gl.framebufferBinding = e.gl.framebufferBinding ∧
    framebufferBinds (drawMeshRightEye driver e).cache.log = framebufferBinds e.cache.log := by
  refine ⟨?_, ?_, ?_, ?_, ?_, ?_, ?_, ?_⟩ <;>
    simp [drawMeshRightEye, enableShaderTexArray, enableShaderVerArray, LEFT, RIGHT,
      GLES20RenderEngine.call, GLContext.apply, ProgramCache.record, framebufferBinds_append,
      framebufferBinds_useProgram]
  simp [framebufferBinds]

/-- What `endGroupActivate` sets and what it leaves. -/
theorem endGroupActivate_fields (group : Group) (e : GLES20RenderEngine) :
    (endGroupActivate group e).mState.mColorMatrix = group.colorTransform ∧
    (endGroupActivate group e).mState.mColorMatrixEnabled =
      decide (group.colorTransform ≠ mat4.identity) ∧
    (endGroupActivate group e).useRightFBO = e.useRightFBO ∧
    (endGroupActivate group e).mVRInfoTable = e.mVRInfoTable ∧
    (endGroupActivate group e).rightTex = e.rightTex ∧
    (endGroupActivate group e).mGroupStack = e.mGroupStack ∧
    (endGroupActivate group e).gl.framebufferBinding = previousTarget e.mGroupStack ∧
    framebufferBinds (endGroupActivate group e).cache.log =
      framebufferBinds e.cache.log ++ [previousTarget e.mGroupStack] := by
  simp [endGroupActivate, GLES20RenderEngine.call, GLContext.apply, ProgramCache.record,
    Description.setPlaneAlpha, Description.setPremultipliedAlpha, Description.setOpaque,
    Description.setColorMatrix, framebufferBinds]

/-- The first `switch(mode)` keeps the colour transform of the group in the
description, whatever the mode. -/
theorem endGroupSwitch_fields (mode : Int) (group : Group) (e : GLES20RenderEngine)
    (hm : e.mState.mColorMatrix = group.colorTransform)
    (hf : e.mState.mColorMatrixEnabled = decide (group.colorTransform ≠ mat4.identity)) :
    (endGroupSwitch mode group e).mState.mColorMatrix = group.colorTransform ∧
    (endGroupSwitch mode group e).mState.mColorMatrixEnabled =
      decide (group.colorTransform ≠ mat4.identity) ∧
    (endGroupSwitch mode group e).useRightFBO = e.useRightFBO ∧
    (endGroupSwitch mode group e).mVRInfoTable = e.mVRInfoTable ∧
    (endGroupSwitch mode group e).rightTex = e.rightTex ∧
    (endGroupSwitch mode group e).mGroupStack = e.mGroupStack ∧
    (endGroupSwitch mode group e).gl.framebufferBinding = e.gl.framebufferBinding ∧
    framebufferBinds (endGroupSwitch mode group e).cache.log = framebufferBinds e.cache.log := by
  unfold endGroupSwitch
  split_ifs <;>
    simp [GLES20RenderEngine.call, GLContext.apply, ProgramCache.record,
      Description.setColorMatrix, Description.setDeform, framebufferBinds, hm, hf]

/-- The dispersion step touches only the blend state and the dispersion flag. -/
theorem endGroupDispersion_fields (e : GLES20RenderEngine) :
    (endGroupDispersion e).mState.mColorMatrix = e.mState.mColorMatrix ∧
    (endGroupDispersion e).mState.mColorMatrixEnabled = e.mState.mColorMatrixEnabled ∧
    (endGroupDispersion e).useRightFBO = e.useRightFBO ∧
    (endGroupDispersion e).mVRInfoTable = e.mVRInfoTable ∧
    (endGroupDispersion e).rightTex = e.rightTex ∧
    (endGroupDispersion e).mGroupStack = e.mGroupStack ∧
    (endGroupDispersion e).gl.framebufferBinding = e.gl.framebufferBinding ∧
    framebufferBinds (endGroupDispersion e).cache.log = framebufferBinds e.cache.log := by
  by_cases h : atoi (property_get e.props "debug.sf.dispersion" "0") = 0 <;>
    simp [endGroupDispersion, h, GLES20RenderEngine.call, GLContext.apply, ProgramCache.record,
      Description.setDisper, framebufferBinds]

/-- The engine at the call of `drawMeshLeftEye()`: the description carries the
left texture and the group's colour transform, the left texture is bound,
and the one framebuffer bound since entry is the previous target. -/
theorem endGroupLeftEye_fields (mode : Int) (group : Group) (e : GLES20RenderEngine) :
    (endGroupLeftEye mode group e).mState.mTexture =
      ⟨e.mVRInfoTable.leftTex, GL_TEXTURE_2D, group.width, group.height⟩ ∧
    (endGroupLeftEye mode group e).mState.mTextureEnabled = true ∧
    (endGroupLeftEye mode group e).mState.mColorMatrix = group.colorTransform ∧
    (endGroupLeftEye mode group e).mState.mColorMatrixEnabled =
      decide (group.colorTransform ≠ mat4.identity) ∧
    (endGroupLeftEye mode group e).useRightFBO = e.useRightFBO ∧
    (endGroupLeftEye mode group e).mVRInfoTable = e.mVRInfoTable ∧
    (endGroupLeftEye mode group e).rightTex = e.rightTex ∧
    (endGroupLeftEye mode group e).mGroupStack = e.mGroupStack ∧
    (endGroupLeftEye mode group e).gl.textureBinding2D = e.mVRInfoTable.leftTex ∧
    (endGroupLeftEye mode group e).gl.framebufferBinding = previousTarget e.mGroupStack ∧
    framebufferBinds (endGroupLeftEye mode group e).cache.log =
      framebufferBinds e.cache.log ++ [previousTarget e.mGroupStack] := by
  obtain ⟨a1, a2, a3, a4, a5, a6, a7, a8⟩ := endGroupActivate_fields group e
  obtain ⟨s1, s2, s3, s4, s5, s6, s7, s8⟩ :=
    endGroupSwitch_fields mode group (endGroupActivate group e) a1 a2
  obtain ⟨d1, d2, d3, d4, d5, d6, d7, d8⟩ :=
    endGroupDispersion_fields (endGroupSwitch mode group (endGroupActivate group e))
  simp only [endGroupLeftEye, leftTexture, GLES20RenderEngine.call, GLContext.apply,
    ProgramCache.record, Description.setTexture, Texture.new, Texture.setDimensions,
    framebufferBinds_append]
  refine ⟨?_, ?_, ?_, ?_, ?_, ?_, ?_, ?_, ?_, ?_, ?_⟩
  any_goals simp [d1, d2, d3, d4, d5, d6, d7, s1, s2, s3, s4, s5, s6, s7, a1, a2, a3, a4, a5,
    a6, a7]
  rw [d8, s8, a8]
  simp [framebufferBinds]

/-- The texture selection for the right eye. -/
theorem endGroupRightEye_fields (group : Group) (e : GLES20RenderEngine) :
    (endGroupRightEye group e).mState.mTexture =
      (if e.useRightFBO = true then ⟨e.rightTex, GL_TEXTURE_2D, group.width, group.height⟩
       else ⟨e.mVRInfoTable.leftTex, GL_TEXTURE_2D, group.width, group.height⟩) ∧
    (endGroupRightEye group e).mState.mTextureEnabled = true ∧
    (endGroupRightEye group e).mState.mColorMatrix = e.mState.mColorMatrix ∧
    (endGroupRightEye group e).mState.mColorMatrixEnabled = e.mState.mColorMatrixEnabled ∧
    (endGroupRightEye group e).useRightFBO = e.useRightFBO ∧
    (endGroupRightEye group e).mGroupStack = e.mGroupStack ∧
    (endGroupRightEye group e).gl.textureBinding2D =
      (if e.useRightFBO = true then e.rightTex else e.gl.textureBinding2D) ∧
    (endGroupRightEye group e).gl.framebufferBinding = e.gl.framebufferBinding ∧
    framebufferBinds (endGroupRightEye group e).cache.log = framebufferBinds e.cache.log := by
  by_cases h : e.useRightFBO = true <;>
    simp [endGroupRightEye, h, leftTexture, rightTexture, GLES20RenderEngine.call,
      GLContext.apply, ProgramCache.record, Description.setTexture, Texture.new,
      Texture.setDimensions, framebufferBinds]

/-- The reset at the end of the stereo `endGroup`. -/
theorem endGroupReset_fields (mode : Int) (e : GLES20RenderEngine) :
    (endGroupReset mode e).useRightFBO = false ∧
    (endGroupReset mode e).mState.mColorMatrix = mat4.identity ∧
    (endGroupReset mode e).mGroupStack = e.mGroupStack ∧
    (endGroupReset mode e).gl = e.gl ∧
    (endGroupReset mode e).cache = e.cache := by
  unfold endGroupReset
  split_ifs <;> simp [enableRightFBO, Description.setColorMatrix, Description.setDeform]

/-- The three stages of the stereo `endGroup` on a stack `group :: rest`. -/
theorem endGroupVR_stages (driver : Driver) (mode : Int) (e : GLES20RenderEngine)
    (group : Group) (rest : List Group) (h : e.mGroupStack = group :: rest) :
    leftEyeDraw mode e = some (endGroupLeftEye mode group { e with mGroupStack := rest }) ∧
    rightEyeDraw driver mode e =
      some (endGroupRightEye group (drawMeshLeftEye driver
        (endGroupLeftEye mode group { e with mGroupStack := rest }))) ∧
    endGroupVR driver mode e =
      some (endGroupReset mode (drawMeshRightEye driver (endGroupRightEye group
        (drawMeshLeftEye driver (endGroupLeftEye mode group { e with mGroupStack := rest }))))) := by
  have h1 : leftEyeDraw mode e =
      some (endGroupLeftEye mode group { e with mGroupStack := rest }) := by
    unfold leftEyeDraw; rw [h]
  have h2 : rightEyeDraw driver mode e =
      some (endGroupRightEye group (drawMeshLeftEye driver
        (endGroupLeftEye mode group { e with mGroupStack := rest }))) := by
    unfold rightEyeDraw; rw [h]; simp only [h1, Option.map_some']
  refine ⟨h1, h2, ?_⟩
  unfold endGroupVR; rw [h2]; rfl

/-- The stereo `endGroup` on a stack `group :: rest`: the descriptions at the
two eye draws and the engine on return. -/
theorem endGroupVR_fields (driver : Driver) (mode : Int) (e : GLES20RenderEngine)
    (group : Group) (rest : List Group) (h : e.mGroupStack = group :: rest) :
    ∃ sL sR e2, leftEyeDraw mode e = some sL ∧ rightEyeDraw driver mode e = some sR ∧
      endGroupVR driver mode e = some e2 ∧
      sL.mState.mTexture = ⟨e.mVRInfoTable.leftTex, GL_TEXTURE_2D, group.width, group.height⟩ ∧
      sL.mState.mTextureEnabled = true ∧
      sL.gl.textureBinding2D = e.mVRInfoTable.leftTex ∧
      sL.mState.mColorMatrix = group.colorTransform ∧
      sL.mState.mColorMatrixEnabled = decide (group.colorTransform ≠ mat4.identity) ∧
      sR.mState.mTexture =
        (if e.useRightFBO = true then ⟨e.rightTex, GL_TEXTURE_2D, group.width, group.height⟩
         else ⟨e.mVRInfoTable.leftTex, GL_TEXTURE_2D, group.width, group.height⟩) ∧
      sR.mState.mTextureEnabled = true ∧
      sR.gl.textureBinding2D =
        (if e.useRightFBO = true then e.rightTex else e.mVRInfoTable.leftTex) ∧
      sR.mState.mColorMatrix = group.colorTransform ∧
      sR.mState.mColorMatrixEnabled = decide (group.colorTransform ≠ mat4.identity) ∧
      e2.useRightFBO = false ∧
      e2.mGroupStack = rest ∧
      e2.gl.framebufferBinding = previousTarget rest ∧
      framebufferBinds e2.cache.log = framebufferBinds e.cache.log ++ [previousTarget rest] := by
  obtain ⟨h1, h2, h3⟩ := endGroupVR_stages driver mode e group rest h
  obtain ⟨l1, l2, l3, l4, l5, l6, l7, l8, l9, l10, l11⟩ :=
    endGroupLeftEye_fields mode group { e with mGroupStack := rest }
  obtain ⟨m1, m2, m3, m4, m5, m6, m7, m8⟩ :=
    drawMeshLeftEye_fields driver (endGroupLeftEye mode group { e with mGroupStack := rest })
  obtain ⟨r1, r2, r3, r4, r5, r6, r7, r8, r9⟩ :=
    endGroupRightEye_fields group (drawMeshLeftEye driver
      (endGroupLeftEye mode group { e with mGroupStack := rest }))
  obtain ⟨n1, n2, n3, n4, n5, n6, n7, n8⟩ :=
    drawMeshRightEye_fields driver (endGroupRightEye group (drawMeshLeftEye driver
      (endGroupLeftEye mode group { e with mGroupStack := rest })))
  obtain ⟨z1, z2, z3, z4, z5⟩ :=
    endGroupReset_fields mode (drawMeshRightEye driver (endGroupRightEye group
      (drawMeshLeftEye driver (endGroupLeftEye mode group { e with mGroupStack := rest }))))
  refine ⟨_, _, _, h1, h2, h3, l1, l2, l9, l3, l4, ?_, r2, ?_, ?_, ?_, z1, ?_, ?_, ?_⟩
  · rw [r1, m2, m3, m4, l5, l6, l7]
  · rw [r7, m2, m4, m6, l5, l7, l9]
  · rw [r3, m1, l3]
  · rw [r4, m1, l4]
  · rw [z3, n5, r6, m5, l8]
  · rw [z4, n7, r8, m7, l10]
  · rw [z5, n8, r9, m8, l11]

/-- `genVRMeshBuffer` leaves the group stack and the viewport size. -/
theorem genVRMeshBuffer_fields (atof : String → ℚ) (width height : ℚ)
    (e : GLES20RenderEngine) :
    (genVRMeshBuffer atof width height e).1.mGroupStack = e.mGroupStack ∧
    (genVRMeshBuffer atof width height e).1.mVpWidth = e.mVpWidth ∧
    (genVRMeshBuffer atof width height e).1.mVpHeight = e.mVpHeight := by
  simp [genVRMeshBuffer, GLES20RenderEngine.glGenBuffers, GLES20RenderEngine.call]

/-- The rebuild leaves the group stack and the viewport size. -/
theorem beginGroupRebuild_fields (atof : String → ℚ) (e : GLES20RenderEngine) :
    (beginGroupRebuild atof e).mGroupStack = e.mGroupStack ∧
    (beginGroupRebuild atof e).mVpWidth = e.mVpWidth ∧
    (beginGroupRebuild atof e).mVpHeight = e.mVpHeight := by
  obtain ⟨g1, g2, g3⟩ := genVRMeshBuffer_fields atof e.mVpWidth e.mVpHeight e
  simp [beginGroupRebuild, GLES20RenderEngine.call, g1, g2, g3]

/-- Creating the targets leaves the group stack and the viewport size. -/
theorem beginGroupCreate_fields (e : GLES20RenderEngine) :
    (beginGroupCreate e).mGroupStack = e.mGroupStack ∧
    (beginGroupCreate e).mVpWidth = e.mVpWidth ∧
    (beginGroupCreate e).mVpHeight = e.mVpHeight := by
  have h1 : ∀ x : GLES20RenderEngine, (createCheckLeft x).mGroupStack = x.mGroupStack ∧
      (createCheckLeft x).mVpWidth = x.mVpWidth ∧ (createCheckLeft x).mVpHeight = x.mVpHeight := by
    intro x
    simp [createCheckLeft, textureParameters, GLES20RenderEngine.call,
      GLES20RenderEngine.glGenTextures, GLES20RenderEngine.glGenFramebuffers]
  have h2 : ∀ x : GLES20RenderEngine, (createCheckRight x).mGroupStack = x.mGroupStack ∧
      (createCheckRight x).mVpWidth = x.mVpWidth ∧
      (createCheckRight x).mVpHeight = x.mVpHeight := by
    intro x
    simp [createCheckRight, textureParameters, GLES20RenderEngine.call,
      GLES20RenderEngine.glGenTextures, GLES20RenderEngine.glGenFramebuffers]
  have h3 : ∀ x : GLES20RenderEngine, (createLeftTarget x).mGroupStack = x.mGroupStack ∧
      (createLeftTarget x).mVpWidth = x.mVpWidth ∧
      (createLeftTarget x).mVpHeight = x.mVpHeight := by
    intro x
    simp [createLeftTarget, textureParameters, GLES20RenderEngine.call,
      GLES20RenderEngine.glGenTextures, GLES20RenderEngine.glGenFramebuffers]
  have h4 : ∀ x : GLES20RenderEngine, (createRightTarget x).mGroupStack = x.mGroupStack ∧
      (createRightTarget x).mVpWidth = x.mVpWidth ∧
      (createRightTarget x).mVpHeight = x.mVpHeight := by
    intro x
    simp [createRightTarget, textureParameters, GLES20RenderEngine.call,
      GLES20RenderEngine.glGenTextures, GLES20RenderEngine.glGenFramebuffers]
  have h5 : ∀ x : GLES20RenderEngine, (createGroupNames x).mGroupStack = x.mGroupStack ∧
      (createGroupNames x).mVpWidth = x.mVpWidth ∧
      (createGroupNames x).mVpHeight = x.mVpHeight := by
    intro x
    simp [createGroupNames, textureParameters, GLES20RenderEngine.call,
      GLES20RenderEngine.glGenTextures, GLES20RenderEngine.glGenFramebuffers]
  unfold beginGroupCreate
  refine ⟨?_, ?_, ?_⟩
  · rw [(h5 _).1, (h4 _).1, (h3 _).1, (h2 _).1, (h1 _).1]
  · rw [(h5 _).2.1, (h4 _).2.1, (h3 _).2.1, (h2 _).2.1, (h1 _).2.1]
  · rw [(h5 _).2.2, (h4 _).2.2, (h3 _).2.2, (h2 _).2.2, (h1 _).2.2]

/-- Up to the bind of the left target the stereo `beginGroup` leaves the
group stack and the viewport size. -/
theorem beginGroupTargets_fields (atof : String → ℚ) (e : GLES20RenderEngine) :
    (beginGroupTargets (beginGroupRefresh atof (beginGroupSize atof e))).mGroupStack =
      e.mGroupStack ∧
    (beginGroupTargets (beginGroupRefresh atof (beginGroupSize atof e))).mVpWidth =
      e.mVpWidth ∧
    (beginGroupTargets (beginGroupRefresh atof (beginGroupSize atof e))).mVpHeight =
      e.mVpHeight := by
  have hs : (beginGroupSize atof e).mGroupStack = e.mGroupStack ∧
      (beginGroupSize atof e).mVpWidth = e.mVpWidth ∧
      (beginGroupSize atof e).mVpHeight = e.mVpHeight := by
    unfold beginGroupSize
    simp only []
    split_ifs <;> simp
  have hr : ∀ x : GLES20RenderEngine, (beginGroupRefresh atof x).mGroupStack = x.mGroupStack ∧
      (beginGroupRefresh atof x).mVpWidth = x.mVpWidth ∧
      (beginGroupRefresh atof x).mVpHeight = x.mVpHeight := by
    intro x
    unfold beginGroupRefresh
    simp only []
    split_ifs
    · exact beginGroupRebuild_fields atof _
    · simp
  have ht : ∀ x : GLES20RenderEngine, (beginGroupTargets x).mGroupStack = x.mGroupStack ∧
      (beginGroupTargets x).mVpWidth = x.mVpWidth ∧
      (beginGroupTargets x).mVpHeight = x.mVpHeight := by
    intro x
    unfold beginGroupTargets
    split_ifs
    · exact beginGroupCreate_fields x
    · simp
  refine ⟨?_, ?_, ?_⟩
  · rw [(ht _).1, (hr _).1, hs.1]
  · rw [(ht _).2.1, (hr _).2.1, hs.2.1]
  · rw [(ht _).2.2, (hr _).2.2, hs.2.2]

/-- The group pushed by the stereo `beginGroup` carries the member names,
the viewport size and the identity transform; the transform given to the
call only reaches the local copy. -/
theorem beginGroupVR_stack (atof : String → ℚ) (T : mat4) (mode : Int)
    (e : GLES20RenderEngine) :
    (beginGroupVR atof T mode e).mGroupStack =
      { texture := (beginGroupVR atof T mode e).tname,
        fbo := (beginGroupVR atof T mode e).name,
        width := e.mVpWidth, height := e.mVpHeight,
        colorTransform := mat4.identity } :: e.mGroupStack ∧
    (beginGroupVRBody atof T mode e).2.colorTransform =
      (if mode > 1 then T else mat4.identity) := by
  obtain ⟨h1, h2, h3⟩ := beginGroupTargets_fields atof e
  constructor
  · simp [beginGroupVR, beginGroupVRBody, GLES20RenderEngine.call, h1, h2, h3]
  · unfold beginGroupVRBody
    simp only []
    split_ifs <;> rfl

/-- The sample transform differs from the identity in its first entry. -/
theorem sampleTransform_ne_identity : sampleTransform ≠ mat4.identity := by
  intro h
  have h1 := congrArg (fun m : mat4 => m.c0.x) h
  norm_num [sampleTransform, mat4.identity] at h1

/-- C16 (failing input): for every colour transform `T` other than the
identity and every mode above 1, the stereo `beginGroup(T, mode)` assigns
`T` to its local `group` only after the push, so the group on the stack
carries the identity; the following `endGroup(mode)` reaches both eye draws
with the description's colour matrix equal to the identity, its enable flag
off, and so not equal to `T`. -/
theorem beginGroupVR_endGroupVR_color_matrix (atof : String → ℚ) (driver : Driver) (T : mat4)
    (mode : Int) (e : GLES20RenderEngine) (hmode : mode > 1) (hT : T ≠ mat4.identity) :
    (beginGroupVRBody atof T mode e).2.colorTransform = T ∧
    ∃ group sL sR,
      (beginGroupVR atof T mode e).mGroupStack = group :: e.mGroupStack ∧
      group.colorTransform = mat4.identity ∧
      leftEyeDraw mode (beginGroupVR atof T mode e) = some sL ∧
      rightEyeDraw driver mode (beginGroupVR atof T mode e) = some sR ∧
      sL.mState.mColorMatrix = mat4.identity ∧
      sL.mState.mColorMatrixEnabled = false ∧
      sL.mState.mColorMatrix ≠ T ∧
      sR.mState.mColorMatrix = mat4.identity ∧
      sR.mState.mColorMatrixEnabled = false ∧
      sR.mState.mColorMatrix ≠ T := by
  obtain ⟨hs, hl⟩ := beginGroupVR_stack atof T mode e
  obtain ⟨sL, sR, e2, h1, h2, -, -, -, -, l4, l5, -, -, -, r4, r5, -, -, -, -⟩ :=
    endGroupVR_fields driver mode (beginGroupVR atof T mode e) _ _ hs
  refine ⟨by rw [hl, if_pos hmode], _, sL, sR, hs, rfl, h1, h2, l4, ?_, ?_, r4, ?_, ?_⟩
  · rw [l5]; simp
  · rw [l4]; exact fun h => hT h.symm
  · rw [r5]; simp
  · rw [r4]; exact fun h => hT h.symm

/-- C16 (witness): the sample transform with mode 2 on the zero-initialised
engine. -/
theorem beginGroupVR_endGroupVR_color_matrix_witness :
    (2 : Int) > 1 ∧ sampleTransform ≠ mat4.identity ∧
    (beginGroupVRBody sampleAtof sampleTransform 2 freshEngine).2.colorTransform =
      sampleTransform ∧
    ∃ group sL sR,
      (beginGroupVR sampleAtof sampleTransform 2 freshEngine).mGroupStack =
        group :: freshEngine.mGroupStack ∧
      group.colorTransform = mat4.identity ∧
      leftEyeDraw 2 (beginGroupVR sampleAtof sampleTransform 2 freshEngine) = some sL ∧
      rightEyeDraw acceptAll 2 (beginGroupVR sampleAtof sampleTransform 2 freshEngine) =
        some sR ∧
      sL.mState.mColorMatrix = mat4.identity ∧
      sL.mState.mColorMatrixEnabled = false ∧
      sL.mState.mColorMatrix ≠ sampleTransform ∧
      sR.mState.mColorMatrix = mat4.identity ∧
      sR.mState.mColorMatrixEnabled = false ∧
      sR.mState.mColorMatrix ≠ sampleTransform :=
  ⟨by decide, sampleTransform_ne_identity,
    beginGroupVR_endGroupVR_color_matrix sampleAtof acceptAll sampleTransform 2 freshEngine
      (by decide) sampleTransform_ne_identity⟩

/-! ## The previous render target -/

/-- The one framebuffer the non-stereo `endGroup` binds is the previous
target. -/
theorem endGroup_binds (driver : Driver) (vertices : Nat) (e : GLES20RenderEngine)
    (group : Group) (rest : List Group) (h : e.mGroupStack = group :: rest) :
    ∃ e2, endGroup driver vertices e = some e2 ∧
      framebufferBinds e2.cache.log = framebufferBinds e.cache.log ++ [previousTarget rest] := by
  unfold endGroup
  rw [h]
  refine ⟨_, rfl, ?_⟩
  simp only [GLES20RenderEngine.call, ProgramCache.record, drawMesh_log,
    framebufferBinds_append, framebufferBinds_useProgram, framebufferBinds_meshCalls]
  simp [framebufferBinds]

/-- The non-stereo `beginGroup` takes the next framebuffer name. -/
theorem beginGroup_framebufferNames (T : mat4) (e : GLES20RenderEngine) :
    (beginGroup T e).gl.framebufferNames = e.gl.framebufferNames + 1 := by
  simp [beginGroup, GLES20RenderEngine.call, GLES20RenderEngine.glGenTextures,
    GLES20RenderEngine.glGenFramebuffers, GLContext.apply]

/-- C15: on a stack `group :: rest`, `endGroup` of either build returns with
the stack `rest`, and the one framebuffer it binds is that of the new top
group, or 0 when `rest` is empty. In the stereo build that framebuffer is
still bound on return; in the non-stereo build, which then deletes the
popped group's framebuffer, it is still bound unless the popped group has the
same non-zero framebuffer. For a nesting `beginGroup(A); beginGroup(B);
endGroup()` from any state, in either build, the stack is what it was after
`beginGroup(A)` and the bound framebuffer is the one recorded in A's group. -/
theorem endGroup_restores_previous_target (driver : Driver) (vertices : Nat)
    (atof : String → ℚ) (mode modeA modeB : Int) (A B : mat4) (e : GLES20RenderEngine)
    (group : Group) (rest : List Group) (h : e.mGroupStack = group :: rest)
    (e0 : GLES20RenderEngine) :
    (∃ e2, endGroup driver vertices e = some e2 ∧ e2.mGroupStack = rest ∧
      framebufferBinds e2.cache.log = framebufferBinds e.cache.log ++ [previousTarget rest] ∧
      e2.gl.framebufferBinding =
        (if group.fbo ≠ 0 ∧ previousTarget rest = group.fbo then 0 else previousTarget rest)) ∧
    (∃ e2, endGroupVR driver mode e = some e2 ∧ e2.mGroupStack = rest ∧
      framebufferBinds e2.cache.log = framebufferBinds e.cache.log ++ [previousTarget rest] ∧
      e2.gl.framebufferBinding = previousTarget rest) ∧
    (∃ gA e2, (beginGroup A e0).mGroupStack = gA :: e0.mGroupStack ∧
      endGroup driver vertices (beginGroup B (beginGroup A e0)) = some e2 ∧
      e2.mGroupStack = (beginGroup A e0).mGroupStack ∧
      e2.gl.framebufferBinding = gA.fbo) ∧
    (∃ gA e2, (beginGroupVR atof A modeA e0).mGroupStack = gA :: e0.mGroupStack ∧
      endGroupVR driver mode (beginGroupVR atof B modeB (beginGroupVR atof A modeA e0)) =
        some e2 ∧
      e2.mGroupStack = (beginGroupVR atof A modeA e0).mGroupStack ∧
      e2.gl.framebufferBinding = gA.fbo) := by
  refine ⟨?_, ?_, ?_, ?_⟩
  · obtain ⟨e2, h1, h2, -, -, -, -, h7⟩ := endGroup_fields driver vertices e group rest h
    obtain ⟨e3, h8, h9⟩ := endGroup_binds driver vertices e group rest h
    have h23 : e3 = e2 := Option.some.inj (h8.symm.trans h1)
    exact ⟨e2, h1, h2, h23 ▸ h9, h7⟩
  · obtain ⟨-, -, e2, -, -, h3, -, -, -, -, -, -, -, -, -, -, -, z2, z3, z4⟩ :=
      endGroupVR_fields driver mode e group rest h
    exact ⟨e2, h3, z2, z4, z3⟩
  · obtain ⟨-, -, -, -, a5, -⟩ := beginGroup_fields A e0
    obtain ⟨-, -, -, -, b5, -⟩ := beginGroup_fields B (beginGroup A e0)
    obtain ⟨e2, h1, h2, -, -, -, -, h7⟩ := endGroup_fields driver vertices
      (beginGroup B (beginGroup A e0)) _ _ b5
    refine ⟨_, e2, a5, h1, h2, ?_⟩
    rw [h7, a5, beginGroup_framebufferNames A e0]
    simp [previousTarget]
  · obtain ⟨a1, -⟩ := beginGroupVR_stack atof A modeA e0
    obtain ⟨b1, -⟩ := beginGroupVR_stack atof B modeB (beginGroupVR atof A modeA e0)
    obtain ⟨-, -, e2, -, -, h3, -, -, -, -, -, -, -, -, -, -, -, z2, z3, -⟩ :=
      endGroupVR_fields driver mode (beginGroupVR atof B modeB (beginGroupVR atof A modeA e0))
        _ _ b1
    refine ⟨_, e2, a1, h3, z2, ?_⟩
    rw [z3]
    generalize (beginGroupVR atof A modeA e0).mGroupStack = s at a1
    rw [a1]
    rfl

/-- C15 (witness): the engine after one non-stereo `beginGroup` on the
zero-initialised engine has a non-empty stack. -/
theorem endGroup_restores_previous_target_witness :
    ∃ group rest, (beginGroup mat4.identity freshEngine).mGroupStack = group :: rest ∧
      (∃ e2, endGroup acceptAll 4096 (beginGroup mat4.identity freshEngine) = some e2 ∧
        e2.mGroupStack = rest) ∧
      (∃ e2, endGroupVR acceptAll 2 (beginGroup mat4.identity freshEngine) = some e2 ∧
        e2.mGroupStack = rest) :=
  ⟨_, _, (beginGroup_fields mat4.identity freshEngine).2.2.2.2.1,
    let ⟨⟨e2, h1, h2, _⟩, ⟨e3, h3, h4, _⟩, _⟩ :=
      endGroup_restores_previous_target acceptAll 4096 sampleAtof 2 2 2 mat4.identity
        mat4.identity (beginGroup mat4.identity freshEngine) _ _
        (beginGroup_fields mat4.identity freshEngine).2.2.2.2.1 freshEngine
    ⟨⟨e2, h1, h2⟩, ⟨e3, h3, h4⟩⟩⟩

/-! ## Layer blending and the shader key -/

/-- For a key without plane alpha no line of the fragment source is the
`alphaPlane` declaration or one of the two `alphaPlane` modulations. -/
theorem alphaPlane_lines_absent (vr : Bool) (needs : Key) (h : needs.hasPlaneAlpha = false)
    (l : String)
    (hl : l = "uniform float alphaPlane;" ∨ l = "    gl_FragColor *= alphaPlane;" ∨
      l = "    gl_FragColor.a *= alphaPlane;") :
    l ∉ (fragmentFormatter vr needs).mLines := by
  have h0 : l ∉ expectedDeclarations needs := by
    unfold expectedDeclarations
    simp only [h, Bool.false_eq_true, if_false]
    rcases hl with h | h | h <;> subst h <;> split_ifs <;> simp
  have h1 : l ∉ colourSource vr needs := by
    unfold colourSource fadeLines
    rcases hl with h | h | h <;> subst h <;> split_ifs <;> simp
  have h2 : l ∉ opaquePart needs := by
    unfold opaquePart
    rcases hl with h | h | h <;> subst h <;> split_ifs <;> simp
  have h3 : l ∉ planeAlphaPart needs := by
    unfold planeAlphaPart
    rw [h]
    simp
  have h4 : l ∉ colorMatrixPart needs := by
    unfold colorMatrixPart
    rcases hl with h | h | h <;> subst h <;> split_ifs <;> simp
  have h5 : l ≠ "\x7d" ∧ l ≠ "void main(void) \x7b" := by
    rcases hl with h | h | h <;> subst h <;> decide
  rw [fragmentFormatter_mLines]
  simp only [List.mem_append, List.mem_cons, List.mem_singleton, List.not_mem_nil, not_or]
  exact ⟨h0, h5.2, ⟨⟨⟨⟨h1, h2⟩, h3⟩, h4⟩, h5.1, not_false⟩⟩

/-- The plane alpha stored by `setupLayerBlending` is below one exactly for
an alpha below 255. -/
theorem planeAlpha_lt_one_iff (alpha : Int) : ((alpha : ℚ) / 255 < 1) ↔ alpha < 255 := by
  rw [div_lt_one (by norm_num : (0 : ℚ) < 255)]
  exact_mod_cast Iff.rfl

/-- C24: for all premultiplied and opaque flags and every integer alpha (in
particular every alpha in 0..255), the key computed from the description
right after `setupLayerBlending(premultiplied, opaque, alpha)` has its
plane-alpha field at `LT_ONE` if and only if `alpha < 255`, and carries the
opaque and premultiplied flags as given. Whenever the call disabled blending
the key is opaque with plane alpha `EQ_ONE`, and the fragment source for the
key has neither the `alphaPlane` declaration nor a statement multiplying by
`alphaPlane`. -/
theorem setupLayerBlending_key_planeAlpha (vr premult opaq : Bool) (alpha : Int)
    (e : GLES20RenderEngine) :
    ((computeKey vr (setupLayerBlending premult opaq alpha e).mState).hasPlaneAlpha = true ↔
      alpha < 255) ∧
    (computeKey vr (setupLayerBlending premult opaq alpha e).mState).isOpaque = opaq ∧
    (computeKey vr (setupLayerBlending premult opaq alpha e).mState).isPremultiplied =
      premult ∧
    ((setupLayerBlending premult opaq alpha e).gl.blend = false →
      (computeKey vr (setupLayerBlending premult opaq alpha e).mState).isOpaque = true ∧
      (computeKey vr (setupLayerBlending premult opaq alpha e).mState).hasPlaneAlpha = false ∧
      "uniform float alphaPlane;" ∉ (fragmentFormatter vr
        (computeKey vr (setupLayerBlending premult opaq alpha e).mState)).mLines ∧
      "    gl_FragColor *= alphaPlane;" ∉ (fragmentFormatter vr
        (computeKey vr (setupLayerBlending premult opaq alpha e).mState)).mLines ∧
      "    gl_FragColor.a *= alphaPlane;" ∉ (fragmentFormatter vr
        (computeKey vr (setupLayerBlending premult opaq alpha e).mState)).mLines) := by
  obtain ⟨hs, hg⟩ := setupLayerBlending_eq premult opaq alpha e
  have hk := computeKey_eq_keyOfFields vr (setupLayerBlending premult opaq alpha e).mState
  obtain ⟨-, g2, g3, g4, -, -, -⟩ := keyOfFields_getters vr
    (textureCategory (setupLayerBlending premult opaq alpha e).mState)
    (decide ((setupLayerBlending premult opaq alpha e).mState.mPlaneAlpha < 1))
    (setupLayerBlending premult opaq alpha e).mState.mPremultipliedAlpha
    (setupLayerBlending premult opaq alpha e).mState.mOpaque
    (setupLayerBlending premult opaq alpha e).mState.mColorMatrixEnabled
    (setupLayerBlending premult opaq alpha e).mState.mDeformEnabled
    (setupLayerBlending premult opaq alpha e).mState.mDispersionEnabled
  rw [← hk] at g2 g3 g4
  have hp : (setupLayerBlending premult opaq alpha e).mState.mPlaneAlpha = (alpha : ℚ) / 255 := by
    rw [hs]
  have ho : (setupLayerBlending premult opaq alpha e).mState.mOpaque = opaq := by rw [hs]
  have hm : (setupLayerBlending premult opaq alpha e).mState.mPremultipliedAlpha = premult := by
    rw [hs]
  rw [hp] at g2
  rw [hm] at g3
  rw [ho] at g4
  have hiff : (computeKey vr (setupLayerBlending premult opaq alpha e).mState).hasPlaneAlpha =
      true ↔ alpha < 255 := by
    rw [g2, decide_eq_true_eq]
    exact planeAlpha_lt_one_iff alpha
  refine ⟨hiff, g4, g3, ?_⟩
  intro hb
  have hcond : ¬ (alpha < 255 ∨ opaq = false) := by
    intro hc
    rw [hg, if_pos hc] at hb
    exact Bool.noConfusion hb
  have halpha : ¬ alpha < 255 := fun h => hcond (Or.inl h)
  have hopaq : opaq = true := by
    cases opaq
    · exact absurd (Or.inr rfl) hcond
    · rfl
  have hno : (computeKey vr (setupLayerBlending premult opaq alpha e).mState).hasPlaneAlpha =
      false := by
    cases hh : (computeKey vr (setupLayerBlending premult opaq alpha e).mState).hasPlaneAlpha
    · rfl
    · exact absurd (hiff.mp hh) halpha
  exact ⟨g4.trans hopaq, hno,
    alphaPlane_lines_absent vr _ hno _ (Or.inl rfl),
    alphaPlane_lines_absent vr _ hno _ (Or.inr (Or.inl rfl)),
    alphaPlane_lines_absent vr _ hno _ (Or.inr (Or.inr rfl))⟩

/-! ## The warp mesh: grid and midline -/

/-- Every element of the vertex array is the loop body's vertex for some grid
point. -/
theorem mem_genVRMeshVertices (atof : String → ℚ) (props : Properties) (width height : ℚ)
    (v : List Vertex) (vert : Vertex) :
    vert ∈ genVRMeshVertices atof props width height v ↔
      ∃ yi, yi < Warp_Mesh_Resolution_Y + 1 ∧ ∃ xi, xi < Warp_Mesh_Resolution_X + 1 ∧
        genVertex atof props (meshLocals atof props width height) xi yi
          (v.getD (yi * (Warp_Mesh_Resolution_X + 1) + xi) Vertex.zero) = vert := by
  simp only [genVRMeshVertices, List.mem_flatMap, List.mem_map, List.mem_range]

/-- The locals that matter for the midline: the orientation as stored, the
IPD scale forced to zero by a non-zero offset, and the target size by
orientation. -/
theorem meshLocals_fields (atof : String → ℚ) (props : Properties) (width height : ℚ) :
    (meshLocals atof props width height).orient =
      atoi (property_get props "sys.hwc.force3d.primary" "2") ∧
    (meshLocals atof props width height).ipdByScale =
      (if atof (property_get props "sys.3d.ipd_offset" "0") ≠ 0 ∧
          atof (property_get props "sys.3d.ipd_scale" "0") ≠ 0 then 0
       else atof (property_get props "sys.3d.ipd_scale" "0")) ∧
    ((meshLocals atof props width height).orient = 2 →
      (meshLocals atof props width height).finalHeight = height * (1 / 2)) ∧
    ((meshLocals atof props width height).orient = 1 →
      (meshLocals atof props width height).finalWidth = width * (1 / 2)) := by
  refine ⟨rfl, rfl, ?_, ?_⟩
  · intro h
    have h1 : atoi (property_get props "sys.hwc.force3d.primary" "2") = 2 := h
    simp [meshLocals, h1]
  · intro h
    have h1 : atoi (property_get props "sys.hwc.force3d.primary" "2") = 1 := h
    simp [meshLocals, h1]

/-- Orientation 2 with IPD scale zero: the left eye stays at or above the
line `finalHeight`, the right eye at or below it. -/
theorem genVertexPhone_midline (atof : String → ℚ) (props : Properties) (L : MeshLocals)
    (x y : ℚ) (v : Vertex) (hs : L.ipdByScale = 0) :
    (genVertexPhone atof props L x y v).left_position.y ≤ L.finalHeight ∧
    L.finalHeight ≤ (genVertexPhone atof props L x y v).right_position.y := by
  unfold genVertexPhone
  simp only [hs, gt_iff_lt, lt_self_iff_false, if_false]
  constructor
  · split_ifs with h
    · exact le_of_lt h
    · exact le_refl _
  · split_ifs with h
    · exact le_of_lt h
    · exact le_refl _

/-- Orientation 1 with IPD scale zero: the left eye stays at or left of the
line `finalWidth`, the right eye at or right of it. -/
theorem genVertexTablet_midline (atof : String → ℚ) (props : Properties) (L : MeshLocals)
    (x y : ℚ) (v : Vertex) (hs : L.ipdByScale = 0) :
    (genVertexTablet atof props L x y v).left_position.x ≤ L.finalWidth ∧
    L.finalWidth ≤ (genVertexTablet atof props L x y v).right_position.x := by
  unfold genVertexTablet
  simp only [hs, gt_iff_lt, lt_self_iff_false, if_false]
  constructor
  · split_ifs with h
    · exact le_of_lt h
    · exact le_refl _
  · split_ifs with h
    · exact le_of_lt h
    · exact le_refl _

/-- C21: with IPD scale 0 in the store, for every IPD offset, height scale,
target size and old array contents, every vertex of the vertex array built
by `genVRMeshBuffer` has `left_position.y <= height/2 <= right_position.y`
in orientation 2 and `left_position.x <= width/2 <= right_position.x` in
orientation 1. -/
theorem genVRMesh_positions_midline (atof : String → ℚ) (props : Properties)
    (width height : ℚ) (v : List Vertex) (vert : Vertex)
    (hscale : atof (property_get props "sys.3d.ipd_scale" "0") = 0)
    (hv : vert ∈ genVRMeshVertices atof props width height v) :
    (atoi (property_get props "sys.hwc.force3d.primary" "2") = 2 →
      vert.left_position.y ≤ height / 2 ∧ height / 2 ≤ vert.right_position.y) ∧
    (atoi (property_get props "sys.hwc.force3d.primary" "2") = 1 →
      vert.left_position.x ≤ width / 2 ∧ width / 2 ≤ vert.right_position.x) := by
  obtain ⟨yi, -, xi, -, rfl⟩ := (mem_genVRMeshVertices atof props width height v vert).mp hv
  obtain ⟨ho, hsc, hfh, hfw⟩ := meshLocals_fields atof props width height
  have hs : (meshLocals atof props width height).ipdByScale = 0 := by
    rw [hsc, hscale]; simp
  constructor
  · intro h2
    have horient : (meshLocals atof props width height).orient = 2 := ho.trans h2
    have hg : ∀ old : Vertex, genVertex atof props (meshLocals atof props width height) xi yi
        old = genVertexPhone atof props (meshLocals atof props width height)
          ((xi : ℚ) / (Warp_Mesh_Resolution_X : ℚ)) ((yi : ℚ) / (Warp_Mesh_Resolution_Y : ℚ))
          old := by
      intro old
      simp [genVertex, horient]
    rw [hg, div_eq_mul_one_div height 2, ← hfh horient]
    exact genVertexPhone_midline atof props _ _ _ _ hs
  · intro h1
    have horient : (meshLocals atof props width height).orient = 1 := ho.trans h1
    have hg : ∀ old : Vertex, genVertex atof props (meshLocals atof props width height) xi yi
        old = genVertexTablet atof props (meshLocals atof props width height)
          ((xi : ℚ) / (Warp_Mesh_Resolution_X : ℚ)) ((yi : ℚ) / (Warp_Mesh_Resolution_Y : ℚ))
          old := by
      intro old
      simp [genVertex, horient]
    rw [hg, div_eq_mul_one_div width 2, ← hfw horient]
    exact genVertexTablet_midline atof props _ _ _ _ hs

/-- A store with IPD offset 1 and nothing else: scale 0, orientation 2. -/
theorem sampleOffset_values :
    sampleAtof (property_get [("sys.3d.ipd_offset", "1")] "sys.3d.ipd_scale" "0") = 0 ∧
    atoi (property_get [("sys.3d.ipd_offset", "1")] "sys.hwc.force3d.primary" "2") = 2 := by
  have h1 : property_get [("sys.3d.ipd_offset", "1")] "sys.3d.ipd_scale" "0" = "0" := by decide
  have h2 : property_get [("sys.3d.ipd_offset", "1")] "sys.hwc.force3d.primary" "2" = "2" := by
    decide
  rw [h1, h2]
  exact ⟨sampleAtof_defaults.2, by decide⟩

/-- C21 (witness): IPD offset 1, scale 0, the default orientation 2, target
1440x2560 and the last grid vertex `(64, 64)`. -/
theorem genVRMesh_positions_midline_witness :
    sampleAtof (property_get [("sys.3d.ipd_offset", "1")] "sys.3d.ipd_scale" "0") = 0 ∧
    genVertex sampleAtof [("sys.3d.ipd_offset", "1")]
        (meshLocals sampleAtof [("sys.3d.ipd_offset", "1")] 1440 2560) 64 64 Vertex.zero ∈
      genVRMeshVertices sampleAtof [("sys.3d.ipd_offset", "1")] 1440 2560 [] ∧
    (atoi (property_get [("sys.3d.ipd_offset", "1")] "sys.hwc.force3d.primary" "2") = 2 →
      (genVertex sampleAtof [("sys.3d.ipd_offset", "1")]
        (meshLocals sampleAtof [("sys.3d.ipd_offset", "1")] 1440 2560) 64 64
        Vertex.zero).left_position.y ≤ 2560 / 2 ∧
      2560 / 2 ≤ (genVertex sampleAtof [("sys.3d.ipd_offset", "1")]
        (meshLocals sampleAtof [("sys.3d.ipd_offset", "1")] 1440 2560) 64 64
        Vertex.zero).right_position.y) :=
  have hm : genVertex sampleAtof [("sys.3d.ipd_offset", "1")]
      (meshLocals sampleAtof [("sys.3d.ipd_offset", "1")] 1440 2560) 64 64 Vertex.zero ∈
      genVRMeshVertices sampleAtof [("sys.3d.ipd_offset", "1")] 1440 2560 [] :=
    (mem_genVRMeshVertices sampleAtof _ 1440 2560 [] _).mpr
      ⟨64, by decide, 64, by decide, rfl⟩
  ⟨sampleOffset_values.1, hm,
    (genVRMesh_positions_midline sampleAtof [("sys.3d.ipd_offset", "1")] 1440 2560 [] _
      sampleOffset_values.1 hm).1⟩

/-! ## The warp mesh: indexing -/

/-- The length of a concatenation of `n` blocks of length `k`. -/
theorem length_flatMap_range {α : Type} (h : Nat → List α) (k n : Nat)
    (hk : ∀ i, (h i).length = k) : ((List.range n).flatMap h).length = n * k := by
  induction n with
  | zero => simp
  | succ n ih =>
    rw [List.range_succ, List.flatMap_append, List.length_append, ih]
    simp [hk, Nat.succ_mul]

/-- Entry `j` of block `i` of a concatenation of `n` blocks of length `k`. -/
theorem getElem?_flatMap_range {α : Type} (h : Nat → List α) (k n i j : Nat)
    (hk : ∀ i, (h i).length = k) (hi : i < n) (hj : j < k) :
    ((List.range n).flatMap h)[i * k + j]? = (h i)[j]? := by
  induction n with
  | zero => omega
  | succ n ih =>
    rw [List.range_succ, List.flatMap_append]
    have hlen := length_flatMap_range h k n hk
    by_cases hin : i < n
    · have hle : (i + 1) * k ≤ n * k := Nat.mul_le_mul_right k hin
      rw [Nat.succ_mul] at hle
      rw [List.getElem?_append_left (by rw [hlen]; omega), ih hin]
    · have hn : i = n := by omega
      subst hn
      rw [List.getElem?_append_right (by rw [hlen]; omega)]
      simp [hlen]

/-- The vertex array has one entry per grid point. -/
theorem genVRMeshVertices_length (atof : String → ℚ) (props : Properties) (width height : ℚ)
    (v : List Vertex) :
    (genVRMeshVertices atof props width height v).length =
      (Warp_Mesh_Resolution_Y + 1) * (Warp_Mesh_Resolution_X + 1) := by
  unfold genVRMeshVertices
  exact length_flatMap_range _ _ _ (fun _ => by simp)

/-- The vertex of the grid point `(xi, yi)` is stored at index
`yi * (Warp_Mesh_Resolution_X + 1) + xi`. -/
theorem genVRMeshVertices_getElem? (atof : String → ℚ) (props : Properties)
    (width height : ℚ) (v : List Vertex) (xi yi : Nat)
    (hx : xi < Warp_Mesh_Resolution_X + 1) (hy : yi < Warp_Mesh_Resolution_Y + 1) :
    (genVRMeshVertices atof props width height v)[yi * (Warp_Mesh_Resolution_X + 1) + xi]? =
      some (genVertex atof props (meshLocals atof props width height) xi yi
        (v.getD (yi * (Warp_Mesh_Resolution_X + 1) + xi) Vertex.zero)) := by
  unfold genVRMeshVertices
  rw [getElem?_flatMap_range _ (Warp_Mesh_Resolution_X + 1) _ yi xi (fun _ => by simp) hy hx]
  simp [List.getElem?_map, List.getElem?_range hx]

/-- In orientations 1 and 2 the three UV coordinates of a vertex are
`genDeformTex` of the base UV with the coefficients of the channel;
`genDeformTex` reads the store itself. -/
theorem genVertex_uv (atof : String → ℚ) (props : Properties) (L : MeshLocals) (xi yi : Nat)
    (v : Vertex) (h : L.orient = 2 ∨ L.orient = 1) :
    (genVertex atof props L xi yi v).uv_red =
      genDeformTex atof props
        ⟨(xi : ℚ) / (Warp_Mesh_Resolution_X : ℚ), (yi : ℚ) / (Warp_Mesh_Resolution_Y : ℚ)⟩
        L.rk1 L.rk2 ∧
    (genVertex atof props L xi yi v).uv_green =
      genDeformTex atof props
        ⟨(xi : ℚ) / (Warp_Mesh_Resolution_X : ℚ), (yi : ℚ) / (Warp_Mesh_Resolution_Y : ℚ)⟩
        L.gk1 L.gk2 ∧
    (genVertex atof props L xi yi v).uv_blue =
      genDeformTex atof props
        ⟨(xi : ℚ) / (Warp_Mesh_Resolution_X : ℚ), (yi : ℚ) / (Warp_Mesh_Resolution_Y : ℚ)⟩
        L.bk1 L.bk2 := by
  unfold genVertex genVertexPhone genVertexTablet
  rcases h with h | h <;>
    by_cases hp : L.ipdByScale > 0 <;> by_cases hn : L.ipdByScale < 0 <;>
    simp [h, hp, hn]

/-- What the sample parser reads from the store with offset 1 and scale 1,
and from the same store with the scale replaced by `0`. -/
theorem offsetScaleStore_values :
    (sampleAtof (property_get offsetScaleStore "sys.3d.ipd_offset" "0") = 1 ∧
     sampleAtof (property_get offsetScaleStore "sys.3d.ipd_scale" "0") = 1 ∧
     sampleAtof (property_get offsetScaleStore "sys.3d.height" "0.5") = 1 / 2 ∧
     sampleAtof (property_get offsetScaleStore "sys.3d.deform_red1" "0") = 1 ∧
     sampleAtof (property_get offsetScaleStore "sys.3d.deform_red2" "0") = 0 ∧
     atoi (property_get offsetScaleStore "sys.hwc.force3d.primary" "2") = 2) ∧
    (sampleAtof (property_get (property_set offsetScaleStore "sys.3d.ipd_scale" "0")
       "sys.3d.ipd_offset" "0") = 1 ∧
     sampleAtof (property_get (property_set offsetScaleStore "sys.3d.ipd_scale" "0")
       "sys.3d.ipd_scale" "0") = 0 ∧
     sampleAtof (property_get (property_set offsetScaleStore "sys.3d.ipd_scale" "0")
       "sys.3d.height" "0.5") = 1 / 2 ∧
     sampleAtof (property_get (property_set offsetScaleStore "sys.3d.ipd_scale" "0")
       "sys.3d.deform_red1" "0") = 1 ∧
     sampleAtof (property_get (property_set offsetScaleStore "sys.3d.ipd_scale" "0")
       "sys.3d.deform_red2" "0") = 0 ∧
     atoi (property_get (property_set offsetScaleStore "sys.3d.ipd_scale" "0")
       "sys.hwc.force3d.primary" "2") = 2) := by
  have a1 : property_get offsetScaleStore "sys.3d.ipd_offset" "0" = "1" := by decide
  have a2 : property_get offsetScaleStore "sys.3d.ipd_scale" "0" = "1" := by decide
  have a3 : property_get offsetScaleStore "sys.3d.height" "0.5" = "0.5" := by decide
  have a4 : property_get offsetScaleStore "sys.3d.deform_red1" "0" = "1" := by decide
  have a5 : property_get offsetScaleStore "sys.3d.deform_red2" "0" = "0" := by decide
  have a6 : property_get offsetScaleStore "sys.hwc.force3d.primary" "2" = "2" := by decide
  have b1 : property_get (property_set offsetScaleStore "sys.3d.ipd_scale" "0")
      "sys.3d.ipd_offset" "0" = "1" := by decide
  have b2 : property_get (property_set offsetScaleStore "sys.3d.ipd_scale" "0")
      "sys.3d.ipd_scale" "0" = "0" := by decide
  have b3 : property_get (property_set offsetScaleStore "sys.3d.ipd_scale" "0")
      "sys.3d.height" "0.5" = "0.5" := by decide
  have b4 : property_get (property_set offsetScaleStore "sys.3d.ipd_scale" "0")
      "sys.3d.deform_red1" "0" = "1" := by decide
  have b5 : property_get (property_set offsetScaleStore "sys.3d.ipd_scale" "0")
      "sys.3d.deform_red2" "0" = "0" := by decide
  have b6 : property_get (property_set offsetScaleStore "sys.3d.ipd_scale" "0")
      "sys.hwc.force3d.primary" "2" = "2" := by decide
  have h2 : atoi "2" = 2 := by decide
  rw [a1, a2, a3, a4, a5, a6, b1, b2, b3, b4, b5, b6, h2]
  simp [sampleAtof]

/-- C23 (failing input): in the store with IPD offset 1, IPD scale 1 and
first red coefficient 1, offset and scale are both non-zero. The vertex of
the grid point `(64, 32)` built from this store has the same eye positions
as the one built from the store with the scale replaced by `0`, but its red
UV is `(593/512, 1/2)` where the other has `(2129/2048, 1/2)`:
`genDeformTex` reads the stored scale, not the one forced to zero. -/
theorem genVRMesh_uv_reads_stored_scale :
    sampleAtof (property_get offsetScaleStore "sys.3d.ipd_offset" "0") ≠ 0 ∧
    sampleAtof (property_get offsetScaleStore "sys.3d.ipd_scale" "0") ≠ 0 ∧
    sampleAtof (property_get (property_set offsetScaleStore "sys.3d.ipd_scale" "0")
      "sys.3d.ipd_scale" "0") = 0 ∧
    ∃ vA vB,
      (genVRMeshVertices sampleAtof offsetScaleStore 1440 2560
        [])[32 * (Warp_Mesh_Resolution_X + 1) + 64]? = some vA ∧
      (genVRMeshVertices sampleAtof (property_set offsetScaleStore "sys.3d.ipd_scale" "0")
        1440 2560 [])[32 * (Warp_Mesh_Resolution_X + 1) + 64]? = some vB ∧
      vA.positions = vB.positions ∧
      vA.uv_red = ⟨593 / 512, 1 / 2⟩ ∧
      vB.uv_red = ⟨2129 / 2048, 1 / 2⟩ ∧
      vA.uv_red ≠ vB.uv_red := by
  obtain ⟨⟨a1, a2, a3, a4, a5, a6⟩, ⟨b1, b2, b3, b4, b5, b6⟩⟩ := offsetScaleStore_values
  have hA := genVRMeshVertices_getElem? sampleAtof offsetScaleStore 1440 2560 [] 64 32
    (by decide) (by decide)
  have hB := genVRMeshVertices_getElem? sampleAtof
    (property_set offsetScaleStore "sys.3d.ipd_scale" "0") 1440 2560 [] 64 32
    (by decide) (by decide)
  have hL : meshLocals sampleAtof (property_set offsetScaleStore "sys.3d.ipd_scale" "0")
      1440 2560 = meshLocals sampleAtof offsetScaleStore 1440 2560 :=
    meshLocals_scale_forced sampleAtof offsetScaleStore 1440 2560 "0"
      (by rw [a1]; norm_num) (by rw [a2]; norm_num)
  have uA := (genVertex_uv sampleAtof offsetScaleStore
    (meshLocals sampleAtof offsetScaleStore 1440 2560) 64 32
    (([] : List Vertex).getD (32 * (Warp_Mesh_Resolution_X + 1) + 64) Vertex.zero)
    (Or.inl a6)).1
  have uB := (genVertex_uv sampleAtof (property_set offsetScaleStore "sys.3d.ipd_scale" "0")
    (meshLocals sampleAtof (property_set offsetScaleStore "sys.3d.ipd_scale" "0") 1440 2560)
    64 32 (([] : List Vertex).getD (32 * (Warp_Mesh_Resolution_X + 1) + 64) Vertex.zero)
    (Or.inl b6)).1
  have r1A : (meshLocals sampleAtof offsetScaleStore 1440 2560).rk1 = 1 := a4
  have r2A : (meshLocals sampleAtof offsetScaleStore 1440 2560).rk2 = 0 := a5
  have r1B : (meshLocals sampleAtof (property_set offsetScaleStore "sys.3d.ipd_scale" "0")
      1440 2560).rk1 = 1 := b4
  have r2B : (meshLocals sampleAtof (property_set offsetScaleStore "sys.3d.ipd_scale" "0")
      1440 2560).rk2 = 0 := b5
  have vA : genDeformTex sampleAtof offsetScaleStore
      ⟨((64 : Nat) : ℚ) / (Warp_Mesh_Resolution_X : ℚ),
        ((32 : Nat) : ℚ) / (Warp_Mesh_Resolution_Y : ℚ)⟩ 1 0 = ⟨593 / 512, 1 / 2⟩ := by
    simp only [genDeformTex, a2, a3, Screen_X, Screen_Y, Warp_Mesh_Resolution_X,
      Warp_Mesh_Resolution_Y]
    norm_num
  have vB : genDeformTex sampleAtof (property_set offsetScaleStore "sys.3d.ipd_scale" "0")
      ⟨((64 : Nat) : ℚ) / (Warp_Mesh_Resolution_X : ℚ),
        ((32 : Nat) : ℚ) / (Warp_Mesh_Resolution_Y : ℚ)⟩ 1 0 = ⟨2129 / 2048, 1 / 2⟩ := by
    simp only [genDeformTex, b2, b3, Screen_X, Screen_Y, Warp_Mesh_Resolution_X,
      Warp_Mesh_Resolution_Y]
    norm_num
  rw [r1A, r2A, vA] at uA
  rw [r1B, r2B, vB] at uB
  refine ⟨by rw [a1]; norm_num, by rw [a2]; norm_num, b2, _, _, hA, hB, ?_, uA, uB, ?_⟩
  · rw [hL]
    exact genVertex_positions sampleAtof _ _ _ 64 32 _
  · rw [uA, uB]
    intro h
    have hx := congrArg vec2.x h
    norm_num at hx

/-! ## The warp mesh: faces -/

/-- Writing entry `i` extends the prefix of length `i` by the written value. -/
theorem take_succ_set {α : Type} (f : List α) (i : Nat) (x : α) (h : i < f.length) :
    (f.set i x).take (i + 1) = f.take i ++ [x] := by
  induction f generalizing i with
  | nil => simp at h
  | cons a t ih =>
    cases i with
    | zero => simp
    | succ j =>
      have hj : j < t.length := by simpa using h
      simp [ih j hj]

/-- A checked write inside the array succeeds, keeps the size and extends
the written prefix. -/
theorem storeAt_spec (f done : List Vertex) (x : Vertex) (i j : Nat) (hj : j = i + 1)
    (ht : f.take i = done) (hlt : i < f.length) :
    ∃ f2, storeAt f i x = some f2 ∧ f2.length = f.length ∧ f2.take j = done ++ [x] := by
  subst hj
  refine ⟨f.set i x, by simp [storeAt, hlt], by simp, ?_⟩
  rw [take_succ_set f i x hlt, ht]

/-- One cell of the checked face loops: with a full vertex array and room
for six more entries, every access is inside its array and the six face
vertices of the cell are appended. -/
theorem genFaceCell_spec (v f done : List Vertex) (yi xi fi : Nat) (hv : v.length = 65 * 65)
    (hy : yi < 64) (hx : xi < 64) (ht : f.take fi = done) (hlen : fi + 6 ≤ f.length) :
    ∃ f2, genFaceCell v yi xi (f, fi) = some (f2, fi + 6) ∧ f2.length = f.length ∧
      f2.take (fi + 6) = done ++ cellFaces v yi xi := by
  have hr : ∀ i, i < v.length → v[i]? = some (v.getD i Vertex.zero) := by
    intro i hi
    simp [List.getD_eq_getElem?_getD, List.getElem?_eq_getElem hi]
  have r0 := hr (yi * (64 + 1) + xi) (by omega)
  have r1 := hr (yi * (64 + 1) + xi + 1) (by omega)
  have r2 := hr ((yi + 1) * (64 + 1) + xi + 1) (by omega)
  have r3 := hr ((yi + 1) * (64 + 1) + xi) (by omega)
  obtain ⟨f1, e1, l1, t1⟩ := storeAt_spec f done (v.getD (yi * (64 + 1) + xi) Vertex.zero)
    fi (fi + 1) rfl ht (by omega)
  obtain ⟨f2, e2, l2, t2⟩ := storeAt_spec f1 _ (v.getD (yi * (64 + 1) + xi + 1) Vertex.zero)
    (fi + 1) (fi + 2) rfl t1 (by omega)
  obtain ⟨f3, e3, l3, t3⟩ := storeAt_spec f2 _
    (v.getD ((yi + 1) * (64 + 1) + xi + 1) Vertex.zero) (fi + 2) (fi + 3) rfl t2 (by omega)
  obtain ⟨f4, e4, l4, t4⟩ := storeAt_spec f3 _
    (v.getD ((yi + 1) * (64 + 1) + xi + 1) Vertex.zero) (fi + 3) (fi + 4) rfl t3 (by omega)
  obtain ⟨f5, e5, l5, t5⟩ := storeAt_spec f4 _
    (v.getD ((yi + 1) * (64 + 1) + xi) Vertex.zero) (fi + 4) (fi + 5) rfl t4 (by omega)
  obtain ⟨f6, e6, l6, t6⟩ := storeAt_spec f5 _ (v.getD (yi * (64 + 1) + xi) Vertex.zero)
    (fi + 5) (fi + 6) rfl t5 (by omega)
  refine ⟨f6, ?_, by omega, ?_⟩
  · simp only [genFaceCell, Warp_Mesh_Resolution_X, r0, r1, r2, r3, Option.some_bind, e1, e2,
      e3, e4, e5, e6]
  · rw [t6]
    simp [cellFaces, Warp_Mesh_Resolution_X]

/-- One row of the checked face loops. -/
theorem genFaceRow_spec (v f done : List Vertex) (yi fi n : Nat) (hv : v.length = 65 * 65)
    (hy : yi < 64) (hn : n ≤ 64) (ht : f.take fi = done) (hlen : fi + 6 * n ≤ f.length) :
    ∃ f2, (List.range n).foldlM (fun st xi => genFaceCell v yi xi st) (f, fi) =
        some (f2, fi + 6 * n) ∧ f2.length = f.length ∧
      f2.take (fi + 6 * n) = done ++ (List.range n).flatMap (cellFaces v yi) := by
  induction n with
  | zero => exact ⟨f, rfl, rfl, by simpa using ht⟩
  | succ n ih =>
    obtain ⟨f1, e1, l1, t1⟩ := ih (by omega) (by omega)
    obtain ⟨f2, e2, l2, t2⟩ := genFaceCell_spec v f1 _ yi n (fi + 6 * n) hv hy (by omega) t1
      (by omega)
    have hr : List.range (n + 1) = List.range n ++ [n] := List.range_succ n
    have hidx : fi + 6 * (n + 1) = fi + 6 * n + 6 := by omega
    refine ⟨f2, ?_, by omega, ?_⟩
    · rw [hr, List.foldlM_append, e1, hidx]
      simp only [Option.bind_eq_bind, Option.some_bind, List.foldlM_cons, List.foldlM_nil, e2]
      rfl
    · rw [hidx, t2, hr, List.flatMap_append]
      simp

/-- The rows of the checked face loops. -/
theorem genFaceRows_spec (v f done : List Vertex) (fi n : Nat) (hv : v.length = 65 * 65)
    (hn : n ≤ 64) (ht : f.take fi = done) (hlen : fi + 384 * n ≤ f.length) :
    ∃ f2, (List.range n).foldlM (fun st yi =>
        (List.range 64).foldlM (fun st xi => genFaceCell v yi xi st) st) (f, fi) =
        some (f2, fi + 384 * n) ∧ f2.length = f.length ∧
      f2.take (fi + 384 * n) =
        done ++ (List.range n).flatMap fun yi => (List.range 64).flatMap (cellFaces v yi) := by
  induction n with
  | zero => exact ⟨f, rfl, rfl, by simpa using ht⟩
  | succ n ih =>
    obtain ⟨f1, e1, l1, t1⟩ := ih (by omega) (by omega)
    obtain ⟨f2, e2, l2, t2⟩ := genFaceRow_spec v f1 _ n (fi + 384 * n) 64 hv (by omega)
      (le_refl _) t1 (by omega)
    have hr : List.range (n + 1) = List.range n ++ [n] := List.range_succ n
    have hidx : fi + 384 * (n + 1) = fi + 384 * n + 6 * 64 := by omega
    refine ⟨f2, ?_, by omega, ?_⟩
    · rw [hr, List.foldlM_append, e1, hidx]
      simp only [Option.bind_eq_bind, Option.some_bind, List.foldlM_cons, List.foldlM_nil, e2]
      rfl
    · rw [hidx, t2, hr, List.flatMap_append]
      simp

/-- The face list by cells. -/
theorem genVRMeshFaces_eq_cells (v : List Vertex) :
    genVRMeshFaces v =
      (List.range 64).flatMap fun yi => (List.range 64).flatMap (cellFaces v yi) := rfl

/-- The face list has six entries per cell. -/
theorem genVRMeshFaces_length (v : List Vertex) :
    (genVRMeshFaces v).length = Warp_Mesh_Resolution_X * Warp_Mesh_Resolution_Y * 6 := by
  rw [genVRMeshFaces_eq_cells,
    length_flatMap_range _ (64 * 6) 64 (fun yi =>
      length_flatMap_range (cellFaces v yi) 6 64 (fun _ => rfl))]
  rfl

/-- Entry `j` of the cell `(xi, yi)` in the face list. -/
theorem genVRMeshFaces_getElem? (v : List Vertex) (xi yi j : Nat) (hx : xi < 64) (hy : yi < 64)
    (hj : j < 6) :
    (genVRMeshFaces v)[6 * (yi * 64 + xi) + j]? = (cellFaces v yi xi)[j]? := by
  have hidx : 6 * (yi * 64 + xi) + j = yi * (64 * 6) + (xi * 6 + j) := by omega
  rw [genVRMeshFaces_eq_cells, hidx,
    getElem?_flatMap_range _ (64 * 6) 64 yi (xi * 6 + j) (fun yi =>
      length_flatMap_range (cellFaces v yi) 6 64 (fun _ => rfl)) hy (by omega),
    getElem?_flatMap_range (cellFaces v yi) 6 64 xi j (fun _ => rfl) hx hj]

/-- With a full vertex array and a face array of the declared size the
checked face loops make no access outside an array; they end with `fi` at
the size of the face array and the face array holding the face list. -/
theorem genVRMeshFacesChecked_eq (v f : List Vertex) (hv : v.length = 65 * 65)
    (hf : f.length = 64 * 64 * 6) :
    genVRMeshFacesChecked v f = some (genVRMeshFaces v, 64 * 64 * 6) := by
  obtain ⟨f2, e2, l2, t2⟩ := genFaceRows_spec v f [] 0 64 hv (le_refl _) (by simp)
    (by omega)
  have hfull : f2.take (0 + 384 * 64) = f2 := List.take_of_length_le (by omega)
  rw [hfull, List.nil_append, ← genVRMeshFaces_eq_cells] at t2
  rw [t2] at e2
  exact e2

/-- The one draw call of `drawMeshLeftEye` and of `drawMeshRightEye` draws
triangles from `Warp_Mesh_Resolution_X * Warp_Mesh_Resolution_Y * 6`
vertices. -/
theorem drawMeshEye_draw (driver : Driver) (e : GLES20RenderEngine) :
    (Call.glDrawArrays GL_TRIANGLES 0 (Warp_Mesh_Resolution_X * Warp_Mesh_Resolution_Y * 6) ∈
        (drawMeshLeftEye driver e).cache.log ∧
      drawCount (drawMeshLeftEye driver e).cache.log = drawCount e.cache.log + 1) ∧
    (Call.glDrawArrays GL_TRIANGLES 0 (Warp_Mesh_Resolution_X * Warp_Mesh_Resolution_Y * 6) ∈
        (drawMeshRightEye driver e).cache.log ∧
      drawCount (drawMeshRightEye driver e).cache.log = drawCount e.cache.log + 1) := by
  refine ⟨⟨?_, ?_⟩, ⟨?_, ?_⟩⟩
  · simp [drawMeshLeftEye, enableShaderTexArray, enableShaderVerArray, LEFT, RIGHT,
      GLES20RenderEngine.call, ProgramCache.record]
  · simp [drawMeshLeftEye, enableShaderTexArray, enableShaderVerArray, LEFT, RIGHT,
      GLES20RenderEngine.call, ProgramCache.record, drawCount_append, drawCount_useProgram]
    simp [drawCount]
  · simp [drawMeshRightEye, enableShaderTexArray, enableShaderVerArray, LEFT, RIGHT,
      GLES20RenderEngine.call, ProgramCache.record]
  · simp [drawMeshRightEye, enableShaderTexArray, enableShaderVerArray, LEFT, RIGHT,
      GLES20RenderEngine.call, ProgramCache.record, drawCount_append, drawCount_useProgram]
    simp [drawCount]

/-- The vertex array read at the index of a grid point gives the vertex of
that grid point, not the default. -/
theorem genVRMeshVertices_getD (atof : String → ℚ) (props : Properties) (width height : ℚ)
    (old : List Vertex) (xi yi : Nat) (hx : xi < 65) (hy : yi < 65) :
    (genVRMeshVertices atof props width height old).getD (yi * (64 + 1) + xi) Vertex.zero =
      gridVertex atof props width height old xi yi := by
  rw [List.getD_eq_getElem?_getD]
  have h := genVRMeshVertices_getElem? atof props width height old xi yi hx hy
  simp only [Warp_Mesh_Resolution_X] at h
  rw [h]
  rfl

/-- The six face vertices of a cell of the rebuilt vertex array are the
vertices of the four corners of the cell. -/
theorem cellFaces_genVRMeshVertices (atof : String → ℚ) (props : Properties)
    (width height : ℚ) (old : List Vertex) (xi yi : Nat) (hx : xi < 64) (hy : yi < 64) :
    cellFaces (genVRMeshVertices atof props width height old) yi xi =
      [gridVertex atof props width height old xi yi,
       gridVertex atof props width height old (xi + 1) yi,
       gridVertex atof props width height old (xi + 1) (yi + 1),
       gridVertex atof props width height old (xi + 1) (yi + 1),
       gridVertex atof props width height old xi (yi + 1),
       gridVertex atof props width height old xi yi] := by
  have h0 := genVRMeshVertices_getD atof props width height old xi yi (by omega) (by omega)
  have h1 := genVRMeshVertices_getD atof props width height old (xi + 1) yi (by omega)
    (by omega)
  have h2 := genVRMeshVertices_getD atof props width height old (xi + 1) (yi + 1) (by omega)
    (by omega)
  have h3 := genVRMeshVertices_getD atof props width height old xi (yi + 1) (by omega)
    (by omega)
  simp only [cellFaces, Warp_Mesh_Resolution_X, ← Nat.add_assoc] at h0 h1 h2 h3 ⊢
  rw [h0, h1, h2, h3]

/-- C22: the face list built by `genVRMeshBuffer` from the rebuilt vertex
array (which has 65·65 entries) has exactly 64·64·6 entries; for every cell
`(xi, yi)` with `xi, yi < 64` its six entries from index
`6 * (yi * 64 + xi)` on are the vertices of the grid points `(xi, yi)`,
`(xi+1, yi)`, `(xi+1, yi+1)`, `(xi+1, yi+1)`, `(xi, yi+1)`, `(xi, yi)`; the
face loops with every read of the vertex array and every write of the face
array checked against the array sizes run to the end, leaving `fi` at
64·64·6 and the face array equal to the face list; and the one draw call of
`drawMeshLeftEye` and of `drawMeshRightEye` passes the length of the face
list as vertex count. -/
theorem genVRMeshFaces_layout (atof : String → ℚ) (props : Properties) (width height : ℚ)
    (old f : List Vertex) (driver : Driver) (e : GLES20RenderEngine) (xi yi : Nat)
    (hx : xi < Warp_Mesh_Resolution_X) (hy : yi < Warp_Mesh_Resolution_Y)
    (hf : f.length = Warp_Mesh_Resolution_X * Warp_Mesh_Resolution_Y * 6) :
    (genVRMeshVertices atof props width height old).length =
      (Warp_Mesh_Resolution_Y + 1) * (Warp_Mesh_Resolution_X + 1) ∧
    (genVRMeshFaces (genVRMeshVertices atof props width height old)).length =
      Warp_Mesh_Resolution_X * Warp_Mesh_Resolution_Y * 6 ∧
    (∀ j, j < 6 →
      (genVRMeshFaces (genVRMeshVertices atof props width height old))[
          6 * (yi * Warp_Mesh_Resolution_X + xi) + j]? =
        [gridVertex atof props width height old xi yi,
         gridVertex atof props width height old (xi + 1) yi,
         gridVertex atof props width height old (xi + 1) (yi + 1),
         gridVertex atof props width height old (xi + 1) (yi + 1),
         gridVertex atof props width height old xi (yi + 1),
         gridVertex atof props width height old xi yi][j]?) ∧
    genVRMeshFacesChecked (genVRMeshVertices atof props width height old) f =
      some (genVRMeshFaces (genVRMeshVertices atof props width height old),
        Warp_Mesh_Resolution_X * Warp_Mesh_Resolution_Y * 6) ∧
    (Call.glDrawArrays GL_TRIANGLES 0
        (genVRMeshFaces (genVRMeshVertices atof props width height old)).length ∈
        (drawMeshLeftEye driver e).cache.log ∧
      drawCount (drawMeshLeftEye driver e).cache.log = drawCount e.cache.log + 1) ∧
    (Call.glDrawArrays GL_TRIANGLES 0
        (genVRMeshFaces (genVRMeshVertices atof props width height old)).length ∈
        (drawMeshRightEye driver e).cache.log ∧
      drawCount (drawMeshRightEye driver e).cache.log = drawCount e.cache.log + 1) := by
  have hlen := genVRMeshVertices_length atof props width height old
  have hfl := genVRMeshFaces_length (genVRMeshVertices atof props width height old)
  refine ⟨hlen, hfl, ?_, ?_, ?_⟩
  · intro j hj
    have h := genVRMeshFaces_getElem? (genVRMeshVertices atof props width height old) xi yi j
      hx hy hj
    rw [cellFaces_genVRMeshVertices atof props width height old xi yi hx hy] at h
    exact h
  · exact genVRMeshFacesChecked_eq _ f hlen hf
  · rw [hfl]
    exact drawMeshEye_draw driver e

/-- C22 (witness): the default configuration, target 1440x2560, the last
cell `(63, 63)`, and a zero-filled face array of the declared size. -/
theorem genVRMeshFaces_layout_witness :
    63 < Warp_Mesh_Resolution_X ∧ 63 < Warp_Mesh_Resolution_Y ∧
    (List.replicate (64 * 64 * 6) Vertex.zero).length =
      Warp_Mesh_Resolution_X * Warp_Mesh_Resolution_Y * 6 ∧
    (genVRMeshFaces (genVRMeshVertices sampleAtof [] 1440 2560 [])).length =
      Warp_Mesh_Resolution_X * Warp_Mesh_Resolution_Y * 6 ∧
    genVRMeshFacesChecked (genVRMeshVertices sampleAtof [] 1440 2560 [])
        (List.replicate (64 * 64 * 6) Vertex.zero) =
      some (genVRMeshFaces (genVRMeshVertices sampleAtof [] 1440 2560 []),
        Warp_Mesh_Resolution_X * Warp_Mesh_Resolution_Y * 6) :=
  have h := genVRMeshFaces_layout sampleAtof [] 1440 2560 []
    (List.replicate (64 * 64 * 6) Vertex.zero) acceptAll freshEngine 63 63 (by decide)
    (by decide) (List.length_replicate _ _)
  ⟨by decide, by decide, List.length_replicate _ _, h.2.1, h.2.2.2.1⟩

/-- The log after `drawMeshLeftEye`: the program is selected for the
description, then the eye calls with the left-eye positions follow. -/
theorem drawMeshLeftEye_log (driver : Driver) (e : GLES20RenderEngine) :
    (drawMeshLeftEye driver e).cache.log =
      (useProgram true driver e.cache e.mState).log ++
        eyeCalls e.mVRInfoTable.VRMeshBuffer 0 := by
  simp [drawMeshLeftEye, enableShaderTexArray, enableShaderVerArray, LEFT, RIGHT,
    GLES20RenderEngine.call, ProgramCache.record, eyeCalls, VR_Buffer_Stride,
    Warp_Mesh_Resolution_X, Warp_Mesh_Resolution_Y]

/-- The log after `drawMeshRightEye`: the program is selected for the
description, then the eye calls with the right-eye positions follow. -/
theorem drawMeshRightEye_log (driver : Driver) (e : GLES20RenderEngine) :
    (drawMeshRightEye driver e).cache.log =
      (useProgram true driver e.cache e.mState).log ++
        eyeCalls e.mVRInfoTable.VRMeshBuffer 8 := by
  simp [drawMeshRightEye, enableShaderTexArray, enableShaderVerArray, LEFT, RIGHT,
    GLES20RenderEngine.call, ProgramCache.record, eyeCalls, VR_Buffer_Stride,
    Warp_Mesh_Resolution_X, Warp_Mesh_Resolution_Y]

/-- The eye calls hold exactly one draw call. -/
theorem drawCount_eyeCalls (buffer positionOffset : Nat) :
    drawCount (eyeCalls buffer positionOffset) = 1 := by
  simp [eyeCalls, drawCount]

/-- The GL calls of the stereo `endGroup` up to the left-eye draw. -/
theorem endGroupLeftEye_log (mode : Int) (group : Group) (e : GLES20RenderEngine) :
    (endGroupLeftEye mode group e).cache.log =
      e.cache.log ++
        [Call.glBindFramebuffer (previousTarget e.mGroupStack),
         Call.glBindTexture GL_TEXTURE_2D e.mVRInfoTable.leftTex,
         Call.glBindTexture GL_TEXTURE_2D e.rightTex] ++
        (if mode = 1 ∨ mode = 2 then
          [Call.glTexParameteri GL_TEXTURE_2D GL_TEXTURE_MAG_FILTER GL_LINEAR,
           Call.glTexParameteri GL_TEXTURE_2D GL_TEXTURE_MIN_FILTER GL_LINEAR]
         else []) ++
        [Call.glDisable GL_BLEND,
         Call.glBindTexture GL_TEXTURE_2D e.mVRInfoTable.leftTex] ∧
    (endGroupLeftEye mode group e).mVRInfoTable = e.mVRInfoTable := by
  have ha : (endGroupActivate group e).cache.log =
      e.cache.log ++
        [Call.glBindFramebuffer (previousTarget e.mGroupStack),
         Call.glBindTexture GL_TEXTURE_2D e.mVRInfoTable.leftTex,
         Call.glBindTexture GL_TEXTURE_2D e.rightTex] ∧
      (endGroupActivate group e).mVRInfoTable = e.mVRInfoTable := by
    simp [endGroupActivate, GLES20RenderEngine.call, ProgramCache.record]
  have hs : ∀ x : GLES20RenderEngine, (endGroupSwitch mode group x).cache.log =
      x.cache.log ++
        (if mode = 1 ∨ mode = 2 then
          [Call.glTexParameteri GL_TEXTURE_2D GL_TEXTURE_MAG_FILTER GL_LINEAR,
           Call.glTexParameteri GL_TEXTURE_2D GL_TEXTURE_MIN_FILTER GL_LINEAR]
         else []) ∧
      (endGroupSwitch mode group x).mVRInfoTable = x.mVRInfoTable := by
    intro x
    unfold endGroupSwitch
    by_cases h1 : mode = 1
    · simp [h1, GLES20RenderEngine.call, ProgramCache.record]
    · by_cases h2 : mode = 2
      · simp [h2, GLES20RenderEngine.call, ProgramCache.record]
      · by_cases h3 : mode = 3 <;> simp [h1, h2, h3]
  have hd : ∀ x : GLES20RenderEngine, (endGroupDispersion x).cache.log =
      x.cache.log ++ [Call.glDisable GL_BLEND] ∧
      (endGroupDispersion x).mVRInfoTable = x.mVRInfoTable := by
    intro x
    by_cases h : atoi (property_get x.props "debug.sf.dispersion" "0") = 0 <;>
      simp [endGroupDispersion, h, GLES20RenderEngine.call, ProgramCache.record]
  simp only [endGroupLeftEye, GLES20RenderEngine.call, ProgramCache.record]
  rw [(hd _).1, (hd _).2, (hs _).1, (hs _).2, ha.1, ha.2]
  simp

/-- The GL call of the texture selection for the right eye. -/
theorem endGroupRightEye_log (group : Group) (e : GLES20RenderEngine) :
    (endGroupRightEye group e).cache.log =
      e.cache.log ++
        (if e.useRightFBO = true then [Call.glBindTexture GL_TEXTURE_2D e.rightTex]
         else []) ∧
    (endGroupRightEye group e).mVRInfoTable = e.mVRInfoTable := by
  by_cases h : e.useRightFBO = true <;>
    simp [endGroupRightEye, h, GLES20RenderEngine.call, ProgramCache.record]

/-- The logs of the stereo `endGroup` on a stack `group :: rest`: up to the
left-eye draw, up to the right-eye draw, and on return. -/
theorem endGroupVR_logs (driver : Driver) (mode : Int) (e : GLES20RenderEngine)
    (group : Group) (rest : List Group) (h : e.mGroupStack = group :: rest) :
    ∃ sL sR e2, leftEyeDraw mode e = some sL ∧ rightEyeDraw driver mode e = some sR ∧
      endGroupVR driver mode e = some e2 ∧
      sL.cache.log =
        e.cache.log ++
          [Call.glBindFramebuffer (previousTarget rest),
           Call.glBindTexture GL_TEXTURE_2D e.mVRInfoTable.leftTex,
           Call.glBindTexture GL_TEXTURE_2D e.rightTex] ++
          (if mode = 1 ∨ mode = 2 then
            [Call.glTexParameteri GL_TEXTURE_2D GL_TEXTURE_MAG_FILTER GL_LINEAR,
             Call.glTexParameteri GL_TEXTURE_2D GL_TEXTURE_MIN_FILTER GL_LINEAR]
           else []) ++
          [Call.glDisable GL_BLEND,
           Call.glBindTexture GL_TEXTURE_2D e.mVRInfoTable.leftTex] ∧
      sR.cache.log =
        (useProgram true driver sL.cache sL.mState).log ++
          eyeCalls e.mVRInfoTable.VRMeshBuffer 0 ++
          (if e.useRightFBO = true then [Call.glBindTexture GL_TEXTURE_2D e.rightTex]
           else []) ∧
      e2.cache.log =
        (useProgram true driver sR.cache sR.mState).log ++
          eyeCalls e.mVRInfoTable.VRMeshBuffer 8 ∧
      drawCount e2.cache.log = drawCount e.cache.log + 2 := by
  obtain ⟨h1, h2, h3⟩ := endGroupVR_stages driver mode e group rest h
  obtain ⟨a1, a2⟩ := endGroupLeftEye_log mode group { e with mGroupStack := rest }
  obtain ⟨-, m2, m3, m4, -, -, -, -⟩ :=
    drawMeshLeftEye_fields driver (endGroupLeftEye mode group { e with mGroupStack := rest })
  obtain ⟨-, -, -, -, l5, -, -, -, -, -, -⟩ :=
    endGroupLeftEye_fields mode group { e with mGroupStack := rest }
  have b := drawMeshLeftEye_log driver (endGroupLeftEye mode group { e with mGroupStack := rest })
  obtain ⟨c1, c2⟩ := endGroupRightEye_log group
    (drawMeshLeftEye driver (endGroupLeftEye mode group { e with mGroupStack := rest }))
  have d := drawMeshRightEye_log driver (endGroupRightEye group
    (drawMeshLeftEye driver (endGroupLeftEye mode group { e with mGroupStack := rest })))
  obtain ⟨-, -, -, -, z5⟩ :=
    endGroupReset_fields mode (drawMeshRightEye driver (endGroupRightEye group
      (drawMeshLeftEye driver (endGroupLeftEye mode group { e with mGroupStack := rest }))))
  have hsR : (endGroupRightEye group (drawMeshLeftEye driver
      (endGroupLeftEye mode group { e with mGroupStack := rest }))).cache.log =
      (useProgram true driver (endGroupLeftEye mode group { e with mGroupStack := rest }).cache
        (endGroupLeftEye mode group { e with mGroupStack := rest }).mState).log ++
        eyeCalls e.mVRInfoTable.VRMeshBuffer 0 ++
        (if e.useRightFBO = true then [Call.glBindTexture GL_TEXTURE_2D e.rightTex]
         else []) := by
    rw [c1, b, m2, m4, l5, a2]
    have hr : (endGroupLeftEye mode group { e with mGroupStack := rest }).rightTex =
        e.rightTex := (endGroupLeftEye_fields mode group { e with mGroupStack := rest }).2.2.2.2.2.2.1
    rw [hr]
  have he2 : (endGroupReset mode (drawMeshRightEye driver (endGroupRightEye group
      (drawMeshLeftEye driver (endGroupLeftEye mode group
        { e with mGroupStack := rest }))))).cache.log =
      (useProgram true driver (endGroupRightEye group (drawMeshLeftEye driver
          (endGroupLeftEye mode group { e with mGroupStack := rest }))).cache
        (endGroupRightEye group (drawMeshLeftEye driver
          (endGroupLeftEye mode group { e with mGroupStack := rest }))).mState).log ++
        eyeCalls e.mVRInfoTable.VRMeshBuffer 8 := by
    rw [z5, d, c2, m3, a2]
  refine ⟨_, _, _, h1, h2, h3, a1, hsR, he2, ?_⟩
  rw [he2, drawCount_append, drawCount_useProgram, hsR, drawCount_append, drawCount_append,
    drawCount_useProgram, a1, drawCount_eyeCalls, drawCount_eyeCalls]
  simp only [drawCount_append]
  split_ifs <;> simp [drawCount]

/-- C17: on a non-empty group stack the stereo `endGroup` returns, and its
two draw calls are the two eye draws. Up to the left-eye draw it binds the
previous target and ends by binding the texture `mVRInfoTable.leftTex`; the
left eye is then drawn: the program is selected for a description whose
texture is the left-eye texture (that name, the group's dimensions), and
the eye calls with the left-eye positions follow in the log. Before the
right-eye draw the texture `rightTex` is bound and set in the description
when `useRightFBO` was true on entry; otherwise nothing is bound and the
description gets the left-eye texture again. The right eye is then drawn:
program selection for that description, then the eye calls with the
right-eye positions, which end the log. On return `useRightFBO` is false. -/
theorem endGroupVR_eye_textures (driver : Driver) (mode : Int) (e : GLES20RenderEngine)
    (group : Group) (rest : List Group) (h : e.mGroupStack = group :: rest) :
    ∃ sL sR e2, leftEyeDraw mode e = some sL ∧ rightEyeDraw driver mode e = some sR ∧
      endGroupVR driver mode e = some e2 ∧
      sL.mState.mTexture = ⟨e.mVRInfoTable.leftTex, GL_TEXTURE_2D, group.width, group.height⟩ ∧
      sL.mState.mTextureEnabled = true ∧
      sL.gl.textureBinding2D = e.mVRInfoTable.leftTex ∧
      sR.mState.mTexture =
        (if e.useRightFBO = true then ⟨e.rightTex, GL_TEXTURE_2D, group.width, group.height⟩
         else ⟨e.mVRInfoTable.leftTex, GL_TEXTURE_2D, group.width, group.height⟩) ∧
      sR.mState.mTextureEnabled = true ∧
      sR.gl.textureBinding2D =
        (if e.useRightFBO = true then e.rightTex else e.mVRInfoTable.leftTex) ∧
      e2.useRightFBO = false ∧
      sL.cache.log =
        e.cache.log ++
          [Call.glBindFramebuffer (previousTarget rest),
           Call.glBindTexture GL_TEXTURE_2D e.mVRInfoTable.leftTex,
           Call.glBindTexture GL_TEXTURE_2D e.rightTex] ++
          (if mode = 1 ∨ mode = 2 then
            [Call.glTexParameteri GL_TEXTURE_2D GL_TEXTURE_MAG_FILTER GL_LINEAR,
             Call.glTexParameteri GL_TEXTURE_2D GL_TEXTURE_MIN_FILTER GL_LINEAR]
           else []) ++
          [Call.glDisable GL_BLEND,
           Call.glBindTexture GL_TEXTURE_2D e.mVRInfoTable.leftTex] ∧
      sR.cache.log =
        (useProgram true driver sL.cache sL.mState).log ++
          eyeCalls e.mVRInfoTable.VRMeshBuffer 0 ++
          (if e.useRightFBO = true then [Call.glBindTexture GL_TEXTURE_2D e.rightTex]
           else []) ∧
      e2.cache.log =
        (useProgram true driver sR.cache sR.mState).log ++
          eyeCalls e.mVRInfoTable.VRMeshBuffer 8 ∧
      drawCount e2.cache.log = drawCount e.cache.log + 2 := by
  obtain ⟨sL, sR, e2, h1, h2, h3, l1, l2, l3, -, -, r1, r2, r3, -, -, z1, -, -, -⟩ :=
    endGroupVR_fields driver mode e group rest h
  obtain ⟨sL2, sR2, e3, k1, k2, k3, g1, g2, g3, g4⟩ := endGroupVR_logs driver mode e group rest h
  have hL : sL2 = sL := Option.some.inj (k1.symm.trans h1)
  have hR : sR2 = sR := Option.some.inj (k2.symm.trans h2)
  have hE : e3 = e2 := Option.some.inj (k3.symm.trans h3)
  subst hL hR hE
  exact ⟨_, _, _, h1, h2, h3, l1, l2, l3, r1, r2, r3, z1, g1, g2, g3, g4⟩

/-- C17 (witness): the engine after `enableRightFBO(true)` and a stereo
`beginGroup` on the sample engine has a non-empty stack; with a driver that
accepts every program the stereo `endGroup` issues two draw calls. -/
theorem endGroupVR_eye_textures_witness :
    ∃ group rest,
      (beginGroupVR sampleAtof mat4.identity 2 (enableRightFBO true freshEngine)).mGroupStack =
        group :: rest ∧
      ∃ sL sR e2,
        leftEyeDraw 2 (beginGroupVR sampleAtof mat4.identity 2
          (enableRightFBO true freshEngine)) = some sL ∧
        rightEyeDraw acceptAll 2 (beginGroupVR sampleAtof mat4.identity 2
          (enableRightFBO true freshEngine)) = some sR ∧
        endGroupVR acceptAll 2 (beginGroupVR sampleAtof mat4.identity 2
          (enableRightFBO true freshEngine)) = some e2 ∧
        sL.mState.mTextureEnabled = true ∧ sR.mState.mTextureEnabled = true ∧
        e2.useRightFBO = false ∧
        drawCount e2.cache.log =
          drawCount (beginGroupVR sampleAtof mat4.identity 2
            (enableRightFBO true freshEngine)).cache.log + 2 :=
  ⟨_, _, (beginGroupVR_stack sampleAtof mat4.identity 2 (enableRightFBO true freshEngine)).1,
    let ⟨sL, sR, e2, h1, h2, h3, _, l2, _, _, r2, _, z1, _, _, _, g4⟩ :=
      endGroupVR_eye_textures acceptAll 2
        (beginGroupVR sampleAtof mat4.identity 2 (enableRightFBO true freshEngine)) _ _
        (beginGroupVR_stack sampleAtof mat4.identity 2 (enableRightFBO true freshEngine)).1
    ⟨sL, sR, e2, h1, h2, h3, l2, r2, z1, g4⟩⟩

/-- The result of `atoi` is a 32-bit `int`. -/
theorem atoi_range (s : String) : -(2 ^ 31) ≤ atoi s ∧ atoi s < 2 ^ 31 := by
  unfold atoi longToInt
  have h31 : (2 : Int) ^ 31 = 2147483648 := by norm_num
  have h32 : (2 : Int) ^ 32 = 4294967296 := by norm_num
  rw [h31, h32]
  omega

/-- Where the decimal value fits a 32-bit `int`, `atoi` returns it. -/
theorem atoi_eq_strtol (s : String) (hlo : -(2 ^ 31) ≤ strtol s) (hhi : strtol s < 2 ^ 31) :
    atoi s = strtol s := by
  unfold atoi longToInt
  have h31 : (2 : Int) ^ 31 = 2147483648 := by norm_num
  have h32 : (2 : Int) ^ 32 = 4294967296 := by norm_num
  rw [h31] at hlo hhi
  rw [h31, h32]
  omega

/-- Decimal strings beyond 32 bits: `2^32` reads as zero, and a value beyond
the range of `long` reads as `-1`. -/
theorem atoi_beyond_int :
    atoi "4294967296" = 0 ∧ atoi "4294967297" = 1 ∧ atoi "99999999999999999999" = -1 := by
  decide

end android
